import Mathlib

/-!
Verification of the case-insensitive byte-sequence library (`insensitive-buf`).

Byte sequences are modelled as `List Nat` (each element a byte value), Unicode
scalar values as `Nat`.  The development embeds, faithfully to the Rust source:

* the UTF-8 chunk decomposition used by `CasedChunks` (Rust core's
  `Utf8Chunks` iterator from `str/lossy.rs`), including the exact
  break/consume behaviour of the scanning loop;
* UTF-8 decoding of valid chunk text (`str::chars`) and encoding of scalar
  values (`char::encode_utf8`);
* the full Unicode case-mapping tables behind `char::to_uppercase` /
  `char::to_lowercase`;
* the derived equality, ordering, hashing and encoding operations of
  `Insensitive` / `CasedChunk`, and `InsensitiveBuf::extend_from_slice_reversed`.
-/

set_option maxRecDepth 16000
set_option maxHeartbeats 2000000

namespace Insensitive

/-- Unicode scalar value predicate, as for Rust `char`: below 0x110000 and not a
surrogate. -/
def isScalar (c : Nat) : Bool := decide (c < 0x110000) && !(decide (0xD800 ≤ c) && decide (c < 0xE000))

/-- The `utf8_char_width` table of Rust core: expected total width in bytes of a
UTF-8 encoded character, given its first byte. -/
def utf8CharWidth (b : Nat) : Nat :=
  if b < 0x80 then 1
  else if b < 0xC2 then 0
  else if b < 0xE0 then 2
  else if b < 0xF0 then 3
  else if b < 0xF5 then 4
  else 0

/-- The continuation-byte test of the scanning loop: `byte & 192 == TAG_CONT_U8`
with `TAG_CONT_U8 = 128`. -/
def isCont (b : Nat) : Bool := b &&& 192 == 128

/-- The second-byte check for a three-byte sequence, from the `match` in
`Utf8Chunks::next`: `(0xE0, 0xA0..=0xBF) | (0xE1..=0xEC, 0x80..=0xBF) |
(0xED, 0x80..=0x9F) | (0xEE..=0xEF, 0x80..=0xBF)`. -/
def valid3 (b b1 : Nat) : Bool :=
  (b == 0xE0 && decide (0xA0 ≤ b1 ∧ b1 ≤ 0xBF)) ||
  (decide (0xE1 ≤ b ∧ b ≤ 0xEC) && decide (0x80 ≤ b1 ∧ b1 ≤ 0xBF)) ||
  (b == 0xED && decide (0x80 ≤ b1 ∧ b1 ≤ 0x9F)) ||
  (decide (0xEE ≤ b ∧ b ≤ 0xEF) && decide (0x80 ≤ b1 ∧ b1 ≤ 0xBF))

/-- The second-byte check for a four-byte sequence, from the `match` in
`Utf8Chunks::next`: `(0xF0, 0x90..=0xBF) | (0xF1..=0xF3, 0x80..=0xBF) |
(0xF4, 0x80..=0x8F)`. -/
def valid4 (b b1 : Nat) : Bool :=
  (b == 0xF0 && decide (0x90 ≤ b1 ∧ b1 ≤ 0xBF)) ||
  (decide (0xF1 ≤ b ∧ b ≤ 0xF3) && decide (0x80 ≤ b1 ∧ b1 ≤ 0xBF)) ||
  (b == 0xF4 && decide (0x80 ≤ b1 ∧ b1 ≤ 0x8F))

/-- One iteration of the scanning loop of `Utf8Chunks::next` (Rust core,
`str/lossy.rs`).  `b` is the byte just read (the loop has already advanced `i`
past it) and `rest` the bytes after it; bytes past the end read as 0
(`safe_get`), which fails every check.  Returns `(k, ok)`: the loop advances
`i` by `k` further bytes (so this character consumed `k + 1` bytes in total),
and `ok` tells whether a complete valid character was read (the loop then sets
`valid_up_to = i`) or the loop breaks. -/
def stepChar (b : Nat) (rest : List Nat) : Nat × Bool :=
  if b < 128 then (0, true)
  else
    match utf8CharWidth b, rest with
    | 2, b1 :: _ => if isCont b1 then (1, true) else (0, false)
    | 3, b1 :: rest1 =>
        if valid3 b b1 then
          match rest1 with
          | b2 :: _ => if isCont b2 then (2, true) else (1, false)
          | [] => (1, false)
        else (0, false)
    | 4, b1 :: rest1 =>
        if valid4 b b1 then
          match rest1 with
          | b2 :: rest2 =>
              if isCont b2 then
                match rest2 with
                | b3 :: _ => if isCont b3 then (3, true) else (2, false)
                | [] => (2, false)
              else (1, false)
          | [] => (1, false)
        else (0, false)
    | _, _ => (0, false)

/-- The scanning loop of `Utf8Chunks::next`, with explicit fuel (every
character consumes at least one byte, so `l.length` fuel always suffices; see
`chunkNextGo_fuel`).  Scans characters while they are valid; on the first
break, the bytes consumed past the valid prefix form the invalid part.
Returns `(valid, invalid, remaining)`. -/
def chunkNextGo : Nat → List Nat → List Nat × List Nat × List Nat
  | _, [] => ([], [], [])
  | 0, l => ([], [], l)
  | fuel + 1, b :: rest =>
    match stepChar b rest with
    | (k, true) =>
      match chunkNextGo fuel (rest.drop k) with
      | (v, inv, rem) => ((b :: rest.take k) ++ v, inv, rem)
    | (k, false) => ([], b :: rest.take k, rest.drop k)

/-- The body of `Utf8Chunks::next`: the valid bytes of the next chunk, its
invalid bytes, and the unconsumed remainder of the source. -/
def chunkNext (l : List Nat) : List Nat × List Nat × List Nat := chunkNextGo l.length l

/-- Iterating `Utf8Chunks::next` to exhaustion, with explicit fuel (each chunk
consumes at least one byte, so `l.length` fuel always suffices; see
`utf8ChunksList_cons`). -/
def utf8ChunksGo : Nat → List Nat → List (List Nat × List Nat)
  | 0, _ => []
  | _, [] => []
  | fuel + 1, b :: rest =>
    match chunkNext (b :: rest) with
    | (v, inv, rem) => (v, inv) :: utf8ChunksGo fuel rem

/-- The chunk sequence of a byte slice: the list of `(valid, invalid)` chunks
produced by Rust's `<[u8]>::utf8_chunks()`, which underlies `CasedChunks`. -/
def utf8ChunksList (l : List Nat) : List (List Nat × List Nat) :=
  utf8ChunksGo l.length l

/-- Decoding of UTF-8 bytes into scalar values, following `next_code_point`
(Rust core, `str/validations.rs`), which reads bytes past the end of the
iterator as 0 (`unwrap_or_0`) and is only invoked on valid UTF-8.  Bit masking
and shifting are written as `%` and `*` on `Nat` (`x & 63 = x % 64`,
`x & 31 = x % 32`, `x & 7 = x % 8`, `x << 6 = x * 64`, which agree for all
naturals).  Explicit fuel keeps the recursion structural; `l.length` fuel
always suffices (see `decodeUtf8_cons`). -/
def decodeUtf8Go : Nat → List Nat → List Nat
  | _, [] => []
  | 0, _ => []
  | fuel + 1, x :: rest =>
    if x < 128 then x :: decodeUtf8Go fuel rest
    else if x < 224 then
      (x % 32 * 64 + rest.headD 0 % 64) :: decodeUtf8Go fuel (rest.drop 1)
    else if x < 240 then
      (x % 32 * 4096 + rest.headD 0 % 64 * 64 + (rest.drop 1).headD 0 % 64) ::
        decodeUtf8Go fuel (rest.drop 2)
    else
      (x % 8 * 262144 + rest.headD 0 % 64 * 4096 + (rest.drop 1).headD 0 % 64 * 64 +
        (rest.drop 2).headD 0 % 64) :: decodeUtf8Go fuel (rest.drop 3)

/-- Decoding of the valid UTF-8 text of a chunk into scalar values
(`str::chars`). -/
def decodeUtf8 (l : List Nat) : List Nat := decodeUtf8Go l.length l

/-- UTF-8 encoding of one scalar value, following `char::encode_utf8`; tag bits
are added to the disjoint 6-bit payload fields, which equals the bitwise `or`
used by the source. -/
def utf8Encode (c : Nat) : List Nat :=
  if c < 0x80 then [c]
  else if c < 0x800 then [0xC0 + c / 64, 0x80 + c % 64]
  else if c < 0x10000 then [0xE0 + c / 4096, 0x80 + c / 64 % 64, 0x80 + c % 64]
  else [0xF0 + c / 262144, 0x80 + c / 4096 % 64, 0x80 + c / 64 % 64, 0x80 + c % 64]

/-- UTF-8 encoding of a sequence of scalar values. -/
def encodeScalars (s : List Nat) : List Nat := (s.map utf8Encode).flatten


/-- A binary search tree from scalar values to case mappings, modelling the
binary search performed by `char::to_uppercase` / `char::to_lowercase` over
their sorted mapping tables. -/
inductive NatMap where
  | leaf
  | node (l : NatMap) (k : Nat) (v : List Nat) (r : NatMap)

/-- Binary search in the mapping table. -/
def NatMap.find : NatMap → Nat → Option (List Nat)
  | .leaf, _ => none
  | .node l k v r, c => if c < k then l.find c else if k < c then r.find c else some v

/-- Every entry of the table satisfies `p`. -/
def NatMap.allEntries (p : Nat → List Nat → Bool) : NatMap → Bool
  | .leaf => true
  | .node l k v r => p k v && l.allEntries p && r.allEntries p

/-- Subtree of `upperMap`. -/
def upperMapSub1 : NatMap :=
  (.node (.node (.node (.node (.node (.node (.node (.node .leaf 0x61 [0x41] .leaf) 0x62 [0x42] .leaf) 0x63 [0x43] (.node (.node .leaf 0x64 [0x44] .leaf) 0x65 [0x45] .leaf)) 0x66 [0x46] (.node (.node (.node .leaf 0x67 [0x47] .leaf) 0x68 [0x48] .leaf) 0x69 [0x49] (.node (.node .leaf 0x6A [0x4A] .leaf) 0x6B [0x4B] .leaf))) 0x6C [0x4C] (.node (.node (.node (.node .leaf 0x6D [0x4D] .leaf) 0x6E [0x4E] .leaf) 0x6F [0x4F] (.node (.node .leaf 0x70 [0x50] .leaf) 0x71 [0x51] .leaf)) 0x72 [0x52] (.node (.node (.node .leaf 0x73 [0x53] .leaf) 0x74 [0x54] .leaf) 0x75 [0x55] (.node (.node .leaf 0x76 [0x56] .leaf) 0x77 [0x57] .leaf)))) 0x78 [0x58] (.node (.node (.node (.node (.node .leaf 0x79 [0x59] .leaf) 0x7A [0x5A] .leaf) 0xB5 [0x39C] (.node (.node .leaf 0xDF [0x53, 0x53] .leaf) 0xE0 [0xC0] .leaf)) 0xE1 [0xC1] (.node (.node (.node .leaf 0xE2 [0xC2] .leaf) 0xE3 [0xC3] .leaf) 0xE4 [0xC4] (.node (.node .leaf 0xE5 [0xC5] .leaf) 0xE6 [0xC6] .leaf))) 0xE7 [0xC7] (.node (.node (.node (.node .leaf 0xE8 [0xC8] .leaf) 0xE9 [0xC9] .leaf) 0xEA [0xCA] (.node (.node .leaf 0xEB [0xCB] .leaf) 0xEC [0xCC] .leaf)) 0xED [0xCD] (.node (.node (.node .leaf 0xEE [0xCE] .leaf) 0xEF [0xCF] .leaf) 0xF0 [0xD0] (.node (.node .leaf 0xF1 [0xD1] .leaf) 0xF2 [0xD2] .leaf))))) 0xF3 [0xD3] (.node (.node (.node (.node (.node (.node .leaf 0xF4 [0xD4] .leaf) 0xF5 [0xD5] .leaf) 0xF6 [0xD6] (.node (.node .leaf 0xF8 [0xD8] .leaf) 0xF9 [0xD9] .leaf)) 0xFA [0xDA] (.node (.node (.node .leaf 0xFB [0xDB] .leaf) 0xFC [0xDC] .leaf) 0xFD [0xDD] (.node (.node .leaf 0xFE [0xDE] .leaf) 0xFF [0x178] .leaf))) 0x101 [0x100] (.node (.node (.node (.node .leaf 0x103 [0x102] .leaf) 0x105 [0x104] .leaf) 0x107 [0x106] (.node (.node .leaf 0x109 [0x108] .leaf) 0x10B [0x10A] .leaf)) 0x10D [0x10C] (.node (.node (.node .leaf 0x10F [0x10E] .leaf) 0x111 [0x110] .leaf) 0x113 [0x112] (.node (.node .leaf 0x115 [0x114] .leaf) 0x117 [0x116] .leaf)))) 0x119 [0x118] (.node (.node (.node (.node (.node .leaf 0x11B [0x11A] .leaf) 0x11D [0x11C] .leaf) 0x11F [0x11E] (.node (.node .leaf 0x121 [0x120] .leaf) 0x123 [0x122] .leaf)) 0x125 [0x124] (.node (.node (.node .leaf 0x127 [0x126] .leaf) 0x129 [0x128] .leaf) 0x12B [0x12A] (.node (.node .leaf 0x12D [0x12C] .leaf) 0x12F [0x12E] .leaf))) 0x131 [0x49] (.node (.node (.node (.node .leaf 0x133 [0x132] .leaf) 0x135 [0x134] .leaf) 0x137 [0x136] (.node (.node .leaf 0x13A [0x139] .leaf) 0x13C [0x13B] .leaf)) 0x13E [0x13D] (.node (.node (.node .leaf 0x140 [0x13F] .leaf) 0x142 [0x141] .leaf) 0x144 [0x143] (.node (.node .leaf 0x146 [0x145] .leaf) 0x148 [0x147] .leaf)))))) 0x149 [0x2BC, 0x4E] (.node (.node (.node (.node (.node (.node (.node .leaf 0x14B [0x14A] .leaf) 0x14D [0x14C] .leaf) 0x14F [0x14E] (.node (.node .leaf 0x151 [0x150] .leaf) 0x153 [0x152] .leaf)) 0x155 [0x154] (.node (.node (.node .leaf 0x157 [0x156] .leaf) 0x159 [0x158] .leaf) 0x15B [0x15A] (.node (.node .leaf 0x15D [0x15C] .leaf) 0x15F [0x15E] .leaf))) 0x161 [0x160] (.node (.node (.node (.node .leaf 0x163 [0x162] .leaf) 0x165 [0x164] .leaf) 0x167 [0x166] (.node (.node .leaf 0x169 [0x168] .leaf) 0x16B [0x16A] .leaf)) 0x16D [0x16C] (.node (.node (.node .leaf 0x16F [0x16E] .leaf) 0x171 [0x170] .leaf) 0x173 [0x172] (.node (.node .leaf 0x175 [0x174] .leaf) 0x177 [0x176] .leaf)))) 0x17A [0x179] (.node (.node (.node (.node (.node .leaf 0x17C [0x17B] .leaf) 0x17E [0x17D] .leaf) 0x17F [0x53] (.node (.node .leaf 0x180 [0x243] .leaf) 0x183 [0x182] .leaf)) 0x185 [0x184] (.node (.node (.node .leaf 0x188 [0x187] .leaf) 0x18C [0x18B] .leaf) 0x192 [0x191] (.node (.node .leaf 0x195 [0x1F6] .leaf) 0x199 [0x198] .leaf))) 0x19A [0x23D] (.node (.node (.node (.node .leaf 0x19E [0x220] .leaf) 0x1A1 [0x1A0] .leaf) 0x1A3 [0x1A2] (.node (.node .leaf 0x1A5 [0x1A4] .leaf) 0x1A8 [0x1A7] .leaf)) 0x1AD [0x1AC] (.node (.node (.node .leaf 0x1B0 [0x1AF] .leaf) 0x1B4 [0x1B3] .leaf) 0x1B6 [0x1B5] (.node (.node .leaf 0x1B9 [0x1B8] .leaf) 0x1BD [0x1BC] .leaf))))) 0x1BF [0x1F7] (.node (.node (.node (.node (.node (.node .leaf 0x1C5 [0x1C4] .leaf) 0x1C6 [0x1C4] .leaf) 0x1C8 [0x1C7] (.node (.node .leaf 0x1C9 [0x1C7] .leaf) 0x1CB [0x1CA] .leaf)) 0x1CC [0x1CA] (.node (.node (.node .leaf 0x1CE [0x1CD] .leaf) 0x1D0 [0x1CF] .leaf) 0x1D2 [0x1D1] (.node (.node .leaf 0x1D4 [0x1D3] .leaf) 0x1D6 [0x1D5] .leaf))) 0x1D8 [0x1D7] (.node (.node (.node (.node .leaf 0x1DA [0x1D9] .leaf) 0x1DC [0x1DB] .leaf) 0x1DD [0x18E] (.node (.node .leaf 0x1DF [0x1DE] .leaf) 0x1E1 [0x1E0] .leaf)) 0x1E3 [0x1E2] (.node (.node (.node .leaf 0x1E5 [0x1E4] .leaf) 0x1E7 [0x1E6] .leaf) 0x1E9 [0x1E8] (.node (.node .leaf 0x1EB [0x1EA] .leaf) 0x1ED [0x1EC] .leaf)))) 0x1EF [0x1EE] (.node (.node (.node (.node (.node .leaf 0x1F0 [0x4A, 0x30C] .leaf) 0x1F2 [0x1F1] .leaf) 0x1F3 [0x1F1] (.node (.node .leaf 0x1F5 [0x1F4] .leaf) 0x1F9 [0x1F8] .leaf)) 0x1FB [0x1FA] (.node (.node (.node .leaf 0x1FD [0x1FC] .leaf) 0x1FF [0x1FE] .leaf) 0x201 [0x200] (.node (.node .leaf 0x203 [0x202] .leaf) 0x205 [0x204] .leaf))) 0x207 [0x206] (.node (.node (.node (.node .leaf 0x209 [0x208] .leaf) 0x20B [0x20A] .leaf) 0x20D [0x20C] (.node (.node .leaf 0x20F [0x20E] .leaf) 0x211 [0x210] .leaf)) 0x213 [0x212] (.node (.node (.node .leaf 0x215 [0x214] .leaf) 0x217 [0x216] .leaf) 0x219 [0x218] (.node .leaf 0x21B [0x21A] .leaf)))))))

/-- Subtree of `upperMap`. -/
def upperMapSub2 : NatMap :=
  (.node (.node (.node (.node (.node (.node (.node (.node .leaf 0x21F [0x21E] .leaf) 0x223 [0x222] .leaf) 0x225 [0x224] (.node (.node .leaf 0x227 [0x226] .leaf) 0x229 [0x228] .leaf)) 0x22B [0x22A] (.node (.node (.node .leaf 0x22D [0x22C] .leaf) 0x22F [0x22E] .leaf) 0x231 [0x230] (.node (.node .leaf 0x233 [0x232] .leaf) 0x23C [0x23B] .leaf))) 0x23F [0x2C7E] (.node (.node (.node (.node .leaf 0x240 [0x2C7F] .leaf) 0x242 [0x241] .leaf) 0x247 [0x246] (.node (.node .leaf 0x249 [0x248] .leaf) 0x24B [0x24A] .leaf)) 0x24D [0x24C] (.node (.node (.node .leaf 0x24F [0x24E] .leaf) 0x250 [0x2C6F] .leaf) 0x251 [0x2C6D] (.node (.node .leaf 0x252 [0x2C70] .leaf) 0x253 [0x181] .leaf)))) 0x254 [0x186] (.node (.node (.node (.node (.node .leaf 0x256 [0x189] .leaf) 0x257 [0x18A] .leaf) 0x259 [0x18F] (.node (.node .leaf 0x25B [0x190] .leaf) 0x25C [0xA7AB] .leaf)) 0x260 [0x193] (.node (.node (.node .leaf 0x261 [0xA7AC] .leaf) 0x263 [0x194] .leaf) 0x265 [0xA78D] (.node (.node .leaf 0x266 [0xA7AA] .leaf) 0x268 [0x197] .leaf))) 0x269 [0x196] (.node (.node (.node (.node .leaf 0x26A [0xA7AE] .leaf) 0x26B [0x2C62] .leaf) 0x26C [0xA7AD] (.node (.node .leaf 0x26F [0x19C] .leaf) 0x271 [0x2C6E] .leaf)) 0x272 [0x19D] (.node (.node (.node .leaf 0x275 [0x19F] .leaf) 0x27D [0x2C64] .leaf) 0x280 [0x1A6] (.node (.node .leaf 0x282 [0xA7C5] .leaf) 0x283 [0x1A9] .leaf))))) 0x287 [0xA7B1] (.node (.node (.node (.node (.node (.node .leaf 0x288 [0x1AE] .leaf) 0x289 [0x244] .leaf) 0x28A [0x1B1] (.node (.node .leaf 0x28B [0x1B2] .leaf) 0x28C [0x245] .leaf)) 0x292 [0x1B7] (.node (.node (.node .leaf 0x29D [0xA7B2] .leaf) 0x29E [0xA7B0] .leaf) 0x345 [0x399] (.node (.node .leaf 0x371 [0x370] .leaf) 0x373 [0x372] .leaf))) 0x377 [0x376] (.node (.node (.node (.node .leaf 0x37B [0x3FD] .leaf) 0x37C [0x3FE] .leaf) 0x37D [0x3FF] (.node (.node .leaf 0x390 [0x399, 0x308, 0x301] .leaf) 0x3AC [0x386] .leaf)) 0x3AD [0x388] (.node (.node (.node .leaf 0x3AE [0x389] .leaf) 0x3AF [0x38A] .leaf) 0x3B0 [0x3A5, 0x308, 0x301] (.node (.node .leaf 0x3B1 [0x391] .leaf) 0x3B2 [0x392] .leaf)))) 0x3B3 [0x393] (.node (.node (.node (.node (.node .leaf 0x3B4 [0x394] .leaf) 0x3B5 [0x395] .leaf) 0x3B6 [0x396] (.node (.node .leaf 0x3B7 [0x397] .leaf) 0x3B8 [0x398] .leaf)) 0x3B9 [0x399] (.node (.node (.node .leaf 0x3BA [0x39A] .leaf) 0x3BB [0x39B] .leaf) 0x3BC [0x39C] (.node (.node .leaf 0x3BD [0x39D] .leaf) 0x3BE [0x39E] .leaf))) 0x3BF [0x39F] (.node (.node (.node (.node .leaf 0x3C0 [0x3A0] .leaf) 0x3C1 [0x3A1] .leaf) 0x3C2 [0x3A3] (.node (.node .leaf 0x3C3 [0x3A3] .leaf) 0x3C4 [0x3A4] .leaf)) 0x3C5 [0x3A5] (.node (.node (.node .leaf 0x3C6 [0x3A6] .leaf) 0x3C7 [0x3A7] .leaf) 0x3C8 [0x3A8] (.node (.node .leaf 0x3C9 [0x3A9] .leaf) 0x3CA [0x3AA] .leaf)))))) 0x3CB [0x3AB] (.node (.node (.node (.node (.node (.node (.node .leaf 0x3CC [0x38C] .leaf) 0x3CD [0x38E] .leaf) 0x3CE [0x38F] (.node (.node .leaf 0x3D0 [0x392] .leaf) 0x3D1 [0x398] .leaf)) 0x3D5 [0x3A6] (.node (.node (.node .leaf 0x3D6 [0x3A0] .leaf) 0x3D7 [0x3CF] .leaf) 0x3D9 [0x3D8] (.node (.node .leaf 0x3DB [0x3DA] .leaf) 0x3DD [0x3DC] .leaf))) 0x3DF [0x3DE] (.node (.node (.node (.node .leaf 0x3E1 [0x3E0] .leaf) 0x3E3 [0x3E2] .leaf) 0x3E5 [0x3E4] (.node (.node .leaf 0x3E7 [0x3E6] .leaf) 0x3E9 [0x3E8] .leaf)) 0x3EB [0x3EA] (.node (.node (.node .leaf 0x3ED [0x3EC] .leaf) 0x3EF [0x3EE] .leaf) 0x3F0 [0x39A] (.node (.node .leaf 0x3F1 [0x3A1] .leaf) 0x3F2 [0x3F9] .leaf)))) 0x3F3 [0x37F] (.node (.node (.node (.node (.node .leaf 0x3F5 [0x395] .leaf) 0x3F8 [0x3F7] .leaf) 0x3FB [0x3FA] (.node (.node .leaf 0x430 [0x410] .leaf) 0x431 [0x411] .leaf)) 0x432 [0x412] (.node (.node (.node .leaf 0x433 [0x413] .leaf) 0x434 [0x414] .leaf) 0x435 [0x415] (.node (.node .leaf 0x436 [0x416] .leaf) 0x437 [0x417] .leaf))) 0x438 [0x418] (.node (.node (.node (.node .leaf 0x439 [0x419] .leaf) 0x43A [0x41A] .leaf) 0x43B [0x41B] (.node (.node .leaf 0x43C [0x41C] .leaf) 0x43D [0x41D] .leaf)) 0x43E [0x41E] (.node (.node (.node .leaf 0x43F [0x41F] .leaf) 0x440 [0x420] .leaf) 0x441 [0x421] (.node (.node .leaf 0x442 [0x422] .leaf) 0x443 [0x423] .leaf))))) 0x444 [0x424] (.node (.node (.node (.node (.node (.node .leaf 0x445 [0x425] .leaf) 0x446 [0x426] .leaf) 0x447 [0x427] (.node (.node .leaf 0x448 [0x428] .leaf) 0x449 [0x429] .leaf)) 0x44A [0x42A] (.node (.node (.node .leaf 0x44B [0x42B] .leaf) 0x44C [0x42C] .leaf) 0x44D [0x42D] (.node (.node .leaf 0x44E [0x42E] .leaf) 0x44F [0x42F] .leaf))) 0x450 [0x400] (.node (.node (.node (.node .leaf 0x451 [0x401] .leaf) 0x452 [0x402] .leaf) 0x453 [0x403] (.node (.node .leaf 0x454 [0x404] .leaf) 0x455 [0x405] .leaf)) 0x456 [0x406] (.node (.node (.node .leaf 0x457 [0x407] .leaf) 0x458 [0x408] .leaf) 0x459 [0x409] (.node (.node .leaf 0x45A [0x40A] .leaf) 0x45B [0x40B] .leaf)))) 0x45C [0x40C] (.node (.node (.node (.node (.node .leaf 0x45D [0x40D] .leaf) 0x45E [0x40E] .leaf) 0x45F [0x40F] (.node (.node .leaf 0x461 [0x460] .leaf) 0x463 [0x462] .leaf)) 0x465 [0x464] (.node (.node (.node .leaf 0x467 [0x466] .leaf) 0x469 [0x468] .leaf) 0x46B [0x46A] (.node (.node .leaf 0x46D [0x46C] .leaf) 0x46F [0x46E] .leaf))) 0x471 [0x470] (.node (.node (.node (.node .leaf 0x473 [0x472] .leaf) 0x475 [0x474] .leaf) 0x477 [0x476] (.node (.node .leaf 0x479 [0x478] .leaf) 0x47B [0x47A] .leaf)) 0x47D [0x47C] (.node (.node (.node .leaf 0x47F [0x47E] .leaf) 0x481 [0x480] .leaf) 0x48B [0x48A] (.node .leaf 0x48D [0x48C] .leaf)))))))

/-- Subtree of `upperMap`. -/
def upperMapSub3 : NatMap :=
  (.node upperMapSub1 0x21D [0x21C] upperMapSub2)

/-- Subtree of `upperMap`. -/
def upperMapSub4 : NatMap :=
  (.node (.node (.node (.node (.node (.node (.node (.node .leaf 0x491 [0x490] .leaf) 0x493 [0x492] .leaf) 0x495 [0x494] (.node (.node .leaf 0x497 [0x496] .leaf) 0x499 [0x498] .leaf)) 0x49B [0x49A] (.node (.node (.node .leaf 0x49D [0x49C] .leaf) 0x49F [0x49E] .leaf) 0x4A1 [0x4A0] (.node (.node .leaf 0x4A3 [0x4A2] .leaf) 0x4A5 [0x4A4] .leaf))) 0x4A7 [0x4A6] (.node (.node (.node (.node .leaf 0x4A9 [0x4A8] .leaf) 0x4AB [0x4AA] .leaf) 0x4AD [0x4AC] (.node (.node .leaf 0x4AF [0x4AE] .leaf) 0x4B1 [0x4B0] .leaf)) 0x4B3 [0x4B2] (.node (.node (.node .leaf 0x4B5 [0x4B4] .leaf) 0x4B7 [0x4B6] .leaf) 0x4B9 [0x4B8] (.node (.node .leaf 0x4BB [0x4BA] .leaf) 0x4BD [0x4BC] .leaf)))) 0x4BF [0x4BE] (.node (.node (.node (.node (.node .leaf 0x4C2 [0x4C1] .leaf) 0x4C4 [0x4C3] .leaf) 0x4C6 [0x4C5] (.node (.node .leaf 0x4C8 [0x4C7] .leaf) 0x4CA [0x4C9] .leaf)) 0x4CC [0x4CB] (.node (.node (.node .leaf 0x4CE [0x4CD] .leaf) 0x4CF [0x4C0] .leaf) 0x4D1 [0x4D0] (.node (.node .leaf 0x4D3 [0x4D2] .leaf) 0x4D5 [0x4D4] .leaf))) 0x4D7 [0x4D6] (.node (.node (.node (.node .leaf 0x4D9 [0x4D8] .leaf) 0x4DB [0x4DA] .leaf) 0x4DD [0x4DC] (.node (.node .leaf 0x4DF [0x4DE] .leaf) 0x4E1 [0x4E0] .leaf)) 0x4E3 [0x4E2] (.node (.node (.node .leaf 0x4E5 [0x4E4] .leaf) 0x4E7 [0x4E6] .leaf) 0x4E9 [0x4E8] (.node (.node .leaf 0x4EB [0x4EA] .leaf) 0x4ED [0x4EC] .leaf))))) 0x4EF [0x4EE] (.node (.node (.node (.node (.node (.node .leaf 0x4F1 [0x4F0] .leaf) 0x4F3 [0x4F2] .leaf) 0x4F5 [0x4F4] (.node (.node .leaf 0x4F7 [0x4F6] .leaf) 0x4F9 [0x4F8] .leaf)) 0x4FB [0x4FA] (.node (.node (.node .leaf 0x4FD [0x4FC] .leaf) 0x4FF [0x4FE] .leaf) 0x501 [0x500] (.node (.node .leaf 0x503 [0x502] .leaf) 0x505 [0x504] .leaf))) 0x507 [0x506] (.node (.node (.node (.node .leaf 0x509 [0x508] .leaf) 0x50B [0x50A] .leaf) 0x50D [0x50C] (.node (.node .leaf 0x50F [0x50E] .leaf) 0x511 [0x510] .leaf)) 0x513 [0x512] (.node (.node (.node .leaf 0x515 [0x514] .leaf) 0x517 [0x516] .leaf) 0x519 [0x518] (.node (.node .leaf 0x51B [0x51A] .leaf) 0x51D [0x51C] .leaf)))) 0x51F [0x51E] (.node (.node (.node (.node (.node .leaf 0x521 [0x520] .leaf) 0x523 [0x522] .leaf) 0x525 [0x524] (.node (.node .leaf 0x527 [0x526] .leaf) 0x529 [0x528] .leaf)) 0x52B [0x52A] (.node (.node (.node .leaf 0x52D [0x52C] .leaf) 0x52F [0x52E] .leaf) 0x561 [0x531] (.node (.node .leaf 0x562 [0x532] .leaf) 0x563 [0x533] .leaf))) 0x564 [0x534] (.node (.node (.node (.node .leaf 0x565 [0x535] .leaf) 0x566 [0x536] .leaf) 0x567 [0x537] (.node (.node .leaf 0x568 [0x538] .leaf) 0x569 [0x539] .leaf)) 0x56A [0x53A] (.node (.node (.node .leaf 0x56B [0x53B] .leaf) 0x56C [0x53C] .leaf) 0x56D [0x53D] (.node (.node .leaf 0x56E [0x53E] .leaf) 0x56F [0x53F] .leaf)))))) 0x570 [0x540] (.node (.node (.node (.node (.node (.node (.node .leaf 0x571 [0x541] .leaf) 0x572 [0x542] .leaf) 0x573 [0x543] (.node (.node .leaf 0x574 [0x544] .leaf) 0x575 [0x545] .leaf)) 0x576 [0x546] (.node (.node (.node .leaf 0x577 [0x547] .leaf) 0x578 [0x548] .leaf) 0x579 [0x549] (.node (.node .leaf 0x57A [0x54A] .leaf) 0x57B [0x54B] .leaf))) 0x57C [0x54C] (.node (.node (.node (.node .leaf 0x57D [0x54D] .leaf) 0x57E [0x54E] .leaf) 0x57F [0x54F] (.node (.node .leaf 0x580 [0x550] .leaf) 0x581 [0x551] .leaf)) 0x582 [0x552] (.node (.node (.node .leaf 0x583 [0x553] .leaf) 0x584 [0x554] .leaf) 0x585 [0x555] (.node (.node .leaf 0x586 [0x556] .leaf) 0x587 [0x535, 0x552] .leaf)))) 0x10D0 [0x1C90] (.node (.node (.node (.node (.node .leaf 0x10D1 [0x1C91] .leaf) 0x10D2 [0x1C92] .leaf) 0x10D3 [0x1C93] (.node (.node .leaf 0x10D4 [0x1C94] .leaf) 0x10D5 [0x1C95] .leaf)) 0x10D6 [0x1C96] (.node (.node (.node .leaf 0x10D7 [0x1C97] .leaf) 0x10D8 [0x1C98] .leaf) 0x10D9 [0x1C99] (.node (.node .leaf 0x10DA [0x1C9A] .leaf) 0x10DB [0x1C9B] .leaf))) 0x10DC [0x1C9C] (.node (.node (.node (.node .leaf 0x10DD [0x1C9D] .leaf) 0x10DE [0x1C9E] .leaf) 0x10DF [0x1C9F] (.node (.node .leaf 0x10E0 [0x1CA0] .leaf) 0x10E1 [0x1CA1] .leaf)) 0x10E2 [0x1CA2] (.node (.node (.node .leaf 0x10E3 [0x1CA3] .leaf) 0x10E4 [0x1CA4] .leaf) 0x10E5 [0x1CA5] (.node (.node .leaf 0x10E6 [0x1CA6] .leaf) 0x10E7 [0x1CA7] .leaf))))) 0x10E8 [0x1CA8] (.node (.node (.node (.node (.node (.node .leaf 0x10E9 [0x1CA9] .leaf) 0x10EA [0x1CAA] .leaf) 0x10EB [0x1CAB] (.node (.node .leaf 0x10EC [0x1CAC] .leaf) 0x10ED [0x1CAD] .leaf)) 0x10EE [0x1CAE] (.node (.node (.node .leaf 0x10EF [0x1CAF] .leaf) 0x10F0 [0x1CB0] .leaf) 0x10F1 [0x1CB1] (.node (.node .leaf 0x10F2 [0x1CB2] .leaf) 0x10F3 [0x1CB3] .leaf))) 0x10F4 [0x1CB4] (.node (.node (.node (.node .leaf 0x10F5 [0x1CB5] .leaf) 0x10F6 [0x1CB6] .leaf) 0x10F7 [0x1CB7] (.node (.node .leaf 0x10F8 [0x1CB8] .leaf) 0x10F9 [0x1CB9] .leaf)) 0x10FA [0x1CBA] (.node (.node (.node .leaf 0x10FD [0x1CBD] .leaf) 0x10FE [0x1CBE] .leaf) 0x10FF [0x1CBF] (.node (.node .leaf 0x13F8 [0x13F0] .leaf) 0x13F9 [0x13F1] .leaf)))) 0x13FA [0x13F2] (.node (.node (.node (.node (.node .leaf 0x13FB [0x13F3] .leaf) 0x13FC [0x13F4] .leaf) 0x13FD [0x13F5] (.node (.node .leaf 0x1C80 [0x412] .leaf) 0x1C81 [0x414] .leaf)) 0x1C82 [0x41E] (.node (.node (.node .leaf 0x1C83 [0x421] .leaf) 0x1C84 [0x422] .leaf) 0x1C85 [0x422] (.node (.node .leaf 0x1C86 [0x42A] .leaf) 0x1C87 [0x462] .leaf))) 0x1C88 [0xA64A] (.node (.node (.node (.node .leaf 0x1D79 [0xA77D] .leaf) 0x1D7D [0x2C63] .leaf) 0x1D8E [0xA7C6] (.node (.node .leaf 0x1E01 [0x1E00] .leaf) 0x1E03 [0x1E02] .leaf)) 0x1E05 [0x1E04] (.node (.node (.node .leaf 0x1E07 [0x1E06] .leaf) 0x1E09 [0x1E08] .leaf) 0x1E0B [0x1E0A] (.node .leaf 0x1E0D [0x1E0C] .leaf)))))))

/-- Subtree of `upperMap`. -/
def upperMapSub5 : NatMap :=
  (.node (.node (.node (.node (.node (.node (.node (.node .leaf 0x1E11 [0x1E10] .leaf) 0x1E13 [0x1E12] .leaf) 0x1E15 [0x1E14] (.node (.node .leaf 0x1E17 [0x1E16] .leaf) 0x1E19 [0x1E18] .leaf)) 0x1E1B [0x1E1A] (.node (.node (.node .leaf 0x1E1D [0x1E1C] .leaf) 0x1E1F [0x1E1E] .leaf) 0x1E21 [0x1E20] (.node (.node .leaf 0x1E23 [0x1E22] .leaf) 0x1E25 [0x1E24] .leaf))) 0x1E27 [0x1E26] (.node (.node (.node (.node .leaf 0x1E29 [0x1E28] .leaf) 0x1E2B [0x1E2A] .leaf) 0x1E2D [0x1E2C] (.node (.node .leaf 0x1E2F [0x1E2E] .leaf) 0x1E31 [0x1E30] .leaf)) 0x1E33 [0x1E32] (.node (.node (.node .leaf 0x1E35 [0x1E34] .leaf) 0x1E37 [0x1E36] .leaf) 0x1E39 [0x1E38] (.node (.node .leaf 0x1E3B [0x1E3A] .leaf) 0x1E3D [0x1E3C] .leaf)))) 0x1E3F [0x1E3E] (.node (.node (.node (.node (.node .leaf 0x1E41 [0x1E40] .leaf) 0x1E43 [0x1E42] .leaf) 0x1E45 [0x1E44] (.node (.node .leaf 0x1E47 [0x1E46] .leaf) 0x1E49 [0x1E48] .leaf)) 0x1E4B [0x1E4A] (.node (.node (.node .leaf 0x1E4D [0x1E4C] .leaf) 0x1E4F [0x1E4E] .leaf) 0x1E51 [0x1E50] (.node (.node .leaf 0x1E53 [0x1E52] .leaf) 0x1E55 [0x1E54] .leaf))) 0x1E57 [0x1E56] (.node (.node (.node (.node .leaf 0x1E59 [0x1E58] .leaf) 0x1E5B [0x1E5A] .leaf) 0x1E5D [0x1E5C] (.node (.node .leaf 0x1E5F [0x1E5E] .leaf) 0x1E61 [0x1E60] .leaf)) 0x1E63 [0x1E62] (.node (.node (.node .leaf 0x1E65 [0x1E64] .leaf) 0x1E67 [0x1E66] .leaf) 0x1E69 [0x1E68] (.node (.node .leaf 0x1E6B [0x1E6A] .leaf) 0x1E6D [0x1E6C] .leaf))))) 0x1E6F [0x1E6E] (.node (.node (.node (.node (.node (.node .leaf 0x1E71 [0x1E70] .leaf) 0x1E73 [0x1E72] .leaf) 0x1E75 [0x1E74] (.node (.node .leaf 0x1E77 [0x1E76] .leaf) 0x1E79 [0x1E78] .leaf)) 0x1E7B [0x1E7A] (.node (.node (.node .leaf 0x1E7D [0x1E7C] .leaf) 0x1E7F [0x1E7E] .leaf) 0x1E81 [0x1E80] (.node (.node .leaf 0x1E83 [0x1E82] .leaf) 0x1E85 [0x1E84] .leaf))) 0x1E87 [0x1E86] (.node (.node (.node (.node .leaf 0x1E89 [0x1E88] .leaf) 0x1E8B [0x1E8A] .leaf) 0x1E8D [0x1E8C] (.node (.node .leaf 0x1E8F [0x1E8E] .leaf) 0x1E91 [0x1E90] .leaf)) 0x1E93 [0x1E92] (.node (.node (.node .leaf 0x1E95 [0x1E94] .leaf) 0x1E96 [0x48, 0x331] .leaf) 0x1E97 [0x54, 0x308] (.node (.node .leaf 0x1E98 [0x57, 0x30A] .leaf) 0x1E99 [0x59, 0x30A] .leaf)))) 0x1E9A [0x41, 0x2BE] (.node (.node (.node (.node (.node .leaf 0x1E9B [0x1E60] .leaf) 0x1EA1 [0x1EA0] .leaf) 0x1EA3 [0x1EA2] (.node (.node .leaf 0x1EA5 [0x1EA4] .leaf) 0x1EA7 [0x1EA6] .leaf)) 0x1EA9 [0x1EA8] (.node (.node (.node .leaf 0x1EAB [0x1EAA] .leaf) 0x1EAD [0x1EAC] .leaf) 0x1EAF [0x1EAE] (.node (.node .leaf 0x1EB1 [0x1EB0] .leaf) 0x1EB3 [0x1EB2] .leaf))) 0x1EB5 [0x1EB4] (.node (.node (.node (.node .leaf 0x1EB7 [0x1EB6] .leaf) 0x1EB9 [0x1EB8] .leaf) 0x1EBB [0x1EBA] (.node (.node .leaf 0x1EBD [0x1EBC] .leaf) 0x1EBF [0x1EBE] .leaf)) 0x1EC1 [0x1EC0] (.node (.node (.node .leaf 0x1EC3 [0x1EC2] .leaf) 0x1EC5 [0x1EC4] .leaf) 0x1EC7 [0x1EC6] (.node .leaf 0x1EC9 [0x1EC8] .leaf)))))) 0x1ECB [0x1ECA] (.node (.node (.node (.node (.node (.node (.node .leaf 0x1ECD [0x1ECC] .leaf) 0x1ECF [0x1ECE] .leaf) 0x1ED1 [0x1ED0] (.node (.node .leaf 0x1ED3 [0x1ED2] .leaf) 0x1ED5 [0x1ED4] .leaf)) 0x1ED7 [0x1ED6] (.node (.node (.node .leaf 0x1ED9 [0x1ED8] .leaf) 0x1EDB [0x1EDA] .leaf) 0x1EDD [0x1EDC] (.node (.node .leaf 0x1EDF [0x1EDE] .leaf) 0x1EE1 [0x1EE0] .leaf))) 0x1EE3 [0x1EE2] (.node (.node (.node (.node .leaf 0x1EE5 [0x1EE4] .leaf) 0x1EE7 [0x1EE6] .leaf) 0x1EE9 [0x1EE8] (.node (.node .leaf 0x1EEB [0x1EEA] .leaf) 0x1EED [0x1EEC] .leaf)) 0x1EEF [0x1EEE] (.node (.node (.node .leaf 0x1EF1 [0x1EF0] .leaf) 0x1EF3 [0x1EF2] .leaf) 0x1EF5 [0x1EF4] (.node (.node .leaf 0x1EF7 [0x1EF6] .leaf) 0x1EF9 [0x1EF8] .leaf)))) 0x1EFB [0x1EFA] (.node (.node (.node (.node (.node .leaf 0x1EFD [0x1EFC] .leaf) 0x1EFF [0x1EFE] .leaf) 0x1F00 [0x1F08] (.node (.node .leaf 0x1F01 [0x1F09] .leaf) 0x1F02 [0x1F0A] .leaf)) 0x1F03 [0x1F0B] (.node (.node (.node .leaf 0x1F04 [0x1F0C] .leaf) 0x1F05 [0x1F0D] .leaf) 0x1F06 [0x1F0E] (.node (.node .leaf 0x1F07 [0x1F0F] .leaf) 0x1F10 [0x1F18] .leaf))) 0x1F11 [0x1F19] (.node (.node (.node (.node .leaf 0x1F12 [0x1F1A] .leaf) 0x1F13 [0x1F1B] .leaf) 0x1F14 [0x1F1C] (.node (.node .leaf 0x1F15 [0x1F1D] .leaf) 0x1F20 [0x1F28] .leaf)) 0x1F21 [0x1F29] (.node (.node (.node .leaf 0x1F22 [0x1F2A] .leaf) 0x1F23 [0x1F2B] .leaf) 0x1F24 [0x1F2C] (.node (.node .leaf 0x1F25 [0x1F2D] .leaf) 0x1F26 [0x1F2E] .leaf))))) 0x1F27 [0x1F2F] (.node (.node (.node (.node (.node (.node .leaf 0x1F30 [0x1F38] .leaf) 0x1F31 [0x1F39] .leaf) 0x1F32 [0x1F3A] (.node (.node .leaf 0x1F33 [0x1F3B] .leaf) 0x1F34 [0x1F3C] .leaf)) 0x1F35 [0x1F3D] (.node (.node (.node .leaf 0x1F36 [0x1F3E] .leaf) 0x1F37 [0x1F3F] .leaf) 0x1F40 [0x1F48] (.node (.node .leaf 0x1F41 [0x1F49] .leaf) 0x1F42 [0x1F4A] .leaf))) 0x1F43 [0x1F4B] (.node (.node (.node (.node .leaf 0x1F44 [0x1F4C] .leaf) 0x1F45 [0x1F4D] .leaf) 0x1F50 [0x3A5, 0x313] (.node (.node .leaf 0x1F51 [0x1F59] .leaf) 0x1F52 [0x3A5, 0x313, 0x300] .leaf)) 0x1F53 [0x1F5B] (.node (.node (.node .leaf 0x1F54 [0x3A5, 0x313, 0x301] .leaf) 0x1F55 [0x1F5D] .leaf) 0x1F56 [0x3A5, 0x313, 0x342] (.node (.node .leaf 0x1F57 [0x1F5F] .leaf) 0x1F60 [0x1F68] .leaf)))) 0x1F61 [0x1F69] (.node (.node (.node (.node (.node .leaf 0x1F62 [0x1F6A] .leaf) 0x1F63 [0x1F6B] .leaf) 0x1F64 [0x1F6C] (.node (.node .leaf 0x1F65 [0x1F6D] .leaf) 0x1F66 [0x1F6E] .leaf)) 0x1F67 [0x1F6F] (.node (.node (.node .leaf 0x1F70 [0x1FBA] .leaf) 0x1F71 [0x1FBB] .leaf) 0x1F72 [0x1FC8] (.node (.node .leaf 0x1F73 [0x1FC9] .leaf) 0x1F74 [0x1FCA] .leaf))) 0x1F75 [0x1FCB] (.node (.node (.node (.node .leaf 0x1F76 [0x1FDA] .leaf) 0x1F77 [0x1FDB] .leaf) 0x1F78 [0x1FF8] (.node (.node .leaf 0x1F79 [0x1FF9] .leaf) 0x1F7A [0x1FEA] .leaf)) 0x1F7B [0x1FEB] (.node (.node (.node .leaf 0x1F7C [0x1FFA] .leaf) 0x1F7D [0x1FFB] .leaf) 0x1F80 [0x1F08, 0x399] (.node .leaf 0x1F81 [0x1F09, 0x399] .leaf)))))))

/-- Subtree of `upperMap`. -/
def upperMapSub6 : NatMap :=
  (.node upperMapSub4 0x1E0F [0x1E0E] upperMapSub5)

/-- Subtree of `upperMap`. -/
def upperMapSub7 : NatMap :=
  (.node upperMapSub3 0x48F [0x48E] upperMapSub6)

/-- Subtree of `upperMap`. -/
def upperMapSub8 : NatMap :=
  (.node (.node (.node (.node (.node (.node (.node (.node .leaf 0x1F83 [0x1F0B, 0x399] .leaf) 0x1F84 [0x1F0C, 0x399] .leaf) 0x1F85 [0x1F0D, 0x399] (.node (.node .leaf 0x1F86 [0x1F0E, 0x399] .leaf) 0x1F87 [0x1F0F, 0x399] .leaf)) 0x1F88 [0x1F08, 0x399] (.node (.node (.node .leaf 0x1F89 [0x1F09, 0x399] .leaf) 0x1F8A [0x1F0A, 0x399] .leaf) 0x1F8B [0x1F0B, 0x399] (.node (.node .leaf 0x1F8C [0x1F0C, 0x399] .leaf) 0x1F8D [0x1F0D, 0x399] .leaf))) 0x1F8E [0x1F0E, 0x399] (.node (.node (.node (.node .leaf 0x1F8F [0x1F0F, 0x399] .leaf) 0x1F90 [0x1F28, 0x399] .leaf) 0x1F91 [0x1F29, 0x399] (.node (.node .leaf 0x1F92 [0x1F2A, 0x399] .leaf) 0x1F93 [0x1F2B, 0x399] .leaf)) 0x1F94 [0x1F2C, 0x399] (.node (.node (.node .leaf 0x1F95 [0x1F2D, 0x399] .leaf) 0x1F96 [0x1F2E, 0x399] .leaf) 0x1F97 [0x1F2F, 0x399] (.node (.node .leaf 0x1F98 [0x1F28, 0x399] .leaf) 0x1F99 [0x1F29, 0x399] .leaf)))) 0x1F9A [0x1F2A, 0x399] (.node (.node (.node (.node (.node .leaf 0x1F9B [0x1F2B, 0x399] .leaf) 0x1F9C [0x1F2C, 0x399] .leaf) 0x1F9D [0x1F2D, 0x399] (.node (.node .leaf 0x1F9E [0x1F2E, 0x399] .leaf) 0x1F9F [0x1F2F, 0x399] .leaf)) 0x1FA0 [0x1F68, 0x399] (.node (.node (.node .leaf 0x1FA1 [0x1F69, 0x399] .leaf) 0x1FA2 [0x1F6A, 0x399] .leaf) 0x1FA3 [0x1F6B, 0x399] (.node (.node .leaf 0x1FA4 [0x1F6C, 0x399] .leaf) 0x1FA5 [0x1F6D, 0x399] .leaf))) 0x1FA6 [0x1F6E, 0x399] (.node (.node (.node (.node .leaf 0x1FA7 [0x1F6F, 0x399] .leaf) 0x1FA8 [0x1F68, 0x399] .leaf) 0x1FA9 [0x1F69, 0x399] (.node (.node .leaf 0x1FAA [0x1F6A, 0x399] .leaf) 0x1FAB [0x1F6B, 0x399] .leaf)) 0x1FAC [0x1F6C, 0x399] (.node (.node (.node .leaf 0x1FAD [0x1F6D, 0x399] .leaf) 0x1FAE [0x1F6E, 0x399] .leaf) 0x1FAF [0x1F6F, 0x399] (.node (.node .leaf 0x1FB0 [0x1FB8] .leaf) 0x1FB1 [0x1FB9] .leaf))))) 0x1FB2 [0x1FBA, 0x399] (.node (.node (.node (.node (.node (.node .leaf 0x1FB3 [0x391, 0x399] .leaf) 0x1FB4 [0x386, 0x399] .leaf) 0x1FB6 [0x391, 0x342] (.node (.node .leaf 0x1FB7 [0x391, 0x342, 0x399] .leaf) 0x1FBC [0x391, 0x399] .leaf)) 0x1FBE [0x399] (.node (.node (.node .leaf 0x1FC2 [0x1FCA, 0x399] .leaf) 0x1FC3 [0x397, 0x399] .leaf) 0x1FC4 [0x389, 0x399] (.node (.node .leaf 0x1FC6 [0x397, 0x342] .leaf) 0x1FC7 [0x397, 0x342, 0x399] .leaf))) 0x1FCC [0x397, 0x399] (.node (.node (.node (.node .leaf 0x1FD0 [0x1FD8] .leaf) 0x1FD1 [0x1FD9] .leaf) 0x1FD2 [0x399, 0x308, 0x300] (.node (.node .leaf 0x1FD3 [0x399, 0x308, 0x301] .leaf) 0x1FD6 [0x399, 0x342] .leaf)) 0x1FD7 [0x399, 0x308, 0x342] (.node (.node (.node .leaf 0x1FE0 [0x1FE8] .leaf) 0x1FE1 [0x1FE9] .leaf) 0x1FE2 [0x3A5, 0x308, 0x300] (.node (.node .leaf 0x1FE3 [0x3A5, 0x308, 0x301] .leaf) 0x1FE4 [0x3A1, 0x313] .leaf)))) 0x1FE5 [0x1FEC] (.node (.node (.node (.node (.node .leaf 0x1FE6 [0x3A5, 0x342] .leaf) 0x1FE7 [0x3A5, 0x308, 0x342] .leaf) 0x1FF2 [0x1FFA, 0x399] (.node (.node .leaf 0x1FF3 [0x3A9, 0x399] .leaf) 0x1FF4 [0x38F, 0x399] .leaf)) 0x1FF6 [0x3A9, 0x342] (.node (.node (.node .leaf 0x1FF7 [0x3A9, 0x342, 0x399] .leaf) 0x1FFC [0x3A9, 0x399] .leaf) 0x214E [0x2132] (.node (.node .leaf 0x2170 [0x2160] .leaf) 0x2171 [0x2161] .leaf))) 0x2172 [0x2162] (.node (.node (.node (.node .leaf 0x2173 [0x2163] .leaf) 0x2174 [0x2164] .leaf) 0x2175 [0x2165] (.node (.node .leaf 0x2176 [0x2166] .leaf) 0x2177 [0x2167] .leaf)) 0x2178 [0x2168] (.node (.node (.node .leaf 0x2179 [0x2169] .leaf) 0x217A [0x216A] .leaf) 0x217B [0x216B] (.node (.node .leaf 0x217C [0x216C] .leaf) 0x217D [0x216D] .leaf)))))) 0x217E [0x216E] (.node (.node (.node (.node (.node (.node (.node .leaf 0x217F [0x216F] .leaf) 0x2184 [0x2183] .leaf) 0x24D0 [0x24B6] (.node (.node .leaf 0x24D1 [0x24B7] .leaf) 0x24D2 [0x24B8] .leaf)) 0x24D3 [0x24B9] (.node (.node (.node .leaf 0x24D4 [0x24BA] .leaf) 0x24D5 [0x24BB] .leaf) 0x24D6 [0x24BC] (.node (.node .leaf 0x24D7 [0x24BD] .leaf) 0x24D8 [0x24BE] .leaf))) 0x24D9 [0x24BF] (.node (.node (.node (.node .leaf 0x24DA [0x24C0] .leaf) 0x24DB [0x24C1] .leaf) 0x24DC [0x24C2] (.node (.node .leaf 0x24DD [0x24C3] .leaf) 0x24DE [0x24C4] .leaf)) 0x24DF [0x24C5] (.node (.node (.node .leaf 0x24E0 [0x24C6] .leaf) 0x24E1 [0x24C7] .leaf) 0x24E2 [0x24C8] (.node (.node .leaf 0x24E3 [0x24C9] .leaf) 0x24E4 [0x24CA] .leaf)))) 0x24E5 [0x24CB] (.node (.node (.node (.node (.node .leaf 0x24E6 [0x24CC] .leaf) 0x24E7 [0x24CD] .leaf) 0x24E8 [0x24CE] (.node (.node .leaf 0x24E9 [0x24CF] .leaf) 0x2C30 [0x2C00] .leaf)) 0x2C31 [0x2C01] (.node (.node (.node .leaf 0x2C32 [0x2C02] .leaf) 0x2C33 [0x2C03] .leaf) 0x2C34 [0x2C04] (.node (.node .leaf 0x2C35 [0x2C05] .leaf) 0x2C36 [0x2C06] .leaf))) 0x2C37 [0x2C07] (.node (.node (.node (.node .leaf 0x2C38 [0x2C08] .leaf) 0x2C39 [0x2C09] .leaf) 0x2C3A [0x2C0A] (.node (.node .leaf 0x2C3B [0x2C0B] .leaf) 0x2C3C [0x2C0C] .leaf)) 0x2C3D [0x2C0D] (.node (.node (.node .leaf 0x2C3E [0x2C0E] .leaf) 0x2C3F [0x2C0F] .leaf) 0x2C40 [0x2C10] (.node (.node .leaf 0x2C41 [0x2C11] .leaf) 0x2C42 [0x2C12] .leaf))))) 0x2C43 [0x2C13] (.node (.node (.node (.node (.node (.node .leaf 0x2C44 [0x2C14] .leaf) 0x2C45 [0x2C15] .leaf) 0x2C46 [0x2C16] (.node (.node .leaf 0x2C47 [0x2C17] .leaf) 0x2C48 [0x2C18] .leaf)) 0x2C49 [0x2C19] (.node (.node (.node .leaf 0x2C4A [0x2C1A] .leaf) 0x2C4B [0x2C1B] .leaf) 0x2C4C [0x2C1C] (.node (.node .leaf 0x2C4D [0x2C1D] .leaf) 0x2C4E [0x2C1E] .leaf))) 0x2C4F [0x2C1F] (.node (.node (.node (.node .leaf 0x2C50 [0x2C20] .leaf) 0x2C51 [0x2C21] .leaf) 0x2C52 [0x2C22] (.node (.node .leaf 0x2C53 [0x2C23] .leaf) 0x2C54 [0x2C24] .leaf)) 0x2C55 [0x2C25] (.node (.node (.node .leaf 0x2C56 [0x2C26] .leaf) 0x2C57 [0x2C27] .leaf) 0x2C58 [0x2C28] (.node (.node .leaf 0x2C59 [0x2C29] .leaf) 0x2C5A [0x2C2A] .leaf)))) 0x2C5B [0x2C2B] (.node (.node (.node (.node (.node .leaf 0x2C5C [0x2C2C] .leaf) 0x2C5D [0x2C2D] .leaf) 0x2C5E [0x2C2E] (.node (.node .leaf 0x2C5F [0x2C2F] .leaf) 0x2C61 [0x2C60] .leaf)) 0x2C65 [0x23A] (.node (.node (.node .leaf 0x2C66 [0x23E] .leaf) 0x2C68 [0x2C67] .leaf) 0x2C6A [0x2C69] (.node (.node .leaf 0x2C6C [0x2C6B] .leaf) 0x2C73 [0x2C72] .leaf))) 0x2C76 [0x2C75] (.node (.node (.node (.node .leaf 0x2C81 [0x2C80] .leaf) 0x2C83 [0x2C82] .leaf) 0x2C85 [0x2C84] (.node (.node .leaf 0x2C87 [0x2C86] .leaf) 0x2C89 [0x2C88] .leaf)) 0x2C8B [0x2C8A] (.node (.node (.node .leaf 0x2C8D [0x2C8C] .leaf) 0x2C8F [0x2C8E] .leaf) 0x2C91 [0x2C90] (.node .leaf 0x2C93 [0x2C92] .leaf)))))))

/-- Subtree of `upperMap`. -/
def upperMapSub9 : NatMap :=
  (.node (.node (.node (.node (.node (.node (.node (.node .leaf 0x2C97 [0x2C96] .leaf) 0x2C99 [0x2C98] .leaf) 0x2C9B [0x2C9A] (.node (.node .leaf 0x2C9D [0x2C9C] .leaf) 0x2C9F [0x2C9E] .leaf)) 0x2CA1 [0x2CA0] (.node (.node (.node .leaf 0x2CA3 [0x2CA2] .leaf) 0x2CA5 [0x2CA4] .leaf) 0x2CA7 [0x2CA6] (.node (.node .leaf 0x2CA9 [0x2CA8] .leaf) 0x2CAB [0x2CAA] .leaf))) 0x2CAD [0x2CAC] (.node (.node (.node (.node .leaf 0x2CAF [0x2CAE] .leaf) 0x2CB1 [0x2CB0] .leaf) 0x2CB3 [0x2CB2] (.node (.node .leaf 0x2CB5 [0x2CB4] .leaf) 0x2CB7 [0x2CB6] .leaf)) 0x2CB9 [0x2CB8] (.node (.node (.node .leaf 0x2CBB [0x2CBA] .leaf) 0x2CBD [0x2CBC] .leaf) 0x2CBF [0x2CBE] (.node (.node .leaf 0x2CC1 [0x2CC0] .leaf) 0x2CC3 [0x2CC2] .leaf)))) 0x2CC5 [0x2CC4] (.node (.node (.node (.node (.node .leaf 0x2CC7 [0x2CC6] .leaf) 0x2CC9 [0x2CC8] .leaf) 0x2CCB [0x2CCA] (.node (.node .leaf 0x2CCD [0x2CCC] .leaf) 0x2CCF [0x2CCE] .leaf)) 0x2CD1 [0x2CD0] (.node (.node (.node .leaf 0x2CD3 [0x2CD2] .leaf) 0x2CD5 [0x2CD4] .leaf) 0x2CD7 [0x2CD6] (.node (.node .leaf 0x2CD9 [0x2CD8] .leaf) 0x2CDB [0x2CDA] .leaf))) 0x2CDD [0x2CDC] (.node (.node (.node (.node .leaf 0x2CDF [0x2CDE] .leaf) 0x2CE1 [0x2CE0] .leaf) 0x2CE3 [0x2CE2] (.node (.node .leaf 0x2CEC [0x2CEB] .leaf) 0x2CEE [0x2CED] .leaf)) 0x2CF3 [0x2CF2] (.node (.node (.node .leaf 0x2D00 [0x10A0] .leaf) 0x2D01 [0x10A1] .leaf) 0x2D02 [0x10A2] (.node (.node .leaf 0x2D03 [0x10A3] .leaf) 0x2D04 [0x10A4] .leaf))))) 0x2D05 [0x10A5] (.node (.node (.node (.node (.node (.node .leaf 0x2D06 [0x10A6] .leaf) 0x2D07 [0x10A7] .leaf) 0x2D08 [0x10A8] (.node (.node .leaf 0x2D09 [0x10A9] .leaf) 0x2D0A [0x10AA] .leaf)) 0x2D0B [0x10AB] (.node (.node (.node .leaf 0x2D0C [0x10AC] .leaf) 0x2D0D [0x10AD] .leaf) 0x2D0E [0x10AE] (.node (.node .leaf 0x2D0F [0x10AF] .leaf) 0x2D10 [0x10B0] .leaf))) 0x2D11 [0x10B1] (.node (.node (.node (.node .leaf 0x2D12 [0x10B2] .leaf) 0x2D13 [0x10B3] .leaf) 0x2D14 [0x10B4] (.node (.node .leaf 0x2D15 [0x10B5] .leaf) 0x2D16 [0x10B6] .leaf)) 0x2D17 [0x10B7] (.node (.node (.node .leaf 0x2D18 [0x10B8] .leaf) 0x2D19 [0x10B9] .leaf) 0x2D1A [0x10BA] (.node (.node .leaf 0x2D1B [0x10BB] .leaf) 0x2D1C [0x10BC] .leaf)))) 0x2D1D [0x10BD] (.node (.node (.node (.node (.node .leaf 0x2D1E [0x10BE] .leaf) 0x2D1F [0x10BF] .leaf) 0x2D20 [0x10C0] (.node (.node .leaf 0x2D21 [0x10C1] .leaf) 0x2D22 [0x10C2] .leaf)) 0x2D23 [0x10C3] (.node (.node (.node .leaf 0x2D24 [0x10C4] .leaf) 0x2D25 [0x10C5] .leaf) 0x2D27 [0x10C7] (.node (.node .leaf 0x2D2D [0x10CD] .leaf) 0xA641 [0xA640] .leaf))) 0xA643 [0xA642] (.node (.node (.node (.node .leaf 0xA645 [0xA644] .leaf) 0xA647 [0xA646] .leaf) 0xA649 [0xA648] (.node (.node .leaf 0xA64B [0xA64A] .leaf) 0xA64D [0xA64C] .leaf)) 0xA64F [0xA64E] (.node (.node (.node .leaf 0xA651 [0xA650] .leaf) 0xA653 [0xA652] .leaf) 0xA655 [0xA654] (.node (.node .leaf 0xA657 [0xA656] .leaf) 0xA659 [0xA658] .leaf)))))) 0xA65B [0xA65A] (.node (.node (.node (.node (.node (.node (.node .leaf 0xA65D [0xA65C] .leaf) 0xA65F [0xA65E] .leaf) 0xA661 [0xA660] (.node (.node .leaf 0xA663 [0xA662] .leaf) 0xA665 [0xA664] .leaf)) 0xA667 [0xA666] (.node (.node (.node .leaf 0xA669 [0xA668] .leaf) 0xA66B [0xA66A] .leaf) 0xA66D [0xA66C] (.node (.node .leaf 0xA681 [0xA680] .leaf) 0xA683 [0xA682] .leaf))) 0xA685 [0xA684] (.node (.node (.node (.node .leaf 0xA687 [0xA686] .leaf) 0xA689 [0xA688] .leaf) 0xA68B [0xA68A] (.node (.node .leaf 0xA68D [0xA68C] .leaf) 0xA68F [0xA68E] .leaf)) 0xA691 [0xA690] (.node (.node (.node .leaf 0xA693 [0xA692] .leaf) 0xA695 [0xA694] .leaf) 0xA697 [0xA696] (.node (.node .leaf 0xA699 [0xA698] .leaf) 0xA69B [0xA69A] .leaf)))) 0xA723 [0xA722] (.node (.node (.node (.node (.node .leaf 0xA725 [0xA724] .leaf) 0xA727 [0xA726] .leaf) 0xA729 [0xA728] (.node (.node .leaf 0xA72B [0xA72A] .leaf) 0xA72D [0xA72C] .leaf)) 0xA72F [0xA72E] (.node (.node (.node .leaf 0xA733 [0xA732] .leaf) 0xA735 [0xA734] .leaf) 0xA737 [0xA736] (.node (.node .leaf 0xA739 [0xA738] .leaf) 0xA73B [0xA73A] .leaf))) 0xA73D [0xA73C] (.node (.node (.node (.node .leaf 0xA73F [0xA73E] .leaf) 0xA741 [0xA740] .leaf) 0xA743 [0xA742] (.node (.node .leaf 0xA745 [0xA744] .leaf) 0xA747 [0xA746] .leaf)) 0xA749 [0xA748] (.node (.node (.node .leaf 0xA74B [0xA74A] .leaf) 0xA74D [0xA74C] .leaf) 0xA74F [0xA74E] (.node (.node .leaf 0xA751 [0xA750] .leaf) 0xA753 [0xA752] .leaf))))) 0xA755 [0xA754] (.node (.node (.node (.node (.node (.node .leaf 0xA757 [0xA756] .leaf) 0xA759 [0xA758] .leaf) 0xA75B [0xA75A] (.node (.node .leaf 0xA75D [0xA75C] .leaf) 0xA75F [0xA75E] .leaf)) 0xA761 [0xA760] (.node (.node (.node .leaf 0xA763 [0xA762] .leaf) 0xA765 [0xA764] .leaf) 0xA767 [0xA766] (.node (.node .leaf 0xA769 [0xA768] .leaf) 0xA76B [0xA76A] .leaf))) 0xA76D [0xA76C] (.node (.node (.node (.node .leaf 0xA76F [0xA76E] .leaf) 0xA77A [0xA779] .leaf) 0xA77C [0xA77B] (.node (.node .leaf 0xA77F [0xA77E] .leaf) 0xA781 [0xA780] .leaf)) 0xA783 [0xA782] (.node (.node (.node .leaf 0xA785 [0xA784] .leaf) 0xA787 [0xA786] .leaf) 0xA78C [0xA78B] (.node (.node .leaf 0xA791 [0xA790] .leaf) 0xA793 [0xA792] .leaf)))) 0xA794 [0xA7C4] (.node (.node (.node (.node (.node .leaf 0xA797 [0xA796] .leaf) 0xA799 [0xA798] .leaf) 0xA79B [0xA79A] (.node (.node .leaf 0xA79D [0xA79C] .leaf) 0xA79F [0xA79E] .leaf)) 0xA7A1 [0xA7A0] (.node (.node (.node .leaf 0xA7A3 [0xA7A2] .leaf) 0xA7A5 [0xA7A4] .leaf) 0xA7A7 [0xA7A6] (.node (.node .leaf 0xA7A9 [0xA7A8] .leaf) 0xA7B5 [0xA7B4] .leaf))) 0xA7B7 [0xA7B6] (.node (.node (.node (.node .leaf 0xA7B9 [0xA7B8] .leaf) 0xA7BB [0xA7BA] .leaf) 0xA7BD [0xA7BC] (.node (.node .leaf 0xA7BF [0xA7BE] .leaf) 0xA7C1 [0xA7C0] .leaf)) 0xA7C3 [0xA7C2] (.node (.node (.node .leaf 0xA7C8 [0xA7C7] .leaf) 0xA7CA [0xA7C9] .leaf) 0xA7D1 [0xA7D0] (.node .leaf 0xA7D7 [0xA7D6] .leaf)))))))

/-- Subtree of `upperMap`. -/
def upperMapSub10 : NatMap :=
  (.node upperMapSub8 0x2C95 [0x2C94] upperMapSub9)

/-- Subtree of `upperMap`. -/
def upperMapSub11 : NatMap :=
  (.node (.node (.node (.node (.node (.node (.node (.node .leaf 0xA7F6 [0xA7F5] .leaf) 0xAB53 [0xA7B3] .leaf) 0xAB70 [0x13A0] (.node (.node .leaf 0xAB71 [0x13A1] .leaf) 0xAB72 [0x13A2] .leaf)) 0xAB73 [0x13A3] (.node (.node (.node .leaf 0xAB74 [0x13A4] .leaf) 0xAB75 [0x13A5] .leaf) 0xAB76 [0x13A6] (.node (.node .leaf 0xAB77 [0x13A7] .leaf) 0xAB78 [0x13A8] .leaf))) 0xAB79 [0x13A9] (.node (.node (.node (.node .leaf 0xAB7A [0x13AA] .leaf) 0xAB7B [0x13AB] .leaf) 0xAB7C [0x13AC] (.node (.node .leaf 0xAB7D [0x13AD] .leaf) 0xAB7E [0x13AE] .leaf)) 0xAB7F [0x13AF] (.node (.node (.node .leaf 0xAB80 [0x13B0] .leaf) 0xAB81 [0x13B1] .leaf) 0xAB82 [0x13B2] (.node (.node .leaf 0xAB83 [0x13B3] .leaf) 0xAB84 [0x13B4] .leaf)))) 0xAB85 [0x13B5] (.node (.node (.node (.node (.node .leaf 0xAB86 [0x13B6] .leaf) 0xAB87 [0x13B7] .leaf) 0xAB88 [0x13B8] (.node (.node .leaf 0xAB89 [0x13B9] .leaf) 0xAB8A [0x13BA] .leaf)) 0xAB8B [0x13BB] (.node (.node (.node .leaf 0xAB8C [0x13BC] .leaf) 0xAB8D [0x13BD] .leaf) 0xAB8E [0x13BE] (.node (.node .leaf 0xAB8F [0x13BF] .leaf) 0xAB90 [0x13C0] .leaf))) 0xAB91 [0x13C1] (.node (.node (.node (.node .leaf 0xAB92 [0x13C2] .leaf) 0xAB93 [0x13C3] .leaf) 0xAB94 [0x13C4] (.node (.node .leaf 0xAB95 [0x13C5] .leaf) 0xAB96 [0x13C6] .leaf)) 0xAB97 [0x13C7] (.node (.node (.node .leaf 0xAB98 [0x13C8] .leaf) 0xAB99 [0x13C9] .leaf) 0xAB9A [0x13CA] (.node (.node .leaf 0xAB9B [0x13CB] .leaf) 0xAB9C [0x13CC] .leaf))))) 0xAB9D [0x13CD] (.node (.node (.node (.node (.node (.node .leaf 0xAB9E [0x13CE] .leaf) 0xAB9F [0x13CF] .leaf) 0xABA0 [0x13D0] (.node (.node .leaf 0xABA1 [0x13D1] .leaf) 0xABA2 [0x13D2] .leaf)) 0xABA3 [0x13D3] (.node (.node (.node .leaf 0xABA4 [0x13D4] .leaf) 0xABA5 [0x13D5] .leaf) 0xABA6 [0x13D6] (.node (.node .leaf 0xABA7 [0x13D7] .leaf) 0xABA8 [0x13D8] .leaf))) 0xABA9 [0x13D9] (.node (.node (.node (.node .leaf 0xABAA [0x13DA] .leaf) 0xABAB [0x13DB] .leaf) 0xABAC [0x13DC] (.node (.node .leaf 0xABAD [0x13DD] .leaf) 0xABAE [0x13DE] .leaf)) 0xABAF [0x13DF] (.node (.node (.node .leaf 0xABB0 [0x13E0] .leaf) 0xABB1 [0x13E1] .leaf) 0xABB2 [0x13E2] (.node (.node .leaf 0xABB3 [0x13E3] .leaf) 0xABB4 [0x13E4] .leaf)))) 0xABB5 [0x13E5] (.node (.node (.node (.node (.node .leaf 0xABB6 [0x13E6] .leaf) 0xABB7 [0x13E7] .leaf) 0xABB8 [0x13E8] (.node (.node .leaf 0xABB9 [0x13E9] .leaf) 0xABBA [0x13EA] .leaf)) 0xABBB [0x13EB] (.node (.node (.node .leaf 0xABBC [0x13EC] .leaf) 0xABBD [0x13ED] .leaf) 0xABBE [0x13EE] (.node (.node .leaf 0xABBF [0x13EF] .leaf) 0xFB00 [0x46, 0x46] .leaf))) 0xFB01 [0x46, 0x49] (.node (.node (.node (.node .leaf 0xFB02 [0x46, 0x4C] .leaf) 0xFB03 [0x46, 0x46, 0x49] .leaf) 0xFB04 [0x46, 0x46, 0x4C] (.node (.node .leaf 0xFB05 [0x53, 0x54] .leaf) 0xFB06 [0x53, 0x54] .leaf)) 0xFB13 [0x544, 0x546] (.node (.node (.node .leaf 0xFB14 [0x544, 0x535] .leaf) 0xFB15 [0x544, 0x53B] .leaf) 0xFB16 [0x54E, 0x546] (.node (.node .leaf 0xFB17 [0x544, 0x53D] .leaf) 0xFF41 [0xFF21] .leaf)))))) 0xFF42 [0xFF22] (.node (.node (.node (.node (.node (.node (.node .leaf 0xFF43 [0xFF23] .leaf) 0xFF44 [0xFF24] .leaf) 0xFF45 [0xFF25] (.node (.node .leaf 0xFF46 [0xFF26] .leaf) 0xFF47 [0xFF27] .leaf)) 0xFF48 [0xFF28] (.node (.node (.node .leaf 0xFF49 [0xFF29] .leaf) 0xFF4A [0xFF2A] .leaf) 0xFF4B [0xFF2B] (.node (.node .leaf 0xFF4C [0xFF2C] .leaf) 0xFF4D [0xFF2D] .leaf))) 0xFF4E [0xFF2E] (.node (.node (.node (.node .leaf 0xFF4F [0xFF2F] .leaf) 0xFF50 [0xFF30] .leaf) 0xFF51 [0xFF31] (.node (.node .leaf 0xFF52 [0xFF32] .leaf) 0xFF53 [0xFF33] .leaf)) 0xFF54 [0xFF34] (.node (.node (.node .leaf 0xFF55 [0xFF35] .leaf) 0xFF56 [0xFF36] .leaf) 0xFF57 [0xFF37] (.node (.node .leaf 0xFF58 [0xFF38] .leaf) 0xFF59 [0xFF39] .leaf)))) 0xFF5A [0xFF3A] (.node (.node (.node (.node (.node .leaf 0x10428 [0x10400] .leaf) 0x10429 [0x10401] .leaf) 0x1042A [0x10402] (.node (.node .leaf 0x1042B [0x10403] .leaf) 0x1042C [0x10404] .leaf)) 0x1042D [0x10405] (.node (.node (.node .leaf 0x1042E [0x10406] .leaf) 0x1042F [0x10407] .leaf) 0x10430 [0x10408] (.node (.node .leaf 0x10431 [0x10409] .leaf) 0x10432 [0x1040A] .leaf))) 0x10433 [0x1040B] (.node (.node (.node (.node .leaf 0x10434 [0x1040C] .leaf) 0x10435 [0x1040D] .leaf) 0x10436 [0x1040E] (.node (.node .leaf 0x10437 [0x1040F] .leaf) 0x10438 [0x10410] .leaf)) 0x10439 [0x10411] (.node (.node (.node .leaf 0x1043A [0x10412] .leaf) 0x1043B [0x10413] .leaf) 0x1043C [0x10414] (.node (.node .leaf 0x1043D [0x10415] .leaf) 0x1043E [0x10416] .leaf))))) 0x1043F [0x10417] (.node (.node (.node (.node (.node (.node .leaf 0x10440 [0x10418] .leaf) 0x10441 [0x10419] .leaf) 0x10442 [0x1041A] (.node (.node .leaf 0x10443 [0x1041B] .leaf) 0x10444 [0x1041C] .leaf)) 0x10445 [0x1041D] (.node (.node (.node .leaf 0x10446 [0x1041E] .leaf) 0x10447 [0x1041F] .leaf) 0x10448 [0x10420] (.node (.node .leaf 0x10449 [0x10421] .leaf) 0x1044A [0x10422] .leaf))) 0x1044B [0x10423] (.node (.node (.node (.node .leaf 0x1044C [0x10424] .leaf) 0x1044D [0x10425] .leaf) 0x1044E [0x10426] (.node (.node .leaf 0x1044F [0x10427] .leaf) 0x104D8 [0x104B0] .leaf)) 0x104D9 [0x104B1] (.node (.node (.node .leaf 0x104DA [0x104B2] .leaf) 0x104DB [0x104B3] .leaf) 0x104DC [0x104B4] (.node (.node .leaf 0x104DD [0x104B5] .leaf) 0x104DE [0x104B6] .leaf)))) 0x104DF [0x104B7] (.node (.node (.node (.node (.node .leaf 0x104E0 [0x104B8] .leaf) 0x104E1 [0x104B9] .leaf) 0x104E2 [0x104BA] (.node (.node .leaf 0x104E3 [0x104BB] .leaf) 0x104E4 [0x104BC] .leaf)) 0x104E5 [0x104BD] (.node (.node (.node .leaf 0x104E6 [0x104BE] .leaf) 0x104E7 [0x104BF] .leaf) 0x104E8 [0x104C0] (.node (.node .leaf 0x104E9 [0x104C1] .leaf) 0x104EA [0x104C2] .leaf))) 0x104EB [0x104C3] (.node (.node (.node (.node .leaf 0x104EC [0x104C4] .leaf) 0x104ED [0x104C5] .leaf) 0x104EE [0x104C6] (.node (.node .leaf 0x104EF [0x104C7] .leaf) 0x104F0 [0x104C8] .leaf)) 0x104F1 [0x104C9] (.node (.node (.node .leaf 0x104F2 [0x104CA] .leaf) 0x104F3 [0x104CB] .leaf) 0x104F4 [0x104CC] (.node .leaf 0x104F5 [0x104CD] .leaf)))))))

/-- Subtree of `upperMap`. -/
def upperMapSub12 : NatMap :=
  (.node (.node (.node (.node (.node (.node (.node (.node .leaf 0x104F7 [0x104CF] .leaf) 0x104F8 [0x104D0] .leaf) 0x104F9 [0x104D1] (.node (.node .leaf 0x104FA [0x104D2] .leaf) 0x104FB [0x104D3] .leaf)) 0x10597 [0x10570] (.node (.node (.node .leaf 0x10598 [0x10571] .leaf) 0x10599 [0x10572] .leaf) 0x1059A [0x10573] (.node (.node .leaf 0x1059B [0x10574] .leaf) 0x1059C [0x10575] .leaf))) 0x1059D [0x10576] (.node (.node (.node (.node .leaf 0x1059E [0x10577] .leaf) 0x1059F [0x10578] .leaf) 0x105A0 [0x10579] (.node (.node .leaf 0x105A1 [0x1057A] .leaf) 0x105A3 [0x1057C] .leaf)) 0x105A4 [0x1057D] (.node (.node (.node .leaf 0x105A5 [0x1057E] .leaf) 0x105A6 [0x1057F] .leaf) 0x105A7 [0x10580] (.node (.node .leaf 0x105A8 [0x10581] .leaf) 0x105A9 [0x10582] .leaf)))) 0x105AA [0x10583] (.node (.node (.node (.node (.node .leaf 0x105AB [0x10584] .leaf) 0x105AC [0x10585] .leaf) 0x105AD [0x10586] (.node (.node .leaf 0x105AE [0x10587] .leaf) 0x105AF [0x10588] .leaf)) 0x105B0 [0x10589] (.node (.node (.node .leaf 0x105B1 [0x1058A] .leaf) 0x105B3 [0x1058C] .leaf) 0x105B4 [0x1058D] (.node (.node .leaf 0x105B5 [0x1058E] .leaf) 0x105B6 [0x1058F] .leaf))) 0x105B7 [0x10590] (.node (.node (.node (.node .leaf 0x105B8 [0x10591] .leaf) 0x105B9 [0x10592] .leaf) 0x105BB [0x10594] (.node (.node .leaf 0x105BC [0x10595] .leaf) 0x10CC0 [0x10C80] .leaf)) 0x10CC1 [0x10C81] (.node (.node (.node .leaf 0x10CC2 [0x10C82] .leaf) 0x10CC3 [0x10C83] .leaf) 0x10CC4 [0x10C84] (.node (.node .leaf 0x10CC5 [0x10C85] .leaf) 0x10CC6 [0x10C86] .leaf))))) 0x10CC7 [0x10C87] (.node (.node (.node (.node (.node (.node .leaf 0x10CC8 [0x10C88] .leaf) 0x10CC9 [0x10C89] .leaf) 0x10CCA [0x10C8A] (.node (.node .leaf 0x10CCB [0x10C8B] .leaf) 0x10CCC [0x10C8C] .leaf)) 0x10CCD [0x10C8D] (.node (.node (.node .leaf 0x10CCE [0x10C8E] .leaf) 0x10CCF [0x10C8F] .leaf) 0x10CD0 [0x10C90] (.node (.node .leaf 0x10CD1 [0x10C91] .leaf) 0x10CD2 [0x10C92] .leaf))) 0x10CD3 [0x10C93] (.node (.node (.node (.node .leaf 0x10CD4 [0x10C94] .leaf) 0x10CD5 [0x10C95] .leaf) 0x10CD6 [0x10C96] (.node (.node .leaf 0x10CD7 [0x10C97] .leaf) 0x10CD8 [0x10C98] .leaf)) 0x10CD9 [0x10C99] (.node (.node (.node .leaf 0x10CDA [0x10C9A] .leaf) 0x10CDB [0x10C9B] .leaf) 0x10CDC [0x10C9C] (.node (.node .leaf 0x10CDD [0x10C9D] .leaf) 0x10CDE [0x10C9E] .leaf)))) 0x10CDF [0x10C9F] (.node (.node (.node (.node (.node .leaf 0x10CE0 [0x10CA0] .leaf) 0x10CE1 [0x10CA1] .leaf) 0x10CE2 [0x10CA2] (.node (.node .leaf 0x10CE3 [0x10CA3] .leaf) 0x10CE4 [0x10CA4] .leaf)) 0x10CE5 [0x10CA5] (.node (.node (.node .leaf 0x10CE6 [0x10CA6] .leaf) 0x10CE7 [0x10CA7] .leaf) 0x10CE8 [0x10CA8] (.node (.node .leaf 0x10CE9 [0x10CA9] .leaf) 0x10CEA [0x10CAA] .leaf))) 0x10CEB [0x10CAB] (.node (.node (.node (.node .leaf 0x10CEC [0x10CAC] .leaf) 0x10CED [0x10CAD] .leaf) 0x10CEE [0x10CAE] (.node (.node .leaf 0x10CEF [0x10CAF] .leaf) 0x10CF0 [0x10CB0] .leaf)) 0x10CF1 [0x10CB1] (.node (.node (.node .leaf 0x10CF2 [0x10CB2] .leaf) 0x118C0 [0x118A0] .leaf) 0x118C1 [0x118A1] (.node .leaf 0x118C2 [0x118A2] .leaf)))))) 0x118C3 [0x118A3] (.node (.node (.node (.node (.node (.node (.node .leaf 0x118C4 [0x118A4] .leaf) 0x118C5 [0x118A5] .leaf) 0x118C6 [0x118A6] (.node (.node .leaf 0x118C7 [0x118A7] .leaf) 0x118C8 [0x118A8] .leaf)) 0x118C9 [0x118A9] (.node (.node (.node .leaf 0x118CA [0x118AA] .leaf) 0x118CB [0x118AB] .leaf) 0x118CC [0x118AC] (.node (.node .leaf 0x118CD [0x118AD] .leaf) 0x118CE [0x118AE] .leaf))) 0x118CF [0x118AF] (.node (.node (.node (.node .leaf 0x118D0 [0x118B0] .leaf) 0x118D1 [0x118B1] .leaf) 0x118D2 [0x118B2] (.node (.node .leaf 0x118D3 [0x118B3] .leaf) 0x118D4 [0x118B4] .leaf)) 0x118D5 [0x118B5] (.node (.node (.node .leaf 0x118D6 [0x118B6] .leaf) 0x118D7 [0x118B7] .leaf) 0x118D8 [0x118B8] (.node (.node .leaf 0x118D9 [0x118B9] .leaf) 0x118DA [0x118BA] .leaf)))) 0x118DB [0x118BB] (.node (.node (.node (.node (.node .leaf 0x118DC [0x118BC] .leaf) 0x118DD [0x118BD] .leaf) 0x118DE [0x118BE] (.node (.node .leaf 0x118DF [0x118BF] .leaf) 0x16E60 [0x16E40] .leaf)) 0x16E61 [0x16E41] (.node (.node (.node .leaf 0x16E62 [0x16E42] .leaf) 0x16E63 [0x16E43] .leaf) 0x16E64 [0x16E44] (.node (.node .leaf 0x16E65 [0x16E45] .leaf) 0x16E66 [0x16E46] .leaf))) 0x16E67 [0x16E47] (.node (.node (.node (.node .leaf 0x16E68 [0x16E48] .leaf) 0x16E69 [0x16E49] .leaf) 0x16E6A [0x16E4A] (.node (.node .leaf 0x16E6B [0x16E4B] .leaf) 0x16E6C [0x16E4C] .leaf)) 0x16E6D [0x16E4D] (.node (.node (.node .leaf 0x16E6E [0x16E4E] .leaf) 0x16E6F [0x16E4F] .leaf) 0x16E70 [0x16E50] (.node (.node .leaf 0x16E71 [0x16E51] .leaf) 0x16E72 [0x16E52] .leaf))))) 0x16E73 [0x16E53] (.node (.node (.node (.node (.node (.node .leaf 0x16E74 [0x16E54] .leaf) 0x16E75 [0x16E55] .leaf) 0x16E76 [0x16E56] (.node (.node .leaf 0x16E77 [0x16E57] .leaf) 0x16E78 [0x16E58] .leaf)) 0x16E79 [0x16E59] (.node (.node (.node .leaf 0x16E7A [0x16E5A] .leaf) 0x16E7B [0x16E5B] .leaf) 0x16E7C [0x16E5C] (.node (.node .leaf 0x16E7D [0x16E5D] .leaf) 0x16E7E [0x16E5E] .leaf))) 0x16E7F [0x16E5F] (.node (.node (.node (.node .leaf 0x1E922 [0x1E900] .leaf) 0x1E923 [0x1E901] .leaf) 0x1E924 [0x1E902] (.node (.node .leaf 0x1E925 [0x1E903] .leaf) 0x1E926 [0x1E904] .leaf)) 0x1E927 [0x1E905] (.node (.node (.node .leaf 0x1E928 [0x1E906] .leaf) 0x1E929 [0x1E907] .leaf) 0x1E92A [0x1E908] (.node (.node .leaf 0x1E92B [0x1E909] .leaf) 0x1E92C [0x1E90A] .leaf)))) 0x1E92D [0x1E90B] (.node (.node (.node (.node (.node .leaf 0x1E92E [0x1E90C] .leaf) 0x1E92F [0x1E90D] .leaf) 0x1E930 [0x1E90E] (.node (.node .leaf 0x1E931 [0x1E90F] .leaf) 0x1E932 [0x1E910] .leaf)) 0x1E933 [0x1E911] (.node (.node (.node .leaf 0x1E934 [0x1E912] .leaf) 0x1E935 [0x1E913] .leaf) 0x1E936 [0x1E914] (.node (.node .leaf 0x1E937 [0x1E915] .leaf) 0x1E938 [0x1E916] .leaf))) 0x1E939 [0x1E917] (.node (.node (.node (.node .leaf 0x1E93A [0x1E918] .leaf) 0x1E93B [0x1E919] .leaf) 0x1E93C [0x1E91A] (.node (.node .leaf 0x1E93D [0x1E91B] .leaf) 0x1E93E [0x1E91C] .leaf)) 0x1E93F [0x1E91D] (.node (.node (.node .leaf 0x1E940 [0x1E91E] .leaf) 0x1E941 [0x1E91F] .leaf) 0x1E942 [0x1E920] (.node .leaf 0x1E943 [0x1E921] .leaf)))))))

/-- Subtree of `upperMap`. -/
def upperMapSub13 : NatMap :=
  (.node upperMapSub11 0x104F6 [0x104CE] upperMapSub12)

/-- Subtree of `upperMap`. -/
def upperMapSub14 : NatMap :=
  (.node upperMapSub10 0xA7D9 [0xA7D8] upperMapSub13)

/-- Subtree of `upperMap`. -/
def upperMapSub15 : NatMap :=
  (.node upperMapSub7 0x1F82 [0x1F0A, 0x399] upperMapSub14)

/-- Full Unicode uppercase mappings, as a balanced search tree over the sorted table behind Rust's char::to_uppercase: every scalar value whose full uppercase mapping (1-3 scalar values) differs from itself, looked up by binary search; scalar values absent from the tree map to themselves. -/
def upperMap : NatMap :=
  upperMapSub15

/-- Subtree of `lowerMap`. -/
def lowerMapSub16 : NatMap :=
  (.node (.node (.node (.node (.node (.node (.node (.node .leaf 0x41 [0x61] .leaf) 0x42 [0x62] .leaf) 0x43 [0x63] (.node (.node .leaf 0x44 [0x64] .leaf) 0x45 [0x65] .leaf)) 0x46 [0x66] (.node (.node (.node .leaf 0x47 [0x67] .leaf) 0x48 [0x68] .leaf) 0x49 [0x69] (.node (.node .leaf 0x4A [0x6A] .leaf) 0x4B [0x6B] .leaf))) 0x4C [0x6C] (.node (.node (.node (.node .leaf 0x4D [0x6D] .leaf) 0x4E [0x6E] .leaf) 0x4F [0x6F] (.node (.node .leaf 0x50 [0x70] .leaf) 0x51 [0x71] .leaf)) 0x52 [0x72] (.node (.node (.node .leaf 0x53 [0x73] .leaf) 0x54 [0x74] .leaf) 0x55 [0x75] (.node .leaf 0x56 [0x76] .leaf)))) 0x57 [0x77] (.node (.node (.node (.node (.node .leaf 0x58 [0x78] .leaf) 0x59 [0x79] .leaf) 0x5A [0x7A] (.node (.node .leaf 0xC0 [0xE0] .leaf) 0xC1 [0xE1] .leaf)) 0xC2 [0xE2] (.node (.node (.node .leaf 0xC3 [0xE3] .leaf) 0xC4 [0xE4] .leaf) 0xC5 [0xE5] (.node .leaf 0xC6 [0xE6] .leaf))) 0xC7 [0xE7] (.node (.node (.node (.node .leaf 0xC8 [0xE8] .leaf) 0xC9 [0xE9] .leaf) 0xCA [0xEA] (.node (.node .leaf 0xCB [0xEB] .leaf) 0xCC [0xEC] .leaf)) 0xCD [0xED] (.node (.node (.node .leaf 0xCE [0xEE] .leaf) 0xCF [0xEF] .leaf) 0xD0 [0xF0] (.node .leaf 0xD1 [0xF1] .leaf))))) 0xD2 [0xF2] (.node (.node (.node (.node (.node (.node .leaf 0xD3 [0xF3] .leaf) 0xD4 [0xF4] .leaf) 0xD5 [0xF5] (.node (.node .leaf 0xD6 [0xF6] .leaf) 0xD8 [0xF8] .leaf)) 0xD9 [0xF9] (.node (.node (.node .leaf 0xDA [0xFA] .leaf) 0xDB [0xFB] .leaf) 0xDC [0xFC] (.node (.node .leaf 0xDD [0xFD] .leaf) 0xDE [0xFE] .leaf))) 0x100 [0x101] (.node (.node (.node (.node .leaf 0x102 [0x103] .leaf) 0x104 [0x105] .leaf) 0x106 [0x107] (.node (.node .leaf 0x108 [0x109] .leaf) 0x10A [0x10B] .leaf)) 0x10C [0x10D] (.node (.node (.node .leaf 0x10E [0x10F] .leaf) 0x110 [0x111] .leaf) 0x112 [0x113] (.node .leaf 0x114 [0x115] .leaf)))) 0x116 [0x117] (.node (.node (.node (.node (.node .leaf 0x118 [0x119] .leaf) 0x11A [0x11B] .leaf) 0x11C [0x11D] (.node (.node .leaf 0x11E [0x11F] .leaf) 0x120 [0x121] .leaf)) 0x122 [0x123] (.node (.node (.node .leaf 0x124 [0x125] .leaf) 0x126 [0x127] .leaf) 0x128 [0x129] (.node .leaf 0x12A [0x12B] .leaf))) 0x12C [0x12D] (.node (.node (.node (.node .leaf 0x12E [0x12F] .leaf) 0x130 [0x69, 0x307] .leaf) 0x132 [0x133] (.node (.node .leaf 0x134 [0x135] .leaf) 0x136 [0x137] .leaf)) 0x139 [0x13A] (.node (.node (.node .leaf 0x13B [0x13C] .leaf) 0x13D [0x13E] .leaf) 0x13F [0x140] (.node .leaf 0x141 [0x142] .leaf)))))) 0x143 [0x144] (.node (.node (.node (.node (.node (.node (.node .leaf 0x145 [0x146] .leaf) 0x147 [0x148] .leaf) 0x14A [0x14B] (.node (.node .leaf 0x14C [0x14D] .leaf) 0x14E [0x14F] .leaf)) 0x150 [0x151] (.node (.node (.node .leaf 0x152 [0x153] .leaf) 0x154 [0x155] .leaf) 0x156 [0x157] (.node (.node .leaf 0x158 [0x159] .leaf) 0x15A [0x15B] .leaf))) 0x15C [0x15D] (.node (.node (.node (.node .leaf 0x15E [0x15F] .leaf) 0x160 [0x161] .leaf) 0x162 [0x163] (.node (.node .leaf 0x164 [0x165] .leaf) 0x166 [0x167] .leaf)) 0x168 [0x169] (.node (.node (.node .leaf 0x16A [0x16B] .leaf) 0x16C [0x16D] .leaf) 0x16E [0x16F] (.node .leaf 0x170 [0x171] .leaf)))) 0x172 [0x173] (.node (.node (.node (.node (.node .leaf 0x174 [0x175] .leaf) 0x176 [0x177] .leaf) 0x178 [0xFF] (.node (.node .leaf 0x179 [0x17A] .leaf) 0x17B [0x17C] .leaf)) 0x17D [0x17E] (.node (.node (.node .leaf 0x181 [0x253] .leaf) 0x182 [0x183] .leaf) 0x184 [0x185] (.node .leaf 0x186 [0x254] .leaf))) 0x187 [0x188] (.node (.node (.node (.node .leaf 0x189 [0x256] .leaf) 0x18A [0x257] .leaf) 0x18B [0x18C] (.node (.node .leaf 0x18E [0x1DD] .leaf) 0x18F [0x259] .leaf)) 0x190 [0x25B] (.node (.node (.node .leaf 0x191 [0x192] .leaf) 0x193 [0x260] .leaf) 0x194 [0x263] (.node .leaf 0x196 [0x269] .leaf))))) 0x197 [0x268] (.node (.node (.node (.node (.node (.node .leaf 0x198 [0x199] .leaf) 0x19C [0x26F] .leaf) 0x19D [0x272] (.node (.node .leaf 0x19F [0x275] .leaf) 0x1A0 [0x1A1] .leaf)) 0x1A2 [0x1A3] (.node (.node (.node .leaf 0x1A4 [0x1A5] .leaf) 0x1A6 [0x280] .leaf) 0x1A7 [0x1A8] (.node (.node .leaf 0x1A9 [0x283] .leaf) 0x1AC [0x1AD] .leaf))) 0x1AE [0x288] (.node (.node (.node (.node .leaf 0x1AF [0x1B0] .leaf) 0x1B1 [0x28A] .leaf) 0x1B2 [0x28B] (.node (.node .leaf 0x1B3 [0x1B4] .leaf) 0x1B5 [0x1B6] .leaf)) 0x1B7 [0x292] (.node (.node (.node .leaf 0x1B8 [0x1B9] .leaf) 0x1BC [0x1BD] .leaf) 0x1C4 [0x1C6] (.node .leaf 0x1C5 [0x1C6] .leaf)))) 0x1C7 [0x1C9] (.node (.node (.node (.node (.node .leaf 0x1C8 [0x1C9] .leaf) 0x1CA [0x1CC] .leaf) 0x1CB [0x1CC] (.node (.node .leaf 0x1CD [0x1CE] .leaf) 0x1CF [0x1D0] .leaf)) 0x1D1 [0x1D2] (.node (.node (.node .leaf 0x1D3 [0x1D4] .leaf) 0x1D5 [0x1D6] .leaf) 0x1D7 [0x1D8] (.node .leaf 0x1D9 [0x1DA] .leaf))) 0x1DB [0x1DC] (.node (.node (.node (.node .leaf 0x1DE [0x1DF] .leaf) 0x1E0 [0x1E1] .leaf) 0x1E2 [0x1E3] (.node (.node .leaf 0x1E4 [0x1E5] .leaf) 0x1E6 [0x1E7] .leaf)) 0x1E8 [0x1E9] (.node (.node (.node .leaf 0x1EA [0x1EB] .leaf) 0x1EC [0x1ED] .leaf) 0x1EE [0x1EF] (.node .leaf 0x1F1 [0x1F3] .leaf)))))))

/-- Subtree of `lowerMap`. -/
def lowerMapSub17 : NatMap :=
  (.node (.node (.node (.node (.node (.node (.node (.node .leaf 0x1F4 [0x1F5] .leaf) 0x1F6 [0x195] .leaf) 0x1F7 [0x1BF] (.node (.node .leaf 0x1F8 [0x1F9] .leaf) 0x1FA [0x1FB] .leaf)) 0x1FC [0x1FD] (.node (.node (.node .leaf 0x1FE [0x1FF] .leaf) 0x200 [0x201] .leaf) 0x202 [0x203] (.node (.node .leaf 0x204 [0x205] .leaf) 0x206 [0x207] .leaf))) 0x208 [0x209] (.node (.node (.node (.node .leaf 0x20A [0x20B] .leaf) 0x20C [0x20D] .leaf) 0x20E [0x20F] (.node (.node .leaf 0x210 [0x211] .leaf) 0x212 [0x213] .leaf)) 0x214 [0x215] (.node (.node (.node .leaf 0x216 [0x217] .leaf) 0x218 [0x219] .leaf) 0x21A [0x21B] (.node .leaf 0x21C [0x21D] .leaf)))) 0x21E [0x21F] (.node (.node (.node (.node (.node .leaf 0x220 [0x19E] .leaf) 0x222 [0x223] .leaf) 0x224 [0x225] (.node (.node .leaf 0x226 [0x227] .leaf) 0x228 [0x229] .leaf)) 0x22A [0x22B] (.node (.node (.node .leaf 0x22C [0x22D] .leaf) 0x22E [0x22F] .leaf) 0x230 [0x231] (.node .leaf 0x232 [0x233] .leaf))) 0x23A [0x2C65] (.node (.node (.node (.node .leaf 0x23B [0x23C] .leaf) 0x23D [0x19A] .leaf) 0x23E [0x2C66] (.node (.node .leaf 0x241 [0x242] .leaf) 0x243 [0x180] .leaf)) 0x244 [0x289] (.node (.node (.node .leaf 0x245 [0x28C] .leaf) 0x246 [0x247] .leaf) 0x248 [0x249] (.node .leaf 0x24A [0x24B] .leaf))))) 0x24C [0x24D] (.node (.node (.node (.node (.node (.node .leaf 0x24E [0x24F] .leaf) 0x370 [0x371] .leaf) 0x372 [0x373] (.node (.node .leaf 0x376 [0x377] .leaf) 0x37F [0x3F3] .leaf)) 0x386 [0x3AC] (.node (.node (.node .leaf 0x388 [0x3AD] .leaf) 0x389 [0x3AE] .leaf) 0x38A [0x3AF] (.node (.node .leaf 0x38C [0x3CC] .leaf) 0x38E [0x3CD] .leaf))) 0x38F [0x3CE] (.node (.node (.node (.node .leaf 0x391 [0x3B1] .leaf) 0x392 [0x3B2] .leaf) 0x393 [0x3B3] (.node (.node .leaf 0x394 [0x3B4] .leaf) 0x395 [0x3B5] .leaf)) 0x396 [0x3B6] (.node (.node (.node .leaf 0x397 [0x3B7] .leaf) 0x398 [0x3B8] .leaf) 0x399 [0x3B9] (.node .leaf 0x39A [0x3BA] .leaf)))) 0x39B [0x3BB] (.node (.node (.node (.node (.node .leaf 0x39C [0x3BC] .leaf) 0x39D [0x3BD] .leaf) 0x39E [0x3BE] (.node (.node .leaf 0x39F [0x3BF] .leaf) 0x3A0 [0x3C0] .leaf)) 0x3A1 [0x3C1] (.node (.node (.node .leaf 0x3A3 [0x3C3] .leaf) 0x3A4 [0x3C4] .leaf) 0x3A5 [0x3C5] (.node .leaf 0x3A6 [0x3C6] .leaf))) 0x3A7 [0x3C7] (.node (.node (.node (.node .leaf 0x3A8 [0x3C8] .leaf) 0x3A9 [0x3C9] .leaf) 0x3AA [0x3CA] (.node (.node .leaf 0x3AB [0x3CB] .leaf) 0x3CF [0x3D7] .leaf)) 0x3D8 [0x3D9] (.node (.node (.node .leaf 0x3DA [0x3DB] .leaf) 0x3DC [0x3DD] .leaf) 0x3DE [0x3DF] (.node .leaf 0x3E0 [0x3E1] .leaf)))))) 0x3E2 [0x3E3] (.node (.node (.node (.node (.node (.node (.node .leaf 0x3E4 [0x3E5] .leaf) 0x3E6 [0x3E7] .leaf) 0x3E8 [0x3E9] (.node (.node .leaf 0x3EA [0x3EB] .leaf) 0x3EC [0x3ED] .leaf)) 0x3EE [0x3EF] (.node (.node (.node .leaf 0x3F4 [0x3B8] .leaf) 0x3F7 [0x3F8] .leaf) 0x3F9 [0x3F2] (.node (.node .leaf 0x3FA [0x3FB] .leaf) 0x3FD [0x37B] .leaf))) 0x3FE [0x37C] (.node (.node (.node (.node .leaf 0x3FF [0x37D] .leaf) 0x400 [0x450] .leaf) 0x401 [0x451] (.node (.node .leaf 0x402 [0x452] .leaf) 0x403 [0x453] .leaf)) 0x404 [0x454] (.node (.node (.node .leaf 0x405 [0x455] .leaf) 0x406 [0x456] .leaf) 0x407 [0x457] (.node .leaf 0x408 [0x458] .leaf)))) 0x409 [0x459] (.node (.node (.node (.node (.node .leaf 0x40A [0x45A] .leaf) 0x40B [0x45B] .leaf) 0x40C [0x45C] (.node (.node .leaf 0x40D [0x45D] .leaf) 0x40E [0x45E] .leaf)) 0x40F [0x45F] (.node (.node (.node .leaf 0x410 [0x430] .leaf) 0x411 [0x431] .leaf) 0x412 [0x432] (.node .leaf 0x413 [0x433] .leaf))) 0x414 [0x434] (.node (.node (.node (.node .leaf 0x415 [0x435] .leaf) 0x416 [0x436] .leaf) 0x417 [0x437] (.node (.node .leaf 0x418 [0x438] .leaf) 0x419 [0x439] .leaf)) 0x41A [0x43A] (.node (.node (.node .leaf 0x41B [0x43B] .leaf) 0x41C [0x43C] .leaf) 0x41D [0x43D] (.node .leaf 0x41E [0x43E] .leaf))))) 0x41F [0x43F] (.node (.node (.node (.node (.node (.node .leaf 0x420 [0x440] .leaf) 0x421 [0x441] .leaf) 0x422 [0x442] (.node (.node .leaf 0x423 [0x443] .leaf) 0x424 [0x444] .leaf)) 0x425 [0x445] (.node (.node (.node .leaf 0x426 [0x446] .leaf) 0x427 [0x447] .leaf) 0x428 [0x448] (.node .leaf 0x429 [0x449] .leaf))) 0x42A [0x44A] (.node (.node (.node (.node .leaf 0x42B [0x44B] .leaf) 0x42C [0x44C] .leaf) 0x42D [0x44D] (.node (.node .leaf 0x42E [0x44E] .leaf) 0x42F [0x44F] .leaf)) 0x460 [0x461] (.node (.node (.node .leaf 0x462 [0x463] .leaf) 0x464 [0x465] .leaf) 0x466 [0x467] (.node .leaf 0x468 [0x469] .leaf)))) 0x46A [0x46B] (.node (.node (.node (.node (.node .leaf 0x46C [0x46D] .leaf) 0x46E [0x46F] .leaf) 0x470 [0x471] (.node (.node .leaf 0x472 [0x473] .leaf) 0x474 [0x475] .leaf)) 0x476 [0x477] (.node (.node (.node .leaf 0x478 [0x479] .leaf) 0x47A [0x47B] .leaf) 0x47C [0x47D] (.node .leaf 0x47E [0x47F] .leaf))) 0x480 [0x481] (.node (.node (.node (.node .leaf 0x48A [0x48B] .leaf) 0x48C [0x48D] .leaf) 0x48E [0x48F] (.node (.node .leaf 0x490 [0x491] .leaf) 0x492 [0x493] .leaf)) 0x494 [0x495] (.node (.node (.node .leaf 0x496 [0x497] .leaf) 0x498 [0x499] .leaf) 0x49A [0x49B] (.node .leaf 0x49C [0x49D] .leaf)))))))

/-- Subtree of `lowerMap`. -/
def lowerMapSub18 : NatMap :=
  (.node lowerMapSub16 0x1F2 [0x1F3] lowerMapSub17)

/-- Subtree of `lowerMap`. -/
def lowerMapSub19 : NatMap :=
  (.node (.node (.node (.node (.node (.node (.node (.node .leaf 0x4A0 [0x4A1] .leaf) 0x4A2 [0x4A3] .leaf) 0x4A4 [0x4A5] (.node (.node .leaf 0x4A6 [0x4A7] .leaf) 0x4A8 [0x4A9] .leaf)) 0x4AA [0x4AB] (.node (.node (.node .leaf 0x4AC [0x4AD] .leaf) 0x4AE [0x4AF] .leaf) 0x4B0 [0x4B1] (.node (.node .leaf 0x4B2 [0x4B3] .leaf) 0x4B4 [0x4B5] .leaf))) 0x4B6 [0x4B7] (.node (.node (.node (.node .leaf 0x4B8 [0x4B9] .leaf) 0x4BA [0x4BB] .leaf) 0x4BC [0x4BD] (.node (.node .leaf 0x4BE [0x4BF] .leaf) 0x4C0 [0x4CF] .leaf)) 0x4C1 [0x4C2] (.node (.node (.node .leaf 0x4C3 [0x4C4] .leaf) 0x4C5 [0x4C6] .leaf) 0x4C7 [0x4C8] (.node .leaf 0x4C9 [0x4CA] .leaf)))) 0x4CB [0x4CC] (.node (.node (.node (.node (.node .leaf 0x4CD [0x4CE] .leaf) 0x4D0 [0x4D1] .leaf) 0x4D2 [0x4D3] (.node (.node .leaf 0x4D4 [0x4D5] .leaf) 0x4D6 [0x4D7] .leaf)) 0x4D8 [0x4D9] (.node (.node (.node .leaf 0x4DA [0x4DB] .leaf) 0x4DC [0x4DD] .leaf) 0x4DE [0x4DF] (.node .leaf 0x4E0 [0x4E1] .leaf))) 0x4E2 [0x4E3] (.node (.node (.node (.node .leaf 0x4E4 [0x4E5] .leaf) 0x4E6 [0x4E7] .leaf) 0x4E8 [0x4E9] (.node (.node .leaf 0x4EA [0x4EB] .leaf) 0x4EC [0x4ED] .leaf)) 0x4EE [0x4EF] (.node (.node (.node .leaf 0x4F0 [0x4F1] .leaf) 0x4F2 [0x4F3] .leaf) 0x4F4 [0x4F5] (.node .leaf 0x4F6 [0x4F7] .leaf))))) 0x4F8 [0x4F9] (.node (.node (.node (.node (.node (.node .leaf 0x4FA [0x4FB] .leaf) 0x4FC [0x4FD] .leaf) 0x4FE [0x4FF] (.node (.node .leaf 0x500 [0x501] .leaf) 0x502 [0x503] .leaf)) 0x504 [0x505] (.node (.node (.node .leaf 0x506 [0x507] .leaf) 0x508 [0x509] .leaf) 0x50A [0x50B] (.node (.node .leaf 0x50C [0x50D] .leaf) 0x50E [0x50F] .leaf))) 0x510 [0x511] (.node (.node (.node (.node .leaf 0x512 [0x513] .leaf) 0x514 [0x515] .leaf) 0x516 [0x517] (.node (.node .leaf 0x518 [0x519] .leaf) 0x51A [0x51B] .leaf)) 0x51C [0x51D] (.node (.node (.node .leaf 0x51E [0x51F] .leaf) 0x520 [0x521] .leaf) 0x522 [0x523] (.node .leaf 0x524 [0x525] .leaf)))) 0x526 [0x527] (.node (.node (.node (.node (.node .leaf 0x528 [0x529] .leaf) 0x52A [0x52B] .leaf) 0x52C [0x52D] (.node (.node .leaf 0x52E [0x52F] .leaf) 0x531 [0x561] .leaf)) 0x532 [0x562] (.node (.node (.node .leaf 0x533 [0x563] .leaf) 0x534 [0x564] .leaf) 0x535 [0x565] (.node .leaf 0x536 [0x566] .leaf))) 0x537 [0x567] (.node (.node (.node (.node .leaf 0x538 [0x568] .leaf) 0x539 [0x569] .leaf) 0x53A [0x56A] (.node (.node .leaf 0x53B [0x56B] .leaf) 0x53C [0x56C] .leaf)) 0x53D [0x56D] (.node (.node (.node .leaf 0x53E [0x56E] .leaf) 0x53F [0x56F] .leaf) 0x540 [0x570] (.node .leaf 0x541 [0x571] .leaf)))))) 0x542 [0x572] (.node (.node (.node (.node (.node (.node (.node .leaf 0x543 [0x573] .leaf) 0x544 [0x574] .leaf) 0x545 [0x575] (.node (.node .leaf 0x546 [0x576] .leaf) 0x547 [0x577] .leaf)) 0x548 [0x578] (.node (.node (.node .leaf 0x549 [0x579] .leaf) 0x54A [0x57A] .leaf) 0x54B [0x57B] (.node (.node .leaf 0x54C [0x57C] .leaf) 0x54D [0x57D] .leaf))) 0x54E [0x57E] (.node (.node (.node (.node .leaf 0x54F [0x57F] .leaf) 0x550 [0x580] .leaf) 0x551 [0x581] (.node (.node .leaf 0x552 [0x582] .leaf) 0x553 [0x583] .leaf)) 0x554 [0x584] (.node (.node (.node .leaf 0x555 [0x585] .leaf) 0x556 [0x586] .leaf) 0x10A0 [0x2D00] (.node .leaf 0x10A1 [0x2D01] .leaf)))) 0x10A2 [0x2D02] (.node (.node (.node (.node (.node .leaf 0x10A3 [0x2D03] .leaf) 0x10A4 [0x2D04] .leaf) 0x10A5 [0x2D05] (.node (.node .leaf 0x10A6 [0x2D06] .leaf) 0x10A7 [0x2D07] .leaf)) 0x10A8 [0x2D08] (.node (.node (.node .leaf 0x10A9 [0x2D09] .leaf) 0x10AA [0x2D0A] .leaf) 0x10AB [0x2D0B] (.node .leaf 0x10AC [0x2D0C] .leaf))) 0x10AD [0x2D0D] (.node (.node (.node (.node .leaf 0x10AE [0x2D0E] .leaf) 0x10AF [0x2D0F] .leaf) 0x10B0 [0x2D10] (.node (.node .leaf 0x10B1 [0x2D11] .leaf) 0x10B2 [0x2D12] .leaf)) 0x10B3 [0x2D13] (.node (.node (.node .leaf 0x10B4 [0x2D14] .leaf) 0x10B5 [0x2D15] .leaf) 0x10B6 [0x2D16] (.node .leaf 0x10B7 [0x2D17] .leaf))))) 0x10B8 [0x2D18] (.node (.node (.node (.node (.node (.node .leaf 0x10B9 [0x2D19] .leaf) 0x10BA [0x2D1A] .leaf) 0x10BB [0x2D1B] (.node (.node .leaf 0x10BC [0x2D1C] .leaf) 0x10BD [0x2D1D] .leaf)) 0x10BE [0x2D1E] (.node (.node (.node .leaf 0x10BF [0x2D1F] .leaf) 0x10C0 [0x2D20] .leaf) 0x10C1 [0x2D21] (.node .leaf 0x10C2 [0x2D22] .leaf))) 0x10C3 [0x2D23] (.node (.node (.node (.node .leaf 0x10C4 [0x2D24] .leaf) 0x10C5 [0x2D25] .leaf) 0x10C7 [0x2D27] (.node (.node .leaf 0x10CD [0x2D2D] .leaf) 0x13A0 [0xAB70] .leaf)) 0x13A1 [0xAB71] (.node (.node (.node .leaf 0x13A2 [0xAB72] .leaf) 0x13A3 [0xAB73] .leaf) 0x13A4 [0xAB74] (.node .leaf 0x13A5 [0xAB75] .leaf)))) 0x13A6 [0xAB76] (.node (.node (.node (.node (.node .leaf 0x13A7 [0xAB77] .leaf) 0x13A8 [0xAB78] .leaf) 0x13A9 [0xAB79] (.node (.node .leaf 0x13AA [0xAB7A] .leaf) 0x13AB [0xAB7B] .leaf)) 0x13AC [0xAB7C] (.node (.node (.node .leaf 0x13AD [0xAB7D] .leaf) 0x13AE [0xAB7E] .leaf) 0x13AF [0xAB7F] (.node .leaf 0x13B0 [0xAB80] .leaf))) 0x13B1 [0xAB81] (.node (.node (.node (.node .leaf 0x13B2 [0xAB82] .leaf) 0x13B3 [0xAB83] .leaf) 0x13B4 [0xAB84] (.node (.node .leaf 0x13B5 [0xAB85] .leaf) 0x13B6 [0xAB86] .leaf)) 0x13B7 [0xAB87] (.node (.node (.node .leaf 0x13B8 [0xAB88] .leaf) 0x13B9 [0xAB89] .leaf) 0x13BA [0xAB8A] (.node .leaf 0x13BB [0xAB8B] .leaf)))))))

/-- Subtree of `lowerMap`. -/
def lowerMapSub20 : NatMap :=
  (.node (.node (.node (.node (.node (.node (.node (.node .leaf 0x13BD [0xAB8D] .leaf) 0x13BE [0xAB8E] .leaf) 0x13BF [0xAB8F] (.node (.node .leaf 0x13C0 [0xAB90] .leaf) 0x13C1 [0xAB91] .leaf)) 0x13C2 [0xAB92] (.node (.node (.node .leaf 0x13C3 [0xAB93] .leaf) 0x13C4 [0xAB94] .leaf) 0x13C5 [0xAB95] (.node (.node .leaf 0x13C6 [0xAB96] .leaf) 0x13C7 [0xAB97] .leaf))) 0x13C8 [0xAB98] (.node (.node (.node (.node .leaf 0x13C9 [0xAB99] .leaf) 0x13CA [0xAB9A] .leaf) 0x13CB [0xAB9B] (.node (.node .leaf 0x13CC [0xAB9C] .leaf) 0x13CD [0xAB9D] .leaf)) 0x13CE [0xAB9E] (.node (.node (.node .leaf 0x13CF [0xAB9F] .leaf) 0x13D0 [0xABA0] .leaf) 0x13D1 [0xABA1] (.node .leaf 0x13D2 [0xABA2] .leaf)))) 0x13D3 [0xABA3] (.node (.node (.node (.node (.node .leaf 0x13D4 [0xABA4] .leaf) 0x13D5 [0xABA5] .leaf) 0x13D6 [0xABA6] (.node (.node .leaf 0x13D7 [0xABA7] .leaf) 0x13D8 [0xABA8] .leaf)) 0x13D9 [0xABA9] (.node (.node (.node .leaf 0x13DA [0xABAA] .leaf) 0x13DB [0xABAB] .leaf) 0x13DC [0xABAC] (.node .leaf 0x13DD [0xABAD] .leaf))) 0x13DE [0xABAE] (.node (.node (.node (.node .leaf 0x13DF [0xABAF] .leaf) 0x13E0 [0xABB0] .leaf) 0x13E1 [0xABB1] (.node (.node .leaf 0x13E2 [0xABB2] .leaf) 0x13E3 [0xABB3] .leaf)) 0x13E4 [0xABB4] (.node (.node (.node .leaf 0x13E5 [0xABB5] .leaf) 0x13E6 [0xABB6] .leaf) 0x13E7 [0xABB7] (.node .leaf 0x13E8 [0xABB8] .leaf))))) 0x13E9 [0xABB9] (.node (.node (.node (.node (.node (.node .leaf 0x13EA [0xABBA] .leaf) 0x13EB [0xABBB] .leaf) 0x13EC [0xABBC] (.node (.node .leaf 0x13ED [0xABBD] .leaf) 0x13EE [0xABBE] .leaf)) 0x13EF [0xABBF] (.node (.node (.node .leaf 0x13F0 [0x13F8] .leaf) 0x13F1 [0x13F9] .leaf) 0x13F2 [0x13FA] (.node (.node .leaf 0x13F3 [0x13FB] .leaf) 0x13F4 [0x13FC] .leaf))) 0x13F5 [0x13FD] (.node (.node (.node (.node .leaf 0x1C90 [0x10D0] .leaf) 0x1C91 [0x10D1] .leaf) 0x1C92 [0x10D2] (.node (.node .leaf 0x1C93 [0x10D3] .leaf) 0x1C94 [0x10D4] .leaf)) 0x1C95 [0x10D5] (.node (.node (.node .leaf 0x1C96 [0x10D6] .leaf) 0x1C97 [0x10D7] .leaf) 0x1C98 [0x10D8] (.node .leaf 0x1C99 [0x10D9] .leaf)))) 0x1C9A [0x10DA] (.node (.node (.node (.node (.node .leaf 0x1C9B [0x10DB] .leaf) 0x1C9C [0x10DC] .leaf) 0x1C9D [0x10DD] (.node (.node .leaf 0x1C9E [0x10DE] .leaf) 0x1C9F [0x10DF] .leaf)) 0x1CA0 [0x10E0] (.node (.node (.node .leaf 0x1CA1 [0x10E1] .leaf) 0x1CA2 [0x10E2] .leaf) 0x1CA3 [0x10E3] (.node .leaf 0x1CA4 [0x10E4] .leaf))) 0x1CA5 [0x10E5] (.node (.node (.node (.node .leaf 0x1CA6 [0x10E6] .leaf) 0x1CA7 [0x10E7] .leaf) 0x1CA8 [0x10E8] (.node (.node .leaf 0x1CA9 [0x10E9] .leaf) 0x1CAA [0x10EA] .leaf)) 0x1CAB [0x10EB] (.node (.node (.node .leaf 0x1CAC [0x10EC] .leaf) 0x1CAD [0x10ED] .leaf) 0x1CAE [0x10EE] (.node .leaf 0x1CAF [0x10EF] .leaf)))))) 0x1CB0 [0x10F0] (.node (.node (.node (.node (.node (.node (.node .leaf 0x1CB1 [0x10F1] .leaf) 0x1CB2 [0x10F2] .leaf) 0x1CB3 [0x10F3] (.node (.node .leaf 0x1CB4 [0x10F4] .leaf) 0x1CB5 [0x10F5] .leaf)) 0x1CB6 [0x10F6] (.node (.node (.node .leaf 0x1CB7 [0x10F7] .leaf) 0x1CB8 [0x10F8] .leaf) 0x1CB9 [0x10F9] (.node (.node .leaf 0x1CBA [0x10FA] .leaf) 0x1CBD [0x10FD] .leaf))) 0x1CBE [0x10FE] (.node (.node (.node (.node .leaf 0x1CBF [0x10FF] .leaf) 0x1E00 [0x1E01] .leaf) 0x1E02 [0x1E03] (.node (.node .leaf 0x1E04 [0x1E05] .leaf) 0x1E06 [0x1E07] .leaf)) 0x1E08 [0x1E09] (.node (.node (.node .leaf 0x1E0A [0x1E0B] .leaf) 0x1E0C [0x1E0D] .leaf) 0x1E0E [0x1E0F] (.node .leaf 0x1E10 [0x1E11] .leaf)))) 0x1E12 [0x1E13] (.node (.node (.node (.node (.node .leaf 0x1E14 [0x1E15] .leaf) 0x1E16 [0x1E17] .leaf) 0x1E18 [0x1E19] (.node (.node .leaf 0x1E1A [0x1E1B] .leaf) 0x1E1C [0x1E1D] .leaf)) 0x1E1E [0x1E1F] (.node (.node (.node .leaf 0x1E20 [0x1E21] .leaf) 0x1E22 [0x1E23] .leaf) 0x1E24 [0x1E25] (.node .leaf 0x1E26 [0x1E27] .leaf))) 0x1E28 [0x1E29] (.node (.node (.node (.node .leaf 0x1E2A [0x1E2B] .leaf) 0x1E2C [0x1E2D] .leaf) 0x1E2E [0x1E2F] (.node (.node .leaf 0x1E30 [0x1E31] .leaf) 0x1E32 [0x1E33] .leaf)) 0x1E34 [0x1E35] (.node (.node (.node .leaf 0x1E36 [0x1E37] .leaf) 0x1E38 [0x1E39] .leaf) 0x1E3A [0x1E3B] (.node .leaf 0x1E3C [0x1E3D] .leaf))))) 0x1E3E [0x1E3F] (.node (.node (.node (.node (.node (.node .leaf 0x1E40 [0x1E41] .leaf) 0x1E42 [0x1E43] .leaf) 0x1E44 [0x1E45] (.node (.node .leaf 0x1E46 [0x1E47] .leaf) 0x1E48 [0x1E49] .leaf)) 0x1E4A [0x1E4B] (.node (.node (.node .leaf 0x1E4C [0x1E4D] .leaf) 0x1E4E [0x1E4F] .leaf) 0x1E50 [0x1E51] (.node .leaf 0x1E52 [0x1E53] .leaf))) 0x1E54 [0x1E55] (.node (.node (.node (.node .leaf 0x1E56 [0x1E57] .leaf) 0x1E58 [0x1E59] .leaf) 0x1E5A [0x1E5B] (.node (.node .leaf 0x1E5C [0x1E5D] .leaf) 0x1E5E [0x1E5F] .leaf)) 0x1E60 [0x1E61] (.node (.node (.node .leaf 0x1E62 [0x1E63] .leaf) 0x1E64 [0x1E65] .leaf) 0x1E66 [0x1E67] (.node .leaf 0x1E68 [0x1E69] .leaf)))) 0x1E6A [0x1E6B] (.node (.node (.node (.node (.node .leaf 0x1E6C [0x1E6D] .leaf) 0x1E6E [0x1E6F] .leaf) 0x1E70 [0x1E71] (.node (.node .leaf 0x1E72 [0x1E73] .leaf) 0x1E74 [0x1E75] .leaf)) 0x1E76 [0x1E77] (.node (.node (.node .leaf 0x1E78 [0x1E79] .leaf) 0x1E7A [0x1E7B] .leaf) 0x1E7C [0x1E7D] (.node .leaf 0x1E7E [0x1E7F] .leaf))) 0x1E80 [0x1E81] (.node (.node (.node (.node .leaf 0x1E82 [0x1E83] .leaf) 0x1E84 [0x1E85] .leaf) 0x1E86 [0x1E87] (.node (.node .leaf 0x1E88 [0x1E89] .leaf) 0x1E8A [0x1E8B] .leaf)) 0x1E8C [0x1E8D] (.node (.node (.node .leaf 0x1E8E [0x1E8F] .leaf) 0x1E90 [0x1E91] .leaf) 0x1E92 [0x1E93] (.node .leaf 0x1E94 [0x1E95] .leaf)))))))

/-- Subtree of `lowerMap`. -/
def lowerMapSub21 : NatMap :=
  (.node lowerMapSub19 0x13BC [0xAB8C] lowerMapSub20)

/-- Subtree of `lowerMap`. -/
def lowerMapSub22 : NatMap :=
  (.node lowerMapSub18 0x49E [0x49F] lowerMapSub21)

/-- Subtree of `lowerMap`. -/
def lowerMapSub23 : NatMap :=
  (.node (.node (.node (.node (.node (.node (.node (.node .leaf 0x1EA0 [0x1EA1] .leaf) 0x1EA2 [0x1EA3] .leaf) 0x1EA4 [0x1EA5] (.node (.node .leaf 0x1EA6 [0x1EA7] .leaf) 0x1EA8 [0x1EA9] .leaf)) 0x1EAA [0x1EAB] (.node (.node (.node .leaf 0x1EAC [0x1EAD] .leaf) 0x1EAE [0x1EAF] .leaf) 0x1EB0 [0x1EB1] (.node (.node .leaf 0x1EB2 [0x1EB3] .leaf) 0x1EB4 [0x1EB5] .leaf))) 0x1EB6 [0x1EB7] (.node (.node (.node (.node .leaf 0x1EB8 [0x1EB9] .leaf) 0x1EBA [0x1EBB] .leaf) 0x1EBC [0x1EBD] (.node (.node .leaf 0x1EBE [0x1EBF] .leaf) 0x1EC0 [0x1EC1] .leaf)) 0x1EC2 [0x1EC3] (.node (.node (.node .leaf 0x1EC4 [0x1EC5] .leaf) 0x1EC6 [0x1EC7] .leaf) 0x1EC8 [0x1EC9] (.node .leaf 0x1ECA [0x1ECB] .leaf)))) 0x1ECC [0x1ECD] (.node (.node (.node (.node (.node .leaf 0x1ECE [0x1ECF] .leaf) 0x1ED0 [0x1ED1] .leaf) 0x1ED2 [0x1ED3] (.node (.node .leaf 0x1ED4 [0x1ED5] .leaf) 0x1ED6 [0x1ED7] .leaf)) 0x1ED8 [0x1ED9] (.node (.node (.node .leaf 0x1EDA [0x1EDB] .leaf) 0x1EDC [0x1EDD] .leaf) 0x1EDE [0x1EDF] (.node .leaf 0x1EE0 [0x1EE1] .leaf))) 0x1EE2 [0x1EE3] (.node (.node (.node (.node .leaf 0x1EE4 [0x1EE5] .leaf) 0x1EE6 [0x1EE7] .leaf) 0x1EE8 [0x1EE9] (.node (.node .leaf 0x1EEA [0x1EEB] .leaf) 0x1EEC [0x1EED] .leaf)) 0x1EEE [0x1EEF] (.node (.node (.node .leaf 0x1EF0 [0x1EF1] .leaf) 0x1EF2 [0x1EF3] .leaf) 0x1EF4 [0x1EF5] (.node .leaf 0x1EF6 [0x1EF7] .leaf))))) 0x1EF8 [0x1EF9] (.node (.node (.node (.node (.node (.node .leaf 0x1EFA [0x1EFB] .leaf) 0x1EFC [0x1EFD] .leaf) 0x1EFE [0x1EFF] (.node (.node .leaf 0x1F08 [0x1F00] .leaf) 0x1F09 [0x1F01] .leaf)) 0x1F0A [0x1F02] (.node (.node (.node .leaf 0x1F0B [0x1F03] .leaf) 0x1F0C [0x1F04] .leaf) 0x1F0D [0x1F05] (.node (.node .leaf 0x1F0E [0x1F06] .leaf) 0x1F0F [0x1F07] .leaf))) 0x1F18 [0x1F10] (.node (.node (.node (.node .leaf 0x1F19 [0x1F11] .leaf) 0x1F1A [0x1F12] .leaf) 0x1F1B [0x1F13] (.node (.node .leaf 0x1F1C [0x1F14] .leaf) 0x1F1D [0x1F15] .leaf)) 0x1F28 [0x1F20] (.node (.node (.node .leaf 0x1F29 [0x1F21] .leaf) 0x1F2A [0x1F22] .leaf) 0x1F2B [0x1F23] (.node .leaf 0x1F2C [0x1F24] .leaf)))) 0x1F2D [0x1F25] (.node (.node (.node (.node (.node .leaf 0x1F2E [0x1F26] .leaf) 0x1F2F [0x1F27] .leaf) 0x1F38 [0x1F30] (.node (.node .leaf 0x1F39 [0x1F31] .leaf) 0x1F3A [0x1F32] .leaf)) 0x1F3B [0x1F33] (.node (.node (.node .leaf 0x1F3C [0x1F34] .leaf) 0x1F3D [0x1F35] .leaf) 0x1F3E [0x1F36] (.node .leaf 0x1F3F [0x1F37] .leaf))) 0x1F48 [0x1F40] (.node (.node (.node (.node .leaf 0x1F49 [0x1F41] .leaf) 0x1F4A [0x1F42] .leaf) 0x1F4B [0x1F43] (.node (.node .leaf 0x1F4C [0x1F44] .leaf) 0x1F4D [0x1F45] .leaf)) 0x1F59 [0x1F51] (.node (.node (.node .leaf 0x1F5B [0x1F53] .leaf) 0x1F5D [0x1F55] .leaf) 0x1F5F [0x1F57] (.node .leaf 0x1F68 [0x1F60] .leaf)))))) 0x1F69 [0x1F61] (.node (.node (.node (.node (.node (.node (.node .leaf 0x1F6A [0x1F62] .leaf) 0x1F6B [0x1F63] .leaf) 0x1F6C [0x1F64] (.node (.node .leaf 0x1F6D [0x1F65] .leaf) 0x1F6E [0x1F66] .leaf)) 0x1F6F [0x1F67] (.node (.node (.node .leaf 0x1F88 [0x1F80] .leaf) 0x1F89 [0x1F81] .leaf) 0x1F8A [0x1F82] (.node (.node .leaf 0x1F8B [0x1F83] .leaf) 0x1F8C [0x1F84] .leaf))) 0x1F8D [0x1F85] (.node (.node (.node (.node .leaf 0x1F8E [0x1F86] .leaf) 0x1F8F [0x1F87] .leaf) 0x1F98 [0x1F90] (.node (.node .leaf 0x1F99 [0x1F91] .leaf) 0x1F9A [0x1F92] .leaf)) 0x1F9B [0x1F93] (.node (.node (.node .leaf 0x1F9C [0x1F94] .leaf) 0x1F9D [0x1F95] .leaf) 0x1F9E [0x1F96] (.node .leaf 0x1F9F [0x1F97] .leaf)))) 0x1FA8 [0x1FA0] (.node (.node (.node (.node (.node .leaf 0x1FA9 [0x1FA1] .leaf) 0x1FAA [0x1FA2] .leaf) 0x1FAB [0x1FA3] (.node (.node .leaf 0x1FAC [0x1FA4] .leaf) 0x1FAD [0x1FA5] .leaf)) 0x1FAE [0x1FA6] (.node (.node (.node .leaf 0x1FAF [0x1FA7] .leaf) 0x1FB8 [0x1FB0] .leaf) 0x1FB9 [0x1FB1] (.node .leaf 0x1FBA [0x1F70] .leaf))) 0x1FBB [0x1F71] (.node (.node (.node (.node .leaf 0x1FBC [0x1FB3] .leaf) 0x1FC8 [0x1F72] .leaf) 0x1FC9 [0x1F73] (.node (.node .leaf 0x1FCA [0x1F74] .leaf) 0x1FCB [0x1F75] .leaf)) 0x1FCC [0x1FC3] (.node (.node (.node .leaf 0x1FD8 [0x1FD0] .leaf) 0x1FD9 [0x1FD1] .leaf) 0x1FDA [0x1F76] (.node .leaf 0x1FDB [0x1F77] .leaf))))) 0x1FE8 [0x1FE0] (.node (.node (.node (.node (.node (.node .leaf 0x1FE9 [0x1FE1] .leaf) 0x1FEA [0x1F7A] .leaf) 0x1FEB [0x1F7B] (.node (.node .leaf 0x1FEC [0x1FE5] .leaf) 0x1FF8 [0x1F78] .leaf)) 0x1FF9 [0x1F79] (.node (.node (.node .leaf 0x1FFA [0x1F7C] .leaf) 0x1FFB [0x1F7D] .leaf) 0x1FFC [0x1FF3] (.node (.node .leaf 0x2126 [0x3C9] .leaf) 0x212A [0x6B] .leaf))) 0x212B [0xE5] (.node (.node (.node (.node .leaf 0x2132 [0x214E] .leaf) 0x2160 [0x2170] .leaf) 0x2161 [0x2171] (.node (.node .leaf 0x2162 [0x2172] .leaf) 0x2163 [0x2173] .leaf)) 0x2164 [0x2174] (.node (.node (.node .leaf 0x2165 [0x2175] .leaf) 0x2166 [0x2176] .leaf) 0x2167 [0x2177] (.node .leaf 0x2168 [0x2178] .leaf)))) 0x2169 [0x2179] (.node (.node (.node (.node (.node .leaf 0x216A [0x217A] .leaf) 0x216B [0x217B] .leaf) 0x216C [0x217C] (.node (.node .leaf 0x216D [0x217D] .leaf) 0x216E [0x217E] .leaf)) 0x216F [0x217F] (.node (.node (.node .leaf 0x2183 [0x2184] .leaf) 0x24B6 [0x24D0] .leaf) 0x24B7 [0x24D1] (.node .leaf 0x24B8 [0x24D2] .leaf))) 0x24B9 [0x24D3] (.node (.node (.node (.node .leaf 0x24BA [0x24D4] .leaf) 0x24BB [0x24D5] .leaf) 0x24BC [0x24D6] (.node (.node .leaf 0x24BD [0x24D7] .leaf) 0x24BE [0x24D8] .leaf)) 0x24BF [0x24D9] (.node (.node (.node .leaf 0x24C0 [0x24DA] .leaf) 0x24C1 [0x24DB] .leaf) 0x24C2 [0x24DC] (.node .leaf 0x24C3 [0x24DD] .leaf)))))))

/-- Subtree of `lowerMap`. -/
def lowerMapSub24 : NatMap :=
  (.node (.node (.node (.node (.node (.node (.node (.node .leaf 0x24C5 [0x24DF] .leaf) 0x24C6 [0x24E0] .leaf) 0x24C7 [0x24E1] (.node (.node .leaf 0x24C8 [0x24E2] .leaf) 0x24C9 [0x24E3] .leaf)) 0x24CA [0x24E4] (.node (.node (.node .leaf 0x24CB [0x24E5] .leaf) 0x24CC [0x24E6] .leaf) 0x24CD [0x24E7] (.node (.node .leaf 0x24CE [0x24E8] .leaf) 0x24CF [0x24E9] .leaf))) 0x2C00 [0x2C30] (.node (.node (.node (.node .leaf 0x2C01 [0x2C31] .leaf) 0x2C02 [0x2C32] .leaf) 0x2C03 [0x2C33] (.node (.node .leaf 0x2C04 [0x2C34] .leaf) 0x2C05 [0x2C35] .leaf)) 0x2C06 [0x2C36] (.node (.node (.node .leaf 0x2C07 [0x2C37] .leaf) 0x2C08 [0x2C38] .leaf) 0x2C09 [0x2C39] (.node .leaf 0x2C0A [0x2C3A] .leaf)))) 0x2C0B [0x2C3B] (.node (.node (.node (.node (.node .leaf 0x2C0C [0x2C3C] .leaf) 0x2C0D [0x2C3D] .leaf) 0x2C0E [0x2C3E] (.node (.node .leaf 0x2C0F [0x2C3F] .leaf) 0x2C10 [0x2C40] .leaf)) 0x2C11 [0x2C41] (.node (.node (.node .leaf 0x2C12 [0x2C42] .leaf) 0x2C13 [0x2C43] .leaf) 0x2C14 [0x2C44] (.node .leaf 0x2C15 [0x2C45] .leaf))) 0x2C16 [0x2C46] (.node (.node (.node (.node .leaf 0x2C17 [0x2C47] .leaf) 0x2C18 [0x2C48] .leaf) 0x2C19 [0x2C49] (.node (.node .leaf 0x2C1A [0x2C4A] .leaf) 0x2C1B [0x2C4B] .leaf)) 0x2C1C [0x2C4C] (.node (.node (.node .leaf 0x2C1D [0x2C4D] .leaf) 0x2C1E [0x2C4E] .leaf) 0x2C1F [0x2C4F] (.node .leaf 0x2C20 [0x2C50] .leaf))))) 0x2C21 [0x2C51] (.node (.node (.node (.node (.node (.node .leaf 0x2C22 [0x2C52] .leaf) 0x2C23 [0x2C53] .leaf) 0x2C24 [0x2C54] (.node (.node .leaf 0x2C25 [0x2C55] .leaf) 0x2C26 [0x2C56] .leaf)) 0x2C27 [0x2C57] (.node (.node (.node .leaf 0x2C28 [0x2C58] .leaf) 0x2C29 [0x2C59] .leaf) 0x2C2A [0x2C5A] (.node (.node .leaf 0x2C2B [0x2C5B] .leaf) 0x2C2C [0x2C5C] .leaf))) 0x2C2D [0x2C5D] (.node (.node (.node (.node .leaf 0x2C2E [0x2C5E] .leaf) 0x2C2F [0x2C5F] .leaf) 0x2C60 [0x2C61] (.node (.node .leaf 0x2C62 [0x26B] .leaf) 0x2C63 [0x1D7D] .leaf)) 0x2C64 [0x27D] (.node (.node (.node .leaf 0x2C67 [0x2C68] .leaf) 0x2C69 [0x2C6A] .leaf) 0x2C6B [0x2C6C] (.node .leaf 0x2C6D [0x251] .leaf)))) 0x2C6E [0x271] (.node (.node (.node (.node (.node .leaf 0x2C6F [0x250] .leaf) 0x2C70 [0x252] .leaf) 0x2C72 [0x2C73] (.node (.node .leaf 0x2C75 [0x2C76] .leaf) 0x2C7E [0x23F] .leaf)) 0x2C7F [0x240] (.node (.node (.node .leaf 0x2C80 [0x2C81] .leaf) 0x2C82 [0x2C83] .leaf) 0x2C84 [0x2C85] (.node .leaf 0x2C86 [0x2C87] .leaf))) 0x2C88 [0x2C89] (.node (.node (.node (.node .leaf 0x2C8A [0x2C8B] .leaf) 0x2C8C [0x2C8D] .leaf) 0x2C8E [0x2C8F] (.node (.node .leaf 0x2C90 [0x2C91] .leaf) 0x2C92 [0x2C93] .leaf)) 0x2C94 [0x2C95] (.node (.node (.node .leaf 0x2C96 [0x2C97] .leaf) 0x2C98 [0x2C99] .leaf) 0x2C9A [0x2C9B] (.node .leaf 0x2C9C [0x2C9D] .leaf)))))) 0x2C9E [0x2C9F] (.node (.node (.node (.node (.node (.node (.node .leaf 0x2CA0 [0x2CA1] .leaf) 0x2CA2 [0x2CA3] .leaf) 0x2CA4 [0x2CA5] (.node (.node .leaf 0x2CA6 [0x2CA7] .leaf) 0x2CA8 [0x2CA9] .leaf)) 0x2CAA [0x2CAB] (.node (.node (.node .leaf 0x2CAC [0x2CAD] .leaf) 0x2CAE [0x2CAF] .leaf) 0x2CB0 [0x2CB1] (.node (.node .leaf 0x2CB2 [0x2CB3] .leaf) 0x2CB4 [0x2CB5] .leaf))) 0x2CB6 [0x2CB7] (.node (.node (.node (.node .leaf 0x2CB8 [0x2CB9] .leaf) 0x2CBA [0x2CBB] .leaf) 0x2CBC [0x2CBD] (.node (.node .leaf 0x2CBE [0x2CBF] .leaf) 0x2CC0 [0x2CC1] .leaf)) 0x2CC2 [0x2CC3] (.node (.node (.node .leaf 0x2CC4 [0x2CC5] .leaf) 0x2CC6 [0x2CC7] .leaf) 0x2CC8 [0x2CC9] (.node .leaf 0x2CCA [0x2CCB] .leaf)))) 0x2CCC [0x2CCD] (.node (.node (.node (.node (.node .leaf 0x2CCE [0x2CCF] .leaf) 0x2CD0 [0x2CD1] .leaf) 0x2CD2 [0x2CD3] (.node (.node .leaf 0x2CD4 [0x2CD5] .leaf) 0x2CD6 [0x2CD7] .leaf)) 0x2CD8 [0x2CD9] (.node (.node (.node .leaf 0x2CDA [0x2CDB] .leaf) 0x2CDC [0x2CDD] .leaf) 0x2CDE [0x2CDF] (.node .leaf 0x2CE0 [0x2CE1] .leaf))) 0x2CE2 [0x2CE3] (.node (.node (.node (.node .leaf 0x2CEB [0x2CEC] .leaf) 0x2CED [0x2CEE] .leaf) 0x2CF2 [0x2CF3] (.node (.node .leaf 0xA640 [0xA641] .leaf) 0xA642 [0xA643] .leaf)) 0xA644 [0xA645] (.node (.node (.node .leaf 0xA646 [0xA647] .leaf) 0xA648 [0xA649] .leaf) 0xA64A [0xA64B] (.node .leaf 0xA64C [0xA64D] .leaf))))) 0xA64E [0xA64F] (.node (.node (.node (.node (.node (.node .leaf 0xA650 [0xA651] .leaf) 0xA652 [0xA653] .leaf) 0xA654 [0xA655] (.node (.node .leaf 0xA656 [0xA657] .leaf) 0xA658 [0xA659] .leaf)) 0xA65A [0xA65B] (.node (.node (.node .leaf 0xA65C [0xA65D] .leaf) 0xA65E [0xA65F] .leaf) 0xA660 [0xA661] (.node .leaf 0xA662 [0xA663] .leaf))) 0xA664 [0xA665] (.node (.node (.node (.node .leaf 0xA666 [0xA667] .leaf) 0xA668 [0xA669] .leaf) 0xA66A [0xA66B] (.node (.node .leaf 0xA66C [0xA66D] .leaf) 0xA680 [0xA681] .leaf)) 0xA682 [0xA683] (.node (.node (.node .leaf 0xA684 [0xA685] .leaf) 0xA686 [0xA687] .leaf) 0xA688 [0xA689] (.node .leaf 0xA68A [0xA68B] .leaf)))) 0xA68C [0xA68D] (.node (.node (.node (.node (.node .leaf 0xA68E [0xA68F] .leaf) 0xA690 [0xA691] .leaf) 0xA692 [0xA693] (.node (.node .leaf 0xA694 [0xA695] .leaf) 0xA696 [0xA697] .leaf)) 0xA698 [0xA699] (.node (.node (.node .leaf 0xA69A [0xA69B] .leaf) 0xA722 [0xA723] .leaf) 0xA724 [0xA725] (.node .leaf 0xA726 [0xA727] .leaf))) 0xA728 [0xA729] (.node (.node (.node (.node .leaf 0xA72A [0xA72B] .leaf) 0xA72C [0xA72D] .leaf) 0xA72E [0xA72F] (.node (.node .leaf 0xA732 [0xA733] .leaf) 0xA734 [0xA735] .leaf)) 0xA736 [0xA737] (.node (.node (.node .leaf 0xA738 [0xA739] .leaf) 0xA73A [0xA73B] .leaf) 0xA73C [0xA73D] (.node .leaf 0xA73E [0xA73F] .leaf)))))))

/-- Subtree of `lowerMap`. -/
def lowerMapSub25 : NatMap :=
  (.node lowerMapSub23 0x24C4 [0x24DE] lowerMapSub24)

/-- Subtree of `lowerMap`. -/
def lowerMapSub26 : NatMap :=
  (.node (.node (.node (.node (.node (.node (.node (.node .leaf 0xA742 [0xA743] .leaf) 0xA744 [0xA745] .leaf) 0xA746 [0xA747] (.node (.node .leaf 0xA748 [0xA749] .leaf) 0xA74A [0xA74B] .leaf)) 0xA74C [0xA74D] (.node (.node (.node .leaf 0xA74E [0xA74F] .leaf) 0xA750 [0xA751] .leaf) 0xA752 [0xA753] (.node (.node .leaf 0xA754 [0xA755] .leaf) 0xA756 [0xA757] .leaf))) 0xA758 [0xA759] (.node (.node (.node (.node .leaf 0xA75A [0xA75B] .leaf) 0xA75C [0xA75D] .leaf) 0xA75E [0xA75F] (.node (.node .leaf 0xA760 [0xA761] .leaf) 0xA762 [0xA763] .leaf)) 0xA764 [0xA765] (.node (.node (.node .leaf 0xA766 [0xA767] .leaf) 0xA768 [0xA769] .leaf) 0xA76A [0xA76B] (.node .leaf 0xA76C [0xA76D] .leaf)))) 0xA76E [0xA76F] (.node (.node (.node (.node (.node .leaf 0xA779 [0xA77A] .leaf) 0xA77B [0xA77C] .leaf) 0xA77D [0x1D79] (.node (.node .leaf 0xA77E [0xA77F] .leaf) 0xA780 [0xA781] .leaf)) 0xA782 [0xA783] (.node (.node (.node .leaf 0xA784 [0xA785] .leaf) 0xA786 [0xA787] .leaf) 0xA78B [0xA78C] (.node .leaf 0xA78D [0x265] .leaf))) 0xA790 [0xA791] (.node (.node (.node (.node .leaf 0xA792 [0xA793] .leaf) 0xA796 [0xA797] .leaf) 0xA798 [0xA799] (.node (.node .leaf 0xA79A [0xA79B] .leaf) 0xA79C [0xA79D] .leaf)) 0xA79E [0xA79F] (.node (.node (.node .leaf 0xA7A0 [0xA7A1] .leaf) 0xA7A2 [0xA7A3] .leaf) 0xA7A4 [0xA7A5] (.node .leaf 0xA7A6 [0xA7A7] .leaf))))) 0xA7A8 [0xA7A9] (.node (.node (.node (.node (.node (.node .leaf 0xA7AA [0x266] .leaf) 0xA7AB [0x25C] .leaf) 0xA7AC [0x261] (.node (.node .leaf 0xA7AD [0x26C] .leaf) 0xA7AE [0x26A] .leaf)) 0xA7B0 [0x29E] (.node (.node (.node .leaf 0xA7B1 [0x287] .leaf) 0xA7B2 [0x29D] .leaf) 0xA7B3 [0xAB53] (.node (.node .leaf 0xA7B4 [0xA7B5] .leaf) 0xA7B6 [0xA7B7] .leaf))) 0xA7B8 [0xA7B9] (.node (.node (.node (.node .leaf 0xA7BA [0xA7BB] .leaf) 0xA7BC [0xA7BD] .leaf) 0xA7BE [0xA7BF] (.node (.node .leaf 0xA7C0 [0xA7C1] .leaf) 0xA7C2 [0xA7C3] .leaf)) 0xA7C4 [0xA794] (.node (.node (.node .leaf 0xA7C5 [0x282] .leaf) 0xA7C6 [0x1D8E] .leaf) 0xA7C7 [0xA7C8] (.node .leaf 0xA7C9 [0xA7CA] .leaf)))) 0xA7D0 [0xA7D1] (.node (.node (.node (.node (.node .leaf 0xA7D6 [0xA7D7] .leaf) 0xA7D8 [0xA7D9] .leaf) 0xA7F5 [0xA7F6] (.node (.node .leaf 0xFF21 [0xFF41] .leaf) 0xFF22 [0xFF42] .leaf)) 0xFF23 [0xFF43] (.node (.node (.node .leaf 0xFF24 [0xFF44] .leaf) 0xFF25 [0xFF45] .leaf) 0xFF26 [0xFF46] (.node .leaf 0xFF27 [0xFF47] .leaf))) 0xFF28 [0xFF48] (.node (.node (.node (.node .leaf 0xFF29 [0xFF49] .leaf) 0xFF2A [0xFF4A] .leaf) 0xFF2B [0xFF4B] (.node (.node .leaf 0xFF2C [0xFF4C] .leaf) 0xFF2D [0xFF4D] .leaf)) 0xFF2E [0xFF4E] (.node (.node (.node .leaf 0xFF2F [0xFF4F] .leaf) 0xFF30 [0xFF50] .leaf) 0xFF31 [0xFF51] (.node .leaf 0xFF32 [0xFF52] .leaf)))))) 0xFF33 [0xFF53] (.node (.node (.node (.node (.node (.node (.node .leaf 0xFF34 [0xFF54] .leaf) 0xFF35 [0xFF55] .leaf) 0xFF36 [0xFF56] (.node (.node .leaf 0xFF37 [0xFF57] .leaf) 0xFF38 [0xFF58] .leaf)) 0xFF39 [0xFF59] (.node (.node (.node .leaf 0xFF3A [0xFF5A] .leaf) 0x10400 [0x10428] .leaf) 0x10401 [0x10429] (.node (.node .leaf 0x10402 [0x1042A] .leaf) 0x10403 [0x1042B] .leaf))) 0x10404 [0x1042C] (.node (.node (.node (.node .leaf 0x10405 [0x1042D] .leaf) 0x10406 [0x1042E] .leaf) 0x10407 [0x1042F] (.node (.node .leaf 0x10408 [0x10430] .leaf) 0x10409 [0x10431] .leaf)) 0x1040A [0x10432] (.node (.node (.node .leaf 0x1040B [0x10433] .leaf) 0x1040C [0x10434] .leaf) 0x1040D [0x10435] (.node .leaf 0x1040E [0x10436] .leaf)))) 0x1040F [0x10437] (.node (.node (.node (.node (.node .leaf 0x10410 [0x10438] .leaf) 0x10411 [0x10439] .leaf) 0x10412 [0x1043A] (.node (.node .leaf 0x10413 [0x1043B] .leaf) 0x10414 [0x1043C] .leaf)) 0x10415 [0x1043D] (.node (.node (.node .leaf 0x10416 [0x1043E] .leaf) 0x10417 [0x1043F] .leaf) 0x10418 [0x10440] (.node .leaf 0x10419 [0x10441] .leaf))) 0x1041A [0x10442] (.node (.node (.node (.node .leaf 0x1041B [0x10443] .leaf) 0x1041C [0x10444] .leaf) 0x1041D [0x10445] (.node (.node .leaf 0x1041E [0x10446] .leaf) 0x1041F [0x10447] .leaf)) 0x10420 [0x10448] (.node (.node (.node .leaf 0x10421 [0x10449] .leaf) 0x10422 [0x1044A] .leaf) 0x10423 [0x1044B] (.node .leaf 0x10424 [0x1044C] .leaf))))) 0x10425 [0x1044D] (.node (.node (.node (.node (.node (.node .leaf 0x10426 [0x1044E] .leaf) 0x10427 [0x1044F] .leaf) 0x104B0 [0x104D8] (.node (.node .leaf 0x104B1 [0x104D9] .leaf) 0x104B2 [0x104DA] .leaf)) 0x104B3 [0x104DB] (.node (.node (.node .leaf 0x104B4 [0x104DC] .leaf) 0x104B5 [0x104DD] .leaf) 0x104B6 [0x104DE] (.node .leaf 0x104B7 [0x104DF] .leaf))) 0x104B8 [0x104E0] (.node (.node (.node (.node .leaf 0x104B9 [0x104E1] .leaf) 0x104BA [0x104E2] .leaf) 0x104BB [0x104E3] (.node (.node .leaf 0x104BC [0x104E4] .leaf) 0x104BD [0x104E5] .leaf)) 0x104BE [0x104E6] (.node (.node (.node .leaf 0x104BF [0x104E7] .leaf) 0x104C0 [0x104E8] .leaf) 0x104C1 [0x104E9] (.node .leaf 0x104C2 [0x104EA] .leaf)))) 0x104C3 [0x104EB] (.node (.node (.node (.node (.node .leaf 0x104C4 [0x104EC] .leaf) 0x104C5 [0x104ED] .leaf) 0x104C6 [0x104EE] (.node (.node .leaf 0x104C7 [0x104EF] .leaf) 0x104C8 [0x104F0] .leaf)) 0x104C9 [0x104F1] (.node (.node (.node .leaf 0x104CA [0x104F2] .leaf) 0x104CB [0x104F3] .leaf) 0x104CC [0x104F4] (.node .leaf 0x104CD [0x104F5] .leaf))) 0x104CE [0x104F6] (.node (.node (.node (.node .leaf 0x104CF [0x104F7] .leaf) 0x104D0 [0x104F8] .leaf) 0x104D1 [0x104F9] (.node (.node .leaf 0x104D2 [0x104FA] .leaf) 0x104D3 [0x104FB] .leaf)) 0x10570 [0x10597] (.node (.node (.node .leaf 0x10571 [0x10598] .leaf) 0x10572 [0x10599] .leaf) 0x10573 [0x1059A] (.node .leaf 0x10574 [0x1059B] .leaf)))))))

/-- Subtree of `lowerMap`. -/
def lowerMapSub27 : NatMap :=
  (.node (.node (.node (.node (.node (.node (.node (.node .leaf 0x10576 [0x1059D] .leaf) 0x10577 [0x1059E] .leaf) 0x10578 [0x1059F] (.node (.node .leaf 0x10579 [0x105A0] .leaf) 0x1057A [0x105A1] .leaf)) 0x1057C [0x105A3] (.node (.node (.node .leaf 0x1057D [0x105A4] .leaf) 0x1057E [0x105A5] .leaf) 0x1057F [0x105A6] (.node (.node .leaf 0x10580 [0x105A7] .leaf) 0x10581 [0x105A8] .leaf))) 0x10582 [0x105A9] (.node (.node (.node (.node .leaf 0x10583 [0x105AA] .leaf) 0x10584 [0x105AB] .leaf) 0x10585 [0x105AC] (.node (.node .leaf 0x10586 [0x105AD] .leaf) 0x10587 [0x105AE] .leaf)) 0x10588 [0x105AF] (.node (.node (.node .leaf 0x10589 [0x105B0] .leaf) 0x1058A [0x105B1] .leaf) 0x1058C [0x105B3] (.node .leaf 0x1058D [0x105B4] .leaf)))) 0x1058E [0x105B5] (.node (.node (.node (.node (.node .leaf 0x1058F [0x105B6] .leaf) 0x10590 [0x105B7] .leaf) 0x10591 [0x105B8] (.node (.node .leaf 0x10592 [0x105B9] .leaf) 0x10594 [0x105BB] .leaf)) 0x10595 [0x105BC] (.node (.node (.node .leaf 0x10C80 [0x10CC0] .leaf) 0x10C81 [0x10CC1] .leaf) 0x10C82 [0x10CC2] (.node .leaf 0x10C83 [0x10CC3] .leaf))) 0x10C84 [0x10CC4] (.node (.node (.node (.node .leaf 0x10C85 [0x10CC5] .leaf) 0x10C86 [0x10CC6] .leaf) 0x10C87 [0x10CC7] (.node (.node .leaf 0x10C88 [0x10CC8] .leaf) 0x10C89 [0x10CC9] .leaf)) 0x10C8A [0x10CCA] (.node (.node (.node .leaf 0x10C8B [0x10CCB] .leaf) 0x10C8C [0x10CCC] .leaf) 0x10C8D [0x10CCD] (.node .leaf 0x10C8E [0x10CCE] .leaf))))) 0x10C8F [0x10CCF] (.node (.node (.node (.node (.node (.node .leaf 0x10C90 [0x10CD0] .leaf) 0x10C91 [0x10CD1] .leaf) 0x10C92 [0x10CD2] (.node (.node .leaf 0x10C93 [0x10CD3] .leaf) 0x10C94 [0x10CD4] .leaf)) 0x10C95 [0x10CD5] (.node (.node (.node .leaf 0x10C96 [0x10CD6] .leaf) 0x10C97 [0x10CD7] .leaf) 0x10C98 [0x10CD8] (.node (.node .leaf 0x10C99 [0x10CD9] .leaf) 0x10C9A [0x10CDA] .leaf))) 0x10C9B [0x10CDB] (.node (.node (.node (.node .leaf 0x10C9C [0x10CDC] .leaf) 0x10C9D [0x10CDD] .leaf) 0x10C9E [0x10CDE] (.node (.node .leaf 0x10C9F [0x10CDF] .leaf) 0x10CA0 [0x10CE0] .leaf)) 0x10CA1 [0x10CE1] (.node (.node (.node .leaf 0x10CA2 [0x10CE2] .leaf) 0x10CA3 [0x10CE3] .leaf) 0x10CA4 [0x10CE4] (.node .leaf 0x10CA5 [0x10CE5] .leaf)))) 0x10CA6 [0x10CE6] (.node (.node (.node (.node (.node .leaf 0x10CA7 [0x10CE7] .leaf) 0x10CA8 [0x10CE8] .leaf) 0x10CA9 [0x10CE9] (.node (.node .leaf 0x10CAA [0x10CEA] .leaf) 0x10CAB [0x10CEB] .leaf)) 0x10CAC [0x10CEC] (.node (.node (.node .leaf 0x10CAD [0x10CED] .leaf) 0x10CAE [0x10CEE] .leaf) 0x10CAF [0x10CEF] (.node .leaf 0x10CB0 [0x10CF0] .leaf))) 0x10CB1 [0x10CF1] (.node (.node (.node (.node .leaf 0x10CB2 [0x10CF2] .leaf) 0x118A0 [0x118C0] .leaf) 0x118A1 [0x118C1] (.node (.node .leaf 0x118A2 [0x118C2] .leaf) 0x118A3 [0x118C3] .leaf)) 0x118A4 [0x118C4] (.node (.node (.node .leaf 0x118A5 [0x118C5] .leaf) 0x118A6 [0x118C6] .leaf) 0x118A7 [0x118C7] (.node .leaf 0x118A8 [0x118C8] .leaf)))))) 0x118A9 [0x118C9] (.node (.node (.node (.node (.node (.node (.node .leaf 0x118AA [0x118CA] .leaf) 0x118AB [0x118CB] .leaf) 0x118AC [0x118CC] (.node (.node .leaf 0x118AD [0x118CD] .leaf) 0x118AE [0x118CE] .leaf)) 0x118AF [0x118CF] (.node (.node (.node .leaf 0x118B0 [0x118D0] .leaf) 0x118B1 [0x118D1] .leaf) 0x118B2 [0x118D2] (.node (.node .leaf 0x118B3 [0x118D3] .leaf) 0x118B4 [0x118D4] .leaf))) 0x118B5 [0x118D5] (.node (.node (.node (.node .leaf 0x118B6 [0x118D6] .leaf) 0x118B7 [0x118D7] .leaf) 0x118B8 [0x118D8] (.node (.node .leaf 0x118B9 [0x118D9] .leaf) 0x118BA [0x118DA] .leaf)) 0x118BB [0x118DB] (.node (.node (.node .leaf 0x118BC [0x118DC] .leaf) 0x118BD [0x118DD] .leaf) 0x118BE [0x118DE] (.node .leaf 0x118BF [0x118DF] .leaf)))) 0x16E40 [0x16E60] (.node (.node (.node (.node (.node .leaf 0x16E41 [0x16E61] .leaf) 0x16E42 [0x16E62] .leaf) 0x16E43 [0x16E63] (.node (.node .leaf 0x16E44 [0x16E64] .leaf) 0x16E45 [0x16E65] .leaf)) 0x16E46 [0x16E66] (.node (.node (.node .leaf 0x16E47 [0x16E67] .leaf) 0x16E48 [0x16E68] .leaf) 0x16E49 [0x16E69] (.node .leaf 0x16E4A [0x16E6A] .leaf))) 0x16E4B [0x16E6B] (.node (.node (.node (.node .leaf 0x16E4C [0x16E6C] .leaf) 0x16E4D [0x16E6D] .leaf) 0x16E4E [0x16E6E] (.node (.node .leaf 0x16E4F [0x16E6F] .leaf) 0x16E50 [0x16E70] .leaf)) 0x16E51 [0x16E71] (.node (.node (.node .leaf 0x16E52 [0x16E72] .leaf) 0x16E53 [0x16E73] .leaf) 0x16E54 [0x16E74] (.node .leaf 0x16E55 [0x16E75] .leaf))))) 0x16E56 [0x16E76] (.node (.node (.node (.node (.node (.node .leaf 0x16E57 [0x16E77] .leaf) 0x16E58 [0x16E78] .leaf) 0x16E59 [0x16E79] (.node (.node .leaf 0x16E5A [0x16E7A] .leaf) 0x16E5B [0x16E7B] .leaf)) 0x16E5C [0x16E7C] (.node (.node (.node .leaf 0x16E5D [0x16E7D] .leaf) 0x16E5E [0x16E7E] .leaf) 0x16E5F [0x16E7F] (.node .leaf 0x1E900 [0x1E922] .leaf))) 0x1E901 [0x1E923] (.node (.node (.node (.node .leaf 0x1E902 [0x1E924] .leaf) 0x1E903 [0x1E925] .leaf) 0x1E904 [0x1E926] (.node (.node .leaf 0x1E905 [0x1E927] .leaf) 0x1E906 [0x1E928] .leaf)) 0x1E907 [0x1E929] (.node (.node (.node .leaf 0x1E908 [0x1E92A] .leaf) 0x1E909 [0x1E92B] .leaf) 0x1E90A [0x1E92C] (.node .leaf 0x1E90B [0x1E92D] .leaf)))) 0x1E90C [0x1E92E] (.node (.node (.node (.node (.node .leaf 0x1E90D [0x1E92F] .leaf) 0x1E90E [0x1E930] .leaf) 0x1E90F [0x1E931] (.node (.node .leaf 0x1E910 [0x1E932] .leaf) 0x1E911 [0x1E933] .leaf)) 0x1E912 [0x1E934] (.node (.node (.node .leaf 0x1E913 [0x1E935] .leaf) 0x1E914 [0x1E936] .leaf) 0x1E915 [0x1E937] (.node .leaf 0x1E916 [0x1E938] .leaf))) 0x1E917 [0x1E939] (.node (.node (.node (.node .leaf 0x1E918 [0x1E93A] .leaf) 0x1E919 [0x1E93B] .leaf) 0x1E91A [0x1E93C] (.node (.node .leaf 0x1E91B [0x1E93D] .leaf) 0x1E91C [0x1E93E] .leaf)) 0x1E91D [0x1E93F] (.node (.node (.node .leaf 0x1E91E [0x1E940] .leaf) 0x1E91F [0x1E941] .leaf) 0x1E920 [0x1E942] (.node .leaf 0x1E921 [0x1E943] .leaf)))))))

/-- Subtree of `lowerMap`. -/
def lowerMapSub28 : NatMap :=
  (.node lowerMapSub26 0x10575 [0x1059C] lowerMapSub27)

/-- Subtree of `lowerMap`. -/
def lowerMapSub29 : NatMap :=
  (.node lowerMapSub25 0xA740 [0xA741] lowerMapSub28)

/-- Subtree of `lowerMap`. -/
def lowerMapSub30 : NatMap :=
  (.node lowerMapSub22 0x1E9E [0xDF] lowerMapSub29)

/-- Full Unicode lowercase mappings, as a balanced search tree over the sorted table behind Rust's char::to_lowercase: every scalar value whose full lowercase mapping (1-2 scalar values) differs from itself, looked up by binary search; scalar values absent from the tree map to themselves. -/
def lowerMap : NatMap :=
  lowerMapSub30

/-- The full uppercase mapping of one scalar value, as `char::to_uppercase`:
the table entry when present, the identity otherwise. -/
def ucChar (c : Nat) : List Nat := (upperMap.find c).getD [c]

/-- The full lowercase mapping of one scalar value, as `char::to_lowercase`:
the table entry when present, the identity otherwise. -/
def lcChar (c : Nat) : List Nat := (lowerMap.find c).getD [c]

/-- Case-mapping a scalar sequence and flattening, as the `Flatten` of a
`CaseMap` iterator over `Chars` does. -/
def caseFlat (f : Nat → List Nat) (s : List Nat) : List Nat := (s.map f).flatten

/-- `CasedChunk::valid()`: the case-mapped scalar stream of the chunk's valid
text, `M::from_chars(self.0.valid().chars()).flatten()`. -/
def chunkValid (f : Nat → List Nat) (ch : List Nat × List Nat) : List Nat :=
  caseFlat f (decodeUtf8 ch.1)

/-- `Iterator::eq` over finite streams, given item equality. -/
def iterEqb (f : α → α → Bool) : List α → List α → Bool
  | [], [] => true
  | x :: xs, y :: ys => f x y && iterEqb f xs ys
  | _, _ => false

/-- `PartialEq for CasedChunk`:
`self.valid().eq(other.valid()) && self.invalid() == other.invalid()`. -/
def chunkEqb (f : Nat → List Nat) (c d : List Nat × List Nat) : Bool :=
  chunkValid f c == chunkValid f d && c.2 == d.2

/-- `PartialEq for Insensitive`: `self.upper_chunks().eq(other.cased_chunks())`,
where the case map of both sides is the uppercase one. -/
def eqIns (a b : List Nat) : Bool :=
  iterEqb (chunkEqb ucChar) (utf8ChunksList a) (utf8ChunksList b)

/-- `Ord` for `u32` (scalar values and bytes). -/
def natCmp (n m : Nat) : Ordering := if n < m then .lt else if n == m then .eq else .gt

/-- `Iterator::cmp` over finite streams, given item ordering; also the
lexicographic `Ord` of byte slices. -/
def iterCmp (f : α → α → Ordering) : List α → List α → Ordering
  | [], [] => .eq
  | [], _ :: _ => .lt
  | _ :: _, [] => .gt
  | x :: xs, y :: ys => (f x y).then (iterCmp f xs ys)

/-- `Ord for CasedChunk`: compare the case-mapped valid streams, ties broken by
the invalid byte slices. -/
def chunkCmpb (f : Nat → List Nat) (c d : List Nat × List Nat) : Ordering :=
  (iterCmp natCmp (chunkValid f c) (chunkValid f d)).then (iterCmp natCmp c.2 d.2)

/-- `Ord for Insensitive`: `self.upper_chunks().cmp(other.cased_chunks())`. -/
def cmpIns (a b : List Nat) : Ordering :=
  iterCmp (chunkCmpb ucChar) (utf8ChunksList a) (utf8ChunksList b)

/-- One call into a `Hasher`, as made by the `Hash` impls. -/
inductive HashEvent where
  | writeU32 (v : Nat)
  | write (bytes : List Nat)
deriving DecidableEq

/-- `Hash for CasedChunk`: `write_u32` of each case-mapped scalar of the valid
part, then one `write` of the invalid byte slice. -/
def chunkHash (f : Nat → List Nat) (ch : List Nat × List Nat) : List HashEvent :=
  (chunkValid f ch).map HashEvent.writeU32 ++ [HashEvent.write ch.2]

/-- `Hash for Insensitive`: hash every chunk of `upper_chunks()` in order; the
value is the full sequence of `Hasher` calls performed. -/
def hashTrace (a : List Nat) : List HashEvent :=
  ((utf8ChunksList a).map (chunkHash ucChar)).flatten

/-- `Insensitive::encode`: for every chunk, append to `buf` the UTF-8 encoding
of each case-mapped scalar of the valid part, then the invalid bytes
unchanged. -/
def encode (f : Nat → List Nat) (a : List Nat) (buf : List Nat) : List Nat :=
  (utf8ChunksList a).foldl
    (fun buf ch => ((chunkValid f ch).foldl (fun b c => b ++ utf8Encode c) buf) ++ ch.2) buf

/-- `to_upper`: encode into a fresh buffer with the uppercase map. -/
def toUpper (a : List Nat) : List Nat := encode ucChar a []

/-- `to_lower`: encode into a fresh buffer with the lowercase map. -/
def toLower (a : List Nat) : List Nat := encode lcChar a []

/-- `Insensitive::len`: the length of the underlying byte slice. -/
def lenIns (a : List Nat) : Nat := a.length

/-- A byte slice is entirely valid UTF-8 exactly when every chunk of its
`utf8_chunks()` has an empty invalid part (as for `str::from_utf8`). -/
def isValidUtf8 (a : List Nat) : Bool := (utf8ChunksList a).all fun ch => ch.2.isEmpty

/-- All elements are byte values (the model uses `Nat` for `u8`). -/
def isBytes (a : List Nat) : Bool := a.all fun b => decide (b < 256)

/-- `InsensitiveBuf::extend_from_slice_reversed`: remember `start = len`,
append the slice, then reverse the range `start..end` in place. -/
def extendFromSliceReversed (buf s : List Nat) : List Nat :=
  let start := buf.length
  let buf2 := buf ++ s
  buf2.take start ++ (buf2.drop start).reverse

/-- A segment of the chunk decomposition: a run of valid UTF-8 text or a run
of bytes that do not decode as UTF-8. -/
inductive Seg where
  | valid (bytes : List Nat)
  | invalid (bytes : List Nat)
deriving DecidableEq

/-- Classification of a segment. -/
def Seg.isValidText : Seg → Bool
  | .valid _ => true
  | .invalid _ => false

/-- The segment sequence of a byte slice: each chunk contributes its non-empty
valid part and then its non-empty invalid part. -/
def segsOfChunks (chunks : List (List Nat × List Nat)) : List Seg :=
  chunks.flatMap fun ch =>
    (if ch.1.isEmpty then [] else [Seg.valid ch.1]) ++
    (if ch.2.isEmpty then [] else [Seg.invalid ch.2])

/-- The segment sequence of a byte slice. -/
def segs (a : List Nat) : List Seg := segsOfChunks (utf8ChunksList a)

/-- No two adjacent segments have the same classification. -/
def noSameClass : List Seg → Bool
  | s :: t :: rest => (s.isValidText != t.isValidText) && noSameClass (t :: rest)
  | _ => true

/-- No two adjacent segments are both valid-text segments. -/
def noAdjacentValid : List Seg → Bool
  | s :: t :: rest => !(s.isValidText && t.isValidText) && noAdjacentValid (t :: rest)
  | _ => true

/-- The comparison key of a chunk: the case-mapped scalar stream of its valid
part together with its raw invalid bytes. -/
def chunkKey (f : Nat → List Nat) (ch : List Nat × List Nat) : List Nat × List Nat :=
  (chunkValid f ch, ch.2)

/-- The uppercase-folded chunk stream of a byte slice, reduced to comparison
keys. -/
def upperKeys (a : List Nat) : List (List Nat × List Nat) :=
  (utf8ChunksList a).map (chunkKey ucChar)

/-- Ordering on chunk keys: lexicographic on the folded scalars, then on the
invalid bytes. -/
def keyCmp (p q : List Nat × List Nat) : Ordering :=
  (iterCmp natCmp p.1 q.1).then (iterCmp natCmp p.2 q.2)

/-! Basic structure of the chunk decomposition. -/

/-- Strong induction on the length of a byte list. -/
theorem byteStrongInd {P : List Nat → Prop}
    (ih : ∀ l : List Nat, (∀ m : List Nat, m.length < l.length → P m) → P l) :
    ∀ l, P l :=
  fun l => ih l fun m _ => byteStrongInd ih m
termination_by l => l.length
decreasing_by assumption

theorem chunkNextGo_fuel : ∀ (fuel : Nat), ∀ l : List Nat, l.length ≤ fuel →
    chunkNextGo fuel l = chunkNext l := by
  intro fuel
  induction fuel using Nat.strong_induction_on with
  | _ fuel ih =>
    intro l hl
    match fuel, l with
    | fuel, [] => cases fuel <;> rfl
    | fuel + 1, b :: rest =>
      simp only [List.length_cons] at hl
      show chunkNextGo (fuel + 1) (b :: rest) = chunkNextGo (b :: rest).length (b :: rest)
      simp only [List.length_cons, chunkNextGo]
      cases hs : stepChar b rest with
      | mk k ok =>
        cases ok with
        | false => rfl
        | true =>
          have hd : (rest.drop k).length ≤ rest.length := by simp
          have h1 : chunkNextGo fuel (rest.drop k) = chunkNext (rest.drop k) :=
            ih fuel (by omega) _ (by omega)
          have h2 : chunkNextGo rest.length (rest.drop k) = chunkNext (rest.drop k) :=
            ih rest.length (by omega) _ hd
          simp [h1, h2]

theorem chunkNext_nil : chunkNext [] = ([], [], []) := rfl

theorem chunkNext_cons_true {b k : Nat} {rest : List Nat}
    (h : stepChar b rest = (k, true)) :
    chunkNext (b :: rest) = ((b :: rest.take k) ++ (chunkNext (rest.drop k)).1,
      (chunkNext (rest.drop k)).2.1, (chunkNext (rest.drop k)).2.2) := by
  show chunkNextGo (b :: rest).length (b :: rest) = _
  simp only [List.length_cons, chunkNextGo, h]
  rw [chunkNextGo_fuel rest.length _ (by simp)]

theorem chunkNext_cons_false {b k : Nat} {rest : List Nat}
    (h : stepChar b rest = (k, false)) :
    chunkNext (b :: rest) = ([], b :: rest.take k, rest.drop k) := by
  show chunkNextGo (b :: rest).length (b :: rest) = _
  simp only [List.length_cons, chunkNextGo, h]

theorem chunkNext_concat : ∀ l : List Nat,
    (chunkNext l).1 ++ (chunkNext l).2.1 ++ (chunkNext l).2.2 = l := by
  refine byteStrongInd ?_
  intro l ih
  match l with
  | [] => rfl
  | b :: rest =>
    cases hs : stepChar b rest with
    | mk k ok =>
      cases ok with
      | false => rw [chunkNext_cons_false hs]; simp
      | true =>
        rw [chunkNext_cons_true hs]
        have hrec := ih (rest.drop k) (by simp only [List.length_drop, List.length_cons]; omega)
        simp only [List.cons_append, List.append_assoc] at hrec ⊢
        rw [hrec, List.take_append_drop]

theorem chunkNext_ne_nil (b : Nat) (rest : List Nat) :
    ¬((chunkNext (b :: rest)).1 = [] ∧ (chunkNext (b :: rest)).2.1 = []) := by
  cases hs : stepChar b rest with
  | mk k ok =>
    cases ok with
    | false => rw [chunkNext_cons_false hs]; simp
    | true => rw [chunkNext_cons_true hs]; simp

theorem chunkNext_rem_lt (b : Nat) (rest : List Nat) :
    (chunkNext (b :: rest)).2.2.length < (b :: rest).length := by
  have hc := chunkNext_concat (b :: rest)
  have hn := chunkNext_ne_nil b rest
  cases hv : (chunkNext (b :: rest)).1 with
  | cons x xs =>
    have := congrArg List.length hc
    simp only [hv, List.length_append, List.length_cons] at this ⊢
    omega
  | nil =>
    cases hi : (chunkNext (b :: rest)).2.1 with
    | nil => exact absurd ⟨hv, hi⟩ hn
    | cons y ys =>
      have := congrArg List.length hc
      simp only [hv, hi, List.length_append, List.length_cons, List.nil_append] at this ⊢
      omega

theorem chunkNext_inv_nil : ∀ l : List Nat,
    (chunkNext l).2.1 = [] → (chunkNext l).2.2 = [] := by
  refine byteStrongInd ?_
  intro l ih
  match l with
  | [] => intro; rfl
  | b :: rest =>
    cases hs : stepChar b rest with
    | mk k ok =>
      cases ok with
      | false => rw [chunkNext_cons_false hs]; simp
      | true =>
        rw [chunkNext_cons_true hs]
        exact ih (rest.drop k) (by simp only [List.length_drop, List.length_cons]; omega)

theorem utf8ChunksGo_fuel : ∀ (fuel : Nat), ∀ l : List Nat, l.length ≤ fuel →
    utf8ChunksGo fuel l = utf8ChunksList l := by
  intro fuel
  induction fuel using Nat.strong_induction_on with
  | _ fuel ih =>
    intro l hl
    match fuel, l with
    | fuel, [] => cases fuel <;> rfl
    | fuel + 1, b :: rest =>
      simp only [List.length_cons] at hl
      show utf8ChunksGo (fuel + 1) (b :: rest) = utf8ChunksGo (b :: rest).length (b :: rest)
      simp only [List.length_cons, utf8ChunksGo]
      cases hc : chunkNext (b :: rest) with
      | mk v rest2 =>
        cases rest2 with
        | mk inv rem =>
          have hlt : rem.length < rest.length + 1 := by
            have := chunkNext_rem_lt b rest
            rw [hc] at this
            simpa using this
          rw [ih fuel (by omega) rem (by omega), ih rest.length (by omega) rem (by omega)]

theorem utf8ChunksList_nil : utf8ChunksList [] = [] := rfl

theorem utf8ChunksList_cons (b : Nat) (rest : List Nat) :
    utf8ChunksList (b :: rest) =
      ((chunkNext (b :: rest)).1, (chunkNext (b :: rest)).2.1) ::
        utf8ChunksList (chunkNext (b :: rest)).2.2 := by
  show utf8ChunksGo (b :: rest).length (b :: rest) = _
  simp only [List.length_cons, utf8ChunksGo]
  cases hc : chunkNext (b :: rest) with
  | mk v rest2 =>
    cases rest2 with
    | mk inv rem =>
      have hlt : rem.length < rest.length + 1 := by
        have := chunkNext_rem_lt b rest
        rw [hc] at this
        simpa using this
      rw [utf8ChunksGo_fuel rest.length rem (by omega)]

/-! Chunk streams: concatenation, nonemptiness, equality, hashing. -/

theorem chunks_concat : ∀ l : List Nat,
    ((utf8ChunksList l).map fun ch => ch.1 ++ ch.2).flatten = l := by
  refine byteStrongInd ?_
  intro l ih
  match l with
  | [] => rfl
  | b :: rest =>
    rw [utf8ChunksList_cons]
    simp only [List.map_cons, List.flatten_cons]
    rw [ih _ (chunkNext_rem_lt _ _)]
    have h := chunkNext_concat (b :: rest)
    simp only [List.append_assoc] at h ⊢
    exact h

theorem chunks_ne_nil : ∀ l : List Nat, ∀ ch ∈ utf8ChunksList l,
    ¬(ch.1 = [] ∧ ch.2 = []) := by
  refine byteStrongInd ?_
  intro l ih
  match l with
  | [] => intro ch h; simp [utf8ChunksList_nil] at h
  | b :: rest =>
    intro ch h
    rw [utf8ChunksList_cons] at h
    rcases List.mem_cons.mp h with h | h
    · subst h; exact chunkNext_ne_nil _ _
    · exact ih _ (chunkNext_rem_lt _ _) ch h

theorem iterEqb_iff {α β : Type _} (f : α → α → Bool) (g : α → β)
    (hf : ∀ x y, f x y = true ↔ g x = g y) :
    ∀ l1 l2 : List α, iterEqb f l1 l2 = true ↔ l1.map g = l2.map g := by
  intro l1
  induction l1 with
  | nil => intro l2; cases l2 <;> simp [iterEqb]
  | cons x xs ih =>
    intro l2
    cases l2 with
    | nil => simp [iterEqb]
    | cons y ys => simp [iterEqb, Bool.and_eq_true, hf, ih]

theorem chunkEqb_iff (f : Nat → List Nat) (c d : List Nat × List Nat) :
    chunkEqb f c d = true ↔ chunkKey f c = chunkKey f d := by
  simp [chunkEqb, chunkKey, Prod.ext_iff]

theorem eqIns_iff_keys (a b : List Nat) :
    eqIns a b = true ↔ upperKeys a = upperKeys b :=
  iterEqb_iff (chunkEqb ucChar) (chunkKey ucChar) (chunkEqb_iff ucChar) _ _

theorem hashTrace_keys (a : List Nat) :
    hashTrace a = ((upperKeys a).map fun p =>
      p.1.map HashEvent.writeU32 ++ [HashEvent.write p.2]).flatten := by
  simp only [hashTrace, upperKeys, List.map_map]
  rfl

/-! Ordering over chunk streams. -/

theorem eq_then (b : Ordering) : Ordering.eq.then b = b := rfl

theorem lt_then (b : Ordering) : Ordering.lt.then b = .lt := rfl

theorem gt_then (b : Ordering) : Ordering.gt.then b = .gt := rfl

theorem thenSwap (a b : Ordering) : (a.then b).swap = a.swap.then b.swap := by
  cases a <;> rfl

theorem natCmp_eq_iff {n m : Nat} : natCmp n m = .eq ↔ n = m := by
  unfold natCmp
  rcases Nat.lt_trichotomy n m with h | h | h
  · rw [if_pos h]
    simp
    omega
  · subst h
    rw [if_neg (Nat.lt_irrefl n)]
    simp
  · rw [if_neg (by omega), if_neg (by simp; omega)]
    simp
    omega

theorem natCmp_lt_iff {n m : Nat} : natCmp n m = .lt ↔ n < m := by
  unfold natCmp
  rcases Nat.lt_trichotomy n m with h | h | h
  · rw [if_pos h]
    simp [h]
  · subst h
    rw [if_neg (Nat.lt_irrefl n)]
    simp
  · rw [if_neg (by omega), if_neg (by simp; omega)]
    simp
    omega

theorem natCmp_swap (n m : Nat) : natCmp m n = (natCmp n m).swap := by
  unfold natCmp
  rcases Nat.lt_trichotomy n m with h | h | h
  · rw [if_neg (by omega), if_neg (by simp; omega), if_pos h]
    rfl
  · subst h
    rw [if_neg (Nat.lt_irrefl n)]
    simp
    rfl
  · rw [if_pos h, if_neg (by omega), if_neg (by simp; omega)]
    rfl

theorem natCmp_lt_trans {a b c : Nat} :
    natCmp a b = .lt → natCmp b c = .lt → natCmp a c = .lt := by
  simp only [natCmp_lt_iff]
  omega

section IterCmp

variable {α : Type _} (f : α → α → Ordering)

theorem iterCmp_eq_iff (hf : ∀ x y, f x y = .eq ↔ x = y) :
    ∀ l1 l2 : List α, iterCmp f l1 l2 = .eq ↔ l1 = l2 := by
  intro l1
  induction l1 with
  | nil => intro l2; cases l2 <;> simp [iterCmp]
  | cons x xs ih =>
    intro l2
    cases l2 with
    | nil => simp [iterCmp]
    | cons y ys =>
      simp only [iterCmp, List.cons.injEq]
      cases hxy : f x y with
      | lt =>
        rw [lt_then]
        constructor
        · intro h; exact Ordering.noConfusion h
        · rintro ⟨h1, -⟩
          exact Ordering.noConfusion (((hf x y).mpr h1).symm.trans hxy)
      | gt =>
        rw [gt_then]
        constructor
        · intro h; exact Ordering.noConfusion h
        · rintro ⟨h1, -⟩
          exact Ordering.noConfusion (((hf x y).mpr h1).symm.trans hxy)
      | eq =>
        rw [eq_then]
        have hx : x = y := (hf x y).mp hxy
        simp [hx, ih ys]

theorem iterCmp_swap (hswap : ∀ x y, f y x = (f x y).swap) :
    ∀ l1 l2 : List α, iterCmp f l2 l1 = (iterCmp f l1 l2).swap := by
  intro l1
  induction l1 with
  | nil => intro l2; cases l2 <;> rfl
  | cons x xs ih =>
    intro l2
    cases l2 with
    | nil => rfl
    | cons y ys => simp only [iterCmp, hswap x y, ih, thenSwap]

theorem iterCmp_lt_trans (hf : ∀ x y, f x y = .eq ↔ x = y)
    (htr : ∀ {x y z}, f x y = .lt → f y z = .lt → f x z = .lt) :
    ∀ l1 l2 l3 : List α, iterCmp f l1 l2 = .lt → iterCmp f l2 l3 = .lt →
      iterCmp f l1 l3 = .lt := by
  intro l1
  induction l1 with
  | nil =>
    intro l2 l3 h12 h23
    cases l2 with
    | nil => exact h23
    | cons y ys =>
      cases l3 with
      | nil => simp [iterCmp] at h23
      | cons z zs => rfl
  | cons x xs ih =>
    intro l2 l3 h12 h23
    cases l2 with
    | nil => simp [iterCmp] at h12
    | cons y ys =>
      cases l3 with
      | nil => simp [iterCmp] at h23
      | cons z zs =>
        simp only [iterCmp] at h12 h23 ⊢
        cases hxy : f x y with
        | gt => rw [hxy, gt_then] at h12; exact Ordering.noConfusion h12
        | eq =>
          rw [hxy, eq_then] at h12
          have hx : x = y := (hf x y).mp hxy
          subst hx
          cases hyz : f x z with
          | gt => rw [hyz, gt_then] at h23; exact Ordering.noConfusion h23
          | lt => rw [lt_then]
          | eq =>
            rw [hyz, eq_then] at h23
            rw [eq_then]
            exact ih ys zs h12 h23
        | lt =>
          rw [hxy, lt_then] at h12
          cases hyz : f y z with
          | gt => rw [hyz, gt_then] at h23; exact Ordering.noConfusion h23
          | lt => rw [htr hxy hyz, lt_then]
          | eq =>
            have hy : y = z := (hf y z).mp hyz
            subst hy
            rw [hxy, lt_then]

theorem iterCmp_strict_pre (hrefl : ∀ x, f x x = .eq) :
    ∀ (l t : List α), t ≠ [] → iterCmp f l (l ++ t) = .lt := by
  intro l
  induction l with
  | nil =>
    intro t ht
    cases t with
    | nil => cases ht rfl
    | cons z zs => rfl
  | cons x xs ih =>
    intro t ht
    show (f x x).then (iterCmp f xs (xs ++ t)) = .lt
    rw [hrefl x, eq_then, ih t ht]

theorem iterCmp_map {α β : Type _} (kc : β → β → Ordering) (g : α → β) :
    ∀ l1 l2 : List α,
      iterCmp (fun c d => kc (g c) (g d)) l1 l2 = iterCmp kc (l1.map g) (l2.map g) := by
  intro l1
  induction l1 with
  | nil => intro l2; cases l2 <;> rfl
  | cons x xs ih =>
    intro l2
    cases l2 with
    | nil => rfl
    | cons y ys => simp only [List.map_cons, iterCmp, ih]

end IterCmp

theorem natListCmp_eq_iff {u v : List Nat} : iterCmp natCmp u v = .eq ↔ u = v :=
  iterCmp_eq_iff natCmp (fun _ _ => natCmp_eq_iff) u v

theorem natListCmp_lt_trans {u v w : List Nat} :
    iterCmp natCmp u v = .lt → iterCmp natCmp v w = .lt → iterCmp natCmp u w = .lt :=
  iterCmp_lt_trans natCmp (fun _ _ => natCmp_eq_iff)
    (fun ha hb => natCmp_lt_trans ha hb) u v w

theorem keyCmp_eq_iff {p q : List Nat × List Nat} : keyCmp p q = .eq ↔ p = q := by
  unfold keyCmp
  cases h1 : iterCmp natCmp p.1 q.1 with
  | lt =>
    rw [lt_then]
    constructor
    · intro h; exact Ordering.noConfusion h
    · intro h
      rw [h] at h1
      exact Ordering.noConfusion ((natListCmp_eq_iff.mpr rfl).symm.trans h1)
  | gt =>
    rw [gt_then]
    constructor
    · intro h; exact Ordering.noConfusion h
    · intro h
      rw [h] at h1
      exact Ordering.noConfusion ((natListCmp_eq_iff.mpr rfl).symm.trans h1)
  | eq =>
    rw [eq_then, natListCmp_eq_iff]
    constructor
    · intro h2; exact Prod.ext (natListCmp_eq_iff.mp h1) h2
    · intro h; rw [h]

theorem keyCmp_refl (p : List Nat × List Nat) : keyCmp p p = .eq :=
  keyCmp_eq_iff.mpr rfl

theorem keyCmp_swap (p q : List Nat × List Nat) : keyCmp q p = (keyCmp p q).swap := by
  unfold keyCmp
  rw [thenSwap, ← iterCmp_swap natCmp natCmp_swap p.1 q.1,
    ← iterCmp_swap natCmp natCmp_swap p.2 q.2]

theorem keyCmp_lt_trans {p q r : List Nat × List Nat} :
    keyCmp p q = .lt → keyCmp q r = .lt → keyCmp p r = .lt := by
  unfold keyCmp
  intro h12 h23
  cases h1 : iterCmp natCmp p.1 q.1 with
  | gt => rw [h1, gt_then] at h12; exact Ordering.noConfusion h12
  | eq =>
    have hx : p.1 = q.1 := natListCmp_eq_iff.mp h1
    rw [h1, eq_then] at h12
    cases h2 : iterCmp natCmp q.1 r.1 with
    | gt => rw [h2, gt_then] at h23; exact Ordering.noConfusion h23
    | lt =>
      rw [hx, h2, lt_then]
    | eq =>
      have hy : q.1 = r.1 := natListCmp_eq_iff.mp h2
      rw [h2, eq_then] at h23
      rw [natListCmp_eq_iff.mpr (hx.trans hy), eq_then]
      exact natListCmp_lt_trans h12 h23
  | lt =>
    rw [h1, lt_then] at h12
    cases h2 : iterCmp natCmp q.1 r.1 with
    | gt => rw [h2, gt_then] at h23; exact Ordering.noConfusion h23
    | lt => rw [natListCmp_lt_trans h1 h2, lt_then]
    | eq =>
      have hy : q.1 = r.1 := natListCmp_eq_iff.mp h2
      rw [← hy, h1, lt_then]

theorem chunkCmpb_key (f : Nat → List Nat) (c d : List Nat × List Nat) :
    chunkCmpb f c d = keyCmp (chunkKey f c) (chunkKey f d) := rfl

theorem cmpIns_keys (a b : List Nat) :
    cmpIns a b = iterCmp keyCmp (upperKeys a) (upperKeys b) := by
  unfold cmpIns upperKeys
  rw [← iterCmp_map keyCmp (chunkKey ucChar)]
  rfl

/-! Materialization: the encode loop as interleaving of mapped valid runs and
untouched invalid runs. -/

theorem foldl_append {α β : Type _} (g : α → List β) :
    ∀ (s : List α) (buf : List β),
      s.foldl (fun b c => b ++ g c) buf = buf ++ (s.map g).flatten := by
  intro s
  induction s with
  | nil => intro buf; simp
  | cons c cs ih => intro buf; simp [ih]

theorem encode_flatten (f : Nat → List Nat) (a : List Nat) (buf : List Nat) :
    encode f a buf =
      buf ++ ((utf8ChunksList a).map fun ch =>
        encodeScalars (chunkValid f ch) ++ ch.2).flatten := by
  unfold encode
  have hstep : (fun (buf : List Nat) (ch : List Nat × List Nat) =>
      ((chunkValid f ch).foldl (fun b c => b ++ utf8Encode c) buf) ++ ch.2)
      = fun buf ch => buf ++ (encodeScalars (chunkValid f ch) ++ ch.2) := by
    funext buf ch
    rw [foldl_append utf8Encode]
    simp [encodeScalars]
  rw [hstep, foldl_append (fun ch => encodeScalars (chunkValid f ch) ++ ch.2)]

/-! Segments of the chunk decomposition. -/

theorem stepChar_false_le {b k : Nat} {rest : List Nat}
    (h : stepChar b rest = (k, false)) : k ≤ 2 := by
  unfold stepChar at h
  repeat' split at h
  all_goals first
  | (injection h with h1 h2; exact Bool.noConfusion h2)
  | (injection h with h1 h2; omega)

theorem chunkNext_inv_len : ∀ l : List Nat, (chunkNext l).2.1.length ≤ 3 := by
  refine byteStrongInd ?_
  intro l ih
  match l with
  | [] => simp [chunkNext_nil]
  | b :: rest =>
    cases hs : stepChar b rest with
    | mk k ok =>
      cases ok with
      | true =>
        rw [chunkNext_cons_true hs]
        exact ih _ (by simp only [List.length_drop, List.length_cons]; omega)
      | false =>
        rw [chunkNext_cons_false hs]
        have hk := stepChar_false_le hs
        simp only [List.length_cons, List.length_take]
        omega

theorem chunks_inv_len : ∀ l : List Nat, ∀ ch ∈ utf8ChunksList l,
    ch.2.length ≤ 3 := by
  refine byteStrongInd ?_
  intro l ih
  match l with
  | [] => intro ch h; simp [utf8ChunksList_nil] at h
  | b :: rest =>
    intro ch h
    rw [utf8ChunksList_cons] at h
    rcases List.mem_cons.mp h with h | h
    · subst h; exact chunkNext_inv_len (b :: rest)
    · exact ih _ (chunkNext_rem_lt _ _) ch h

theorem segsOfChunks_nil : segsOfChunks [] = [] := rfl

theorem segsOfChunks_cons (ch : List Nat × List Nat) (L : List (List Nat × List Nat)) :
    segsOfChunks (ch :: L) =
      (if ch.1.isEmpty then [] else [Seg.valid ch.1]) ++
      ((if ch.2.isEmpty then [] else [Seg.invalid ch.2]) ++ segsOfChunks L) := by
  simp [segsOfChunks, List.flatMap_cons]

theorem navCons {s : Seg} {rest : List Seg} (hs : s.isValidText = false)
    (hr : noAdjacentValid rest = true) : noAdjacentValid (s :: rest) = true := by
  cases rest with
  | nil => rfl
  | cons t ts => simp [noAdjacentValid, hs, hr]

theorem segs_noAdjacentValid : ∀ l : List Nat, noAdjacentValid (segs l) = true := by
  refine byteStrongInd ?_
  intro l ih
  match l with
  | [] => rfl
  | b :: rest =>
    have hrec : noAdjacentValid
        (segsOfChunks (utf8ChunksList (chunkNext (b :: rest)).2.2)) = true :=
      ih _ (chunkNext_rem_lt b rest)
    show noAdjacentValid (segsOfChunks (utf8ChunksList (b :: rest))) = true
    rw [utf8ChunksList_cons, segsOfChunks_cons]
    cases hinv : (chunkNext (b :: rest)).2.1 with
    | nil =>
      have hrem : (chunkNext (b :: rest)).2.2 = [] := chunkNext_inv_nil _ hinv
      rw [hrem]
      cases hv : (chunkNext (b :: rest)).1 with
      | nil => rfl
      | cons x xs => rfl
    | cons i is =>
      have h2 : noAdjacentValid (Seg.invalid (i :: is) ::
          segsOfChunks (utf8ChunksList (chunkNext (b :: rest)).2.2)) = true :=
        navCons rfl hrec
      cases hv : (chunkNext (b :: rest)).1 with
      | nil => simpa using h2
      | cons x xs =>
        simp only [List.isEmpty_cons, Bool.false_eq_true, if_false, List.cons_append,
          List.nil_append, List.singleton_append]
        simpa [noAdjacentValid, Seg.isValidText] using h2

theorem segs_wellformed : ∀ (l : List Nat), ∀ s ∈ segs l,
    (match s with
     | .valid v => !v.isEmpty
     | .invalid bs => decide (1 ≤ bs.length) && decide (bs.length ≤ 3)) = true := by
  intro l s hs
  unfold segs segsOfChunks at hs
  rcases List.mem_flatMap.mp hs with ⟨ch, hch, hmem⟩
  have hlen := chunks_inv_len l ch hch
  rcases List.mem_append.mp hmem with h | h
  · cases hv : ch.1.isEmpty with
    | true => rw [hv] at h; simp at h
    | false =>
      rw [hv] at h
      simp only [Bool.false_eq_true, if_false, List.mem_singleton] at h
      subst h
      simp [hv]
  · cases hi : ch.2.isEmpty with
    | true => rw [hi] at h; simp at h
    | false =>
      rw [hi] at h
      simp only [Bool.false_eq_true, if_false, List.mem_singleton] at h
      subst h
      rcases h2 : ch.2 with _ | ⟨y, ys⟩
      · rw [h2] at hi; simp at hi
      · rw [h2] at hlen
        simp only [Bool.and_eq_true, decide_eq_true_eq]
        exact ⟨by simp, by simpa using hlen⟩

/-! The owned buffer. -/

theorem extendRev_eq (buf s : List Nat) :
    extendFromSliceReversed buf s = buf ++ s.reverse := by
  unfold extendFromSliceReversed
  simp



/-! Valid UTF-8: encoding, decoding and chunking of scalar-value sequences. -/

theorem decodeUtf8Go_fuel : ∀ (fuel : Nat), ∀ l : List Nat, l.length ≤ fuel →
    decodeUtf8Go fuel l = decodeUtf8 l := by
  intro fuel
  induction fuel using Nat.strong_induction_on with
  | _ fuel ih =>
    intro l hl
    match fuel, l with
    | fuel, [] => cases fuel <;> rfl
    | fuel + 1, x :: rest =>
      simp only [List.length_cons] at hl
      show decodeUtf8Go (fuel + 1) (x :: rest) = decodeUtf8Go (x :: rest).length (x :: rest)
      simp only [List.length_cons, decodeUtf8Go]
      have h0 : decodeUtf8Go fuel rest = decodeUtf8Go rest.length rest := by
        rw [ih fuel (by omega) rest (by omega)]
        rw [ih rest.length (by omega) rest (by omega)]
      have h1 : decodeUtf8Go fuel (rest.drop 1) = decodeUtf8Go rest.length (rest.drop 1) := by
        rw [ih fuel (by omega) _ (by simp; omega), ih rest.length (by omega) _ (by simp)]
      have h2 : decodeUtf8Go fuel (rest.drop 2) = decodeUtf8Go rest.length (rest.drop 2) := by
        rw [ih fuel (by omega) _ (by simp; omega), ih rest.length (by omega) _ (by simp)]
      have h3 : decodeUtf8Go fuel (rest.drop 3) = decodeUtf8Go rest.length (rest.drop 3) := by
        rw [ih fuel (by omega) _ (by simp; omega), ih rest.length (by omega) _ (by simp)]
      rw [h0, h1, h2, h3]

theorem decodeUtf8_nil : decodeUtf8 [] = [] := rfl

theorem decodeUtf8_cons (x : Nat) (rest : List Nat) :
    decodeUtf8 (x :: rest) =
      if x < 128 then x :: decodeUtf8 rest
      else if x < 224 then
        (x % 32 * 64 + rest.headD 0 % 64) :: decodeUtf8 (rest.drop 1)
      else if x < 240 then
        (x % 32 * 4096 + rest.headD 0 % 64 * 64 + (rest.drop 1).headD 0 % 64) ::
          decodeUtf8 (rest.drop 2)
      else
        (x % 8 * 262144 + rest.headD 0 % 64 * 4096 + (rest.drop 1).headD 0 % 64 * 64 +
          (rest.drop 2).headD 0 % 64) :: decodeUtf8 (rest.drop 3) := by
  show decodeUtf8Go (rest.length + 1) (x :: rest) = _
  simp only [decodeUtf8Go]
  rw [decodeUtf8Go_fuel rest.length rest (Nat.le_refl _),
    decodeUtf8Go_fuel rest.length (rest.drop 1) (by simp),
    decodeUtf8Go_fuel rest.length (rest.drop 2) (by simp),
    decodeUtf8Go_fuel rest.length (rest.drop 3) (by simp)]

theorem isScalar_iff {c : Nat} :
    isScalar c = true ↔ c < 1114112 ∧ ¬(55296 ≤ c ∧ c < 57344) := by
  simp only [isScalar, Bool.and_eq_true, Bool.not_eq_true', Bool.and_eq_false_iff,
    decide_eq_true_eq, decide_eq_false_iff_not]
  omega

theorem isCont_enc {k : Nat} (h : k < 64) : isCont (128 + k) = true := by
  have h64 : ∀ k, k < 64 → isCont (128 + k) = true := by decide
  exact h64 k h

theorem isCont_range : ∀ b, b < 256 → isCont b = true → 128 ≤ b ∧ b < 192 := by decide

theorem utf8CharWidth_two {b : Nat} (h : utf8CharWidth b = 2) : 194 ≤ b ∧ b ≤ 223 := by
  unfold utf8CharWidth at h
  split_ifs at h <;> omega

theorem utf8CharWidth_three {b : Nat} (h : utf8CharWidth b = 3) : 224 ≤ b ∧ b ≤ 239 := by
  unfold utf8CharWidth at h
  split_ifs at h <;> omega

theorem utf8CharWidth_four {b : Nat} (h : utf8CharWidth b = 4) : 240 ≤ b ∧ b ≤ 244 := by
  unfold utf8CharWidth at h
  split_ifs at h <;> omega

theorem valid3_iff {b b1 : Nat} : valid3 b b1 = true ↔
    ((b = 224 ∧ 160 ≤ b1 ∧ b1 ≤ 191) ∨ (225 ≤ b ∧ b ≤ 236 ∧ 128 ≤ b1 ∧ b1 ≤ 191) ∨
     (b = 237 ∧ 128 ≤ b1 ∧ b1 ≤ 159) ∨ (238 ≤ b ∧ b ≤ 239 ∧ 128 ≤ b1 ∧ b1 ≤ 191)) := by
  simp only [valid3, Bool.or_eq_true, Bool.and_eq_true, beq_iff_eq, decide_eq_true_eq]
  omega

theorem valid4_iff {b b1 : Nat} : valid4 b b1 = true ↔
    ((b = 240 ∧ 144 ≤ b1 ∧ b1 ≤ 191) ∨ (241 ≤ b ∧ b ≤ 243 ∧ 128 ≤ b1 ∧ b1 ≤ 191) ∨
     (b = 244 ∧ 128 ≤ b1 ∧ b1 ≤ 143)) := by
  simp only [valid4, Bool.or_eq_true, Bool.and_eq_true, beq_iff_eq, decide_eq_true_eq]
  omega

theorem stepChar_encode {c : Nat} (hc : isScalar c = true) (rest : List Nat) :
    ∃ b tail, utf8Encode c = b :: tail ∧ stepChar b (tail ++ rest) = (tail.length, true) := by
  rw [isScalar_iff] at hc
  by_cases h1 : c < 128
  · refine ⟨c, [], by simp [utf8Encode, h1], ?_⟩
    simp [stepChar, h1]
  by_cases h2 : c < 2048
  · refine ⟨192 + c / 64, [128 + c % 64], ?_, ?_⟩
    · unfold utf8Encode
      rw [if_neg h1, if_pos h2]
    · show stepChar (192 + c / 64) ((128 + c % 64) :: rest) = (1, true)
      unfold stepChar
      rw [if_neg (by omega)]
      have hw : utf8CharWidth (192 + c / 64) = 2 := by
        unfold utf8CharWidth
        rw [if_neg (by omega), if_neg (by omega), if_pos (by omega)]
      simp only [hw]
      rw [isCont_enc (by omega)]
      simp
  by_cases h3 : c < 65536
  · refine ⟨224 + c / 4096, [128 + c / 64 % 64, 128 + c % 64], ?_, ?_⟩
    · unfold utf8Encode
      rw [if_neg h1, if_neg (by omega), if_pos h3]
    · show stepChar (224 + c / 4096)
        ((128 + c / 64 % 64) :: (128 + c % 64) :: rest) = (2, true)
      unfold stepChar
      rw [if_neg (by omega)]
      have hw : utf8CharWidth (224 + c / 4096) = 3 := by
        unfold utf8CharWidth
        rw [if_neg (by omega), if_neg (by omega), if_neg (by omega), if_pos (by omega)]
      simp only [hw]
      have hv3 : valid3 (224 + c / 4096) (128 + c / 64 % 64) = true := by
        rw [valid3_iff]
        omega
      rw [hv3, isCont_enc (by omega)]
      simp
  · refine ⟨240 + c / 262144,
      [128 + c / 4096 % 64, 128 + c / 64 % 64, 128 + c % 64], ?_, ?_⟩
    · unfold utf8Encode
      rw [if_neg h1, if_neg (by omega), if_neg h3]
    · show stepChar (240 + c / 262144)
        ((128 + c / 4096 % 64) :: (128 + c / 64 % 64) :: (128 + c % 64) :: rest) = (3, true)
      unfold stepChar
      rw [if_neg (by omega)]
      have hw : utf8CharWidth (240 + c / 262144) = 4 := by
        unfold utf8CharWidth
        rw [if_neg (by omega), if_neg (by omega), if_neg (by omega), if_neg (by omega),
          if_pos (by omega)]
      simp only [hw]
      have hv4 : valid4 (240 + c / 262144) (128 + c / 4096 % 64) = true := by
        rw [valid4_iff]
        omega
      rw [hv4, isCont_enc (by omega), isCont_enc (by omega)]
      simp

theorem utf8Encode_ne_nil (c : Nat) : utf8Encode c ≠ [] := by
  unfold utf8Encode
  split_ifs <;> simp

theorem chunkNext_encode {c : Nat} (hc : isScalar c = true) (rest : List Nat) :
    chunkNext (utf8Encode c ++ rest) =
      (utf8Encode c ++ (chunkNext rest).1, (chunkNext rest).2.1, (chunkNext rest).2.2) := by
  obtain ⟨b, tail, henc, hstep⟩ := stepChar_encode hc rest
  rw [henc, List.cons_append, chunkNext_cons_true hstep]
  simp

theorem decode_encode {c : Nat} (hc : isScalar c = true) (rest : List Nat) :
    decodeUtf8 (utf8Encode c ++ rest) = c :: decodeUtf8 rest := by
  rw [isScalar_iff] at hc
  by_cases h1 : c < 128
  · rw [show utf8Encode c = [c] by unfold utf8Encode; rw [if_pos h1]]
    rw [List.cons_append, List.nil_append, decodeUtf8_cons, if_pos h1]
  by_cases h2 : c < 2048
  · rw [show utf8Encode c = [192 + c / 64, 128 + c % 64] by
      unfold utf8Encode; rw [if_neg h1, if_pos h2]]
    rw [show ([192 + c / 64, 128 + c % 64] : List Nat) ++ rest
      = (192 + c / 64) :: (128 + c % 64) :: rest by simp]
    rw [decodeUtf8_cons, if_neg (by omega), if_pos (by omega)]
    simp only [List.headD_cons, List.drop_succ_cons, List.drop_zero]
    congr 1
    omega
  by_cases h3 : c < 65536
  · rw [show utf8Encode c = [224 + c / 4096, 128 + c / 64 % 64, 128 + c % 64] by
      unfold utf8Encode; rw [if_neg h1, if_neg (by omega), if_pos h3]]
    rw [show ([224 + c / 4096, 128 + c / 64 % 64, 128 + c % 64] : List Nat) ++ rest
      = (224 + c / 4096) :: (128 + c / 64 % 64) :: (128 + c % 64) :: rest by simp]
    rw [decodeUtf8_cons, if_neg (by omega), if_neg (by omega), if_pos (by omega)]
    simp only [List.headD_cons, List.drop_succ_cons, List.drop_zero]
    congr 1
    omega
  · rw [show utf8Encode c =
        [240 + c / 262144, 128 + c / 4096 % 64, 128 + c / 64 % 64, 128 + c % 64] by
      unfold utf8Encode; rw [if_neg h1, if_neg (by omega), if_neg h3]]
    rw [show ([240 + c / 262144, 128 + c / 4096 % 64, 128 + c / 64 % 64, 128 + c % 64] :
        List Nat) ++ rest
      = (240 + c / 262144) :: (128 + c / 4096 % 64) :: (128 + c / 64 % 64) ::
        (128 + c % 64) :: rest by simp]
    rw [decodeUtf8_cons, if_neg (by omega), if_neg (by omega), if_neg (by omega)]
    simp only [List.headD_cons, List.drop_succ_cons, List.drop_zero]
    congr 1
    omega

theorem encodeScalars_nil : encodeScalars [] = [] := rfl

theorem encodeScalars_cons (c : Nat) (s : List Nat) :
    encodeScalars (c :: s) = utf8Encode c ++ encodeScalars s := by
  simp [encodeScalars]

theorem chunkNext_encodeScalars : ∀ {s : List Nat}, s.all isScalar = true →
    chunkNext (encodeScalars s) = (encodeScalars s, [], []) := by
  intro s
  induction s with
  | nil => intro; rfl
  | cons c cs ih =>
    intro hs
    rw [List.all_cons, Bool.and_eq_true] at hs
    rw [encodeScalars_cons, chunkNext_encode hs.1, ih hs.2]

theorem decode_encodeScalars : ∀ {s : List Nat}, s.all isScalar = true →
    decodeUtf8 (encodeScalars s) = s := by
  intro s
  induction s with
  | nil => intro; rfl
  | cons c cs ih =>
    intro hs
    rw [List.all_cons, Bool.and_eq_true] at hs
    rw [encodeScalars_cons, decode_encode hs.1, ih hs.2]

theorem chunks_encodeScalars {s : List Nat} (hs : s.all isScalar = true) (hne : s ≠ []) :
    utf8ChunksList (encodeScalars s) = [(encodeScalars s, [])] := by
  obtain ⟨b, tail, hb⟩ : ∃ b tail, encodeScalars s = b :: tail := by
    cases s with
    | nil => cases hne rfl
    | cons c cs =>
      rw [encodeScalars_cons]
      cases he : utf8Encode c with
      | nil => exact absurd he (utf8Encode_ne_nil c)
      | cons b tl => exact ⟨b, tl ++ encodeScalars cs, by simp⟩
  rw [hb, utf8ChunksList_cons, ← hb, chunkNext_encodeScalars hs]
  rfl



theorem stepChar_true_enc : ∀ {b k : Nat} {rest : List Nat},
    b < 256 → (∀ x ∈ rest, x < 256) → stepChar b rest = (k, true) →
    ∃ c, isScalar c = true ∧ utf8Encode c = b :: rest.take k := by
  intro b k rest hb hrest h
  unfold stepChar at h
  by_cases h1 : b < 128
  · rw [if_pos h1] at h
    injection h with hk hok
    refine ⟨b, by rw [isScalar_iff]; omega, ?_⟩
    rw [← hk]
    unfold utf8Encode
    rw [if_pos h1]
    rfl
  · rw [if_neg h1] at h
    repeat' split at h
    all_goals try (injection h with hk hok; exact Bool.noConfusion hok)
    · -- two-byte character
      rename_i x0 r0 b1 tail heq hcont
      injection h with hk hok
      subst hk
      have hw := utf8CharWidth_two heq
      have hb1 := isCont_range b1 (hrest b1 (by simp)) hcont
      refine ⟨(b - 192) * 64 + (b1 - 128), by rw [isScalar_iff]; omega, ?_⟩
      unfold utf8Encode
      rw [if_neg (by omega), if_pos (by omega)]
      simp only [List.take_succ_cons, List.take_zero, List.cons.injEq]
      refine ⟨by omega, by omega, trivial⟩
    · -- three-byte character
      rename_i x0 r0 b1 heq hv3 r1 b2 tail hcont2
      injection h with hk hok
      subst hk
      have hw := utf8CharWidth_three heq
      rw [valid3_iff] at hv3
      have hb2 := isCont_range b2 (hrest b2 (by simp)) hcont2
      refine ⟨(b - 224) * 4096 + (b1 - 128) * 64 + (b2 - 128),
        by rw [isScalar_iff]; omega, ?_⟩
      unfold utf8Encode
      rw [if_neg (by omega), if_neg (by omega), if_pos (by omega)]
      simp only [List.take_succ_cons, List.take_zero, List.cons.injEq]
      refine ⟨by omega, by omega, by omega, trivial⟩
    · -- four-byte character
      rename_i x0 r0 b1 heq hv4 r1 b2 hcont2 r2 b3 tail hcont3
      injection h with hk hok
      subst hk
      have hw := utf8CharWidth_four heq
      rw [valid4_iff] at hv4
      have hb2 := isCont_range b2 (hrest b2 (by simp)) hcont2
      have hb3 := isCont_range b3 (hrest b3 (by simp)) hcont3
      refine ⟨(b - 240) * 262144 + (b1 - 128) * 4096 + (b2 - 128) * 64 + (b3 - 128),
        by rw [isScalar_iff]; omega, ?_⟩
      unfold utf8Encode
      rw [if_neg (by omega), if_neg (by omega), if_neg (by omega)]
      simp only [List.take_succ_cons, List.take_zero, List.cons.injEq]
      refine ⟨by omega, by omega, by omega, by omega, trivial⟩


/-! The case-mapping tables: global facts, established by evaluation. -/

theorem upperMap_ok : upperMap.allEntries (fun _ v =>
    !v.isEmpty && v.all fun d => isScalar d && (upperMap.find d).isNone) = true := by
  decide

theorem lowerMap_ok : lowerMap.allEntries (fun _ v =>
    !v.isEmpty && v.all fun d => isScalar d) = true := by
  decide

theorem NatMap.allEntries_find {p : Nat → List Nat → Bool} : ∀ {t : NatMap},
    t.allEntries p = true → ∀ {c v}, t.find c = some v → p c v = true := by
  intro t
  induction t with
  | leaf => intro _ c v hf; cases hf
  | node l k val r ihl ihr =>
    intro hall c v hf
    unfold NatMap.allEntries at hall
    rw [Bool.and_eq_true, Bool.and_eq_true] at hall
    unfold NatMap.find at hf
    split_ifs at hf with hc1 hc2
    · exact ihl hall.1.2 hf
    · exact ihr hall.2 hf
    · injection hf with hv
      have hck : c = k := by omega
      rw [hck, ← hv]
      exact hall.1.1

theorem uc_fixed {c d : Nat} (hd : d ∈ ucChar c) : ucChar d = [d] := by
  unfold ucChar at hd ⊢
  cases hf : upperMap.find c with
  | none =>
    rw [hf] at hd
    simp only [Option.getD_none, List.mem_singleton] at hd
    subst hd
    rw [hf]
    rfl
  | some v =>
    rw [hf] at hd
    simp only [Option.getD_some] at hd
    have hp := NatMap.allEntries_find upperMap_ok hf
    rw [Bool.and_eq_true, List.all_eq_true] at hp
    have := hp.2 d hd
    rw [Bool.and_eq_true, Option.isNone_iff_eq_none] at this
    rw [this.2]
    rfl

theorem uc_scalar {c : Nat} (hc : isScalar c = true) {d : Nat} (hd : d ∈ ucChar c) :
    isScalar d = true := by
  unfold ucChar at hd
  cases hf : upperMap.find c with
  | none =>
    rw [hf] at hd
    simp only [Option.getD_none, List.mem_singleton] at hd
    subst hd
    exact hc
  | some v =>
    rw [hf] at hd
    simp only [Option.getD_some] at hd
    have hp := NatMap.allEntries_find upperMap_ok hf
    rw [Bool.and_eq_true, List.all_eq_true] at hp
    have := hp.2 d hd
    rw [Bool.and_eq_true] at this
    exact this.1

theorem uc_ne_nil (c : Nat) : ucChar c ≠ [] := by
  unfold ucChar
  cases hf : upperMap.find c with
  | none => simp
  | some v =>
    have hp := NatMap.allEntries_find upperMap_ok hf
    rw [Bool.and_eq_true] at hp
    simpa using hp.1

theorem lc_scalar {c : Nat} (hc : isScalar c = true) {d : Nat} (hd : d ∈ lcChar c) :
    isScalar d = true := by
  unfold lcChar at hd
  cases hf : lowerMap.find c with
  | none =>
    rw [hf] at hd
    simp only [Option.getD_none, List.mem_singleton] at hd
    subst hd
    exact hc
  | some v =>
    rw [hf] at hd
    simp only [Option.getD_some] at hd
    have hp := NatMap.allEntries_find lowerMap_ok hf
    rw [Bool.and_eq_true, List.all_eq_true] at hp
    exact hp.2 d hd

theorem lc_ne_nil (c : Nat) : lcChar c ≠ [] := by
  unfold lcChar
  cases hf : lowerMap.find c with
  | none => simp
  | some v =>
    have hp := NatMap.allEntries_find lowerMap_ok hf
    rw [Bool.and_eq_true] at hp
    simpa using hp.1

/-! Case flattening. -/

theorem caseFlat_cons (f : Nat → List Nat) (c : Nat) (s : List Nat) :
    caseFlat f (c :: s) = f c ++ caseFlat f s := by
  simp [caseFlat]

theorem caseFlat_append (f : Nat → List Nat) (s t : List Nat) :
    caseFlat f (s ++ t) = caseFlat f s ++ caseFlat f t := by
  simp [caseFlat]

theorem caseFlat_fixed {f : Nat → List Nat} : ∀ {s : List Nat},
    (∀ d ∈ s, f d = [d]) → caseFlat f s = s := by
  intro s
  induction s with
  | nil => intro; rfl
  | cons c cs ih =>
    intro h
    rw [caseFlat_cons, h c (by simp), ih fun d hd => h d (by simp [hd])]
    rfl

theorem uc_idem (c : Nat) : caseFlat ucChar (ucChar c) = ucChar c :=
  caseFlat_fixed fun _ hd => uc_fixed hd

theorem caseFlat_uc_idem : ∀ (s : List Nat),
    caseFlat ucChar (caseFlat ucChar s) = caseFlat ucChar s := by
  intro s
  induction s with
  | nil => rfl
  | cons c cs ih => rw [caseFlat_cons, caseFlat_append, uc_idem, ih]

theorem caseFlat_uc_lc {s : List Nat}
    (h : ∀ c ∈ s, caseFlat ucChar (lcChar c) = ucChar c) :
    caseFlat ucChar (caseFlat lcChar s) = caseFlat ucChar s := by
  induction s with
  | nil => rfl
  | cons c cs ih =>
    rw [caseFlat_cons, caseFlat_cons, caseFlat_append, h c (by simp),
      ih fun d hd => h d (by simp [hd])]

theorem caseFlat_scalar {f : Nat → List Nat}
    (hf : ∀ c, isScalar c = true → ∀ d ∈ f c, isScalar d = true) :
    ∀ {s : List Nat}, s.all isScalar = true → (caseFlat f s).all isScalar = true := by
  intro s
  induction s with
  | nil => intro; rfl
  | cons c cs ih =>
    intro hs
    rw [List.all_cons, Bool.and_eq_true] at hs
    rw [caseFlat_cons, List.all_append, Bool.and_eq_true]
    exact ⟨List.all_eq_true.mpr fun d hd => hf c hs.1 d hd, ih hs.2⟩

theorem caseFlat_ne_nil {f : Nat → List Nat} (hf : ∀ c, f c ≠ []) {s : List Nat}
    (hs : s ≠ []) : caseFlat f s ≠ [] := by
  cases s with
  | nil => cases hs rfl
  | cons c cs =>
    rw [caseFlat_cons]
    intro h
    exact hf c (List.append_eq_nil.mp h).1

/-! Valid UTF-8 inputs and case invariance. -/

theorem isBytes_iff {a : List Nat} : isBytes a = true ↔ ∀ x ∈ a, x < 256 := by
  simp [isBytes, List.all_eq_true]

theorem chunkNext_valid_enc : ∀ l : List Nat, (∀ x ∈ l, x < 256) →
    ∃ s, s.all isScalar = true ∧ encodeScalars s = (chunkNext l).1 := by
  refine byteStrongInd ?_
  intro l ih hbytes
  match l with
  | [] => exact ⟨[], rfl, rfl⟩
  | b :: rest =>
    cases hs : stepChar b rest with
    | mk k ok =>
      cases ok with
      | false => rw [chunkNext_cons_false hs]; exact ⟨[], rfl, rfl⟩
      | true =>
        rw [chunkNext_cons_true hs]
        obtain ⟨c, hc, henc⟩ := stepChar_true_enc (hbytes b (by simp))
          (fun x hx => hbytes x (by simp [hx])) hs
        obtain ⟨s, hsall, hsenc⟩ := ih (rest.drop k)
          (by simp only [List.length_drop, List.length_cons]; omega)
          (fun x hx => hbytes x (List.mem_cons_of_mem _ (List.mem_of_mem_drop hx)))
        refine ⟨c :: s, ?_, ?_⟩
        · rw [List.all_cons, Bool.and_eq_true]
          exact ⟨hc, hsall⟩
        · rw [encodeScalars_cons, hsenc, henc]

theorem valid_structure {a : List Nat} (hv : isValidUtf8 a = true) :
    a = [] ∨ utf8ChunksList a = [(a, [])] := by
  cases a with
  | nil => exact Or.inl rfl
  | cons b rest =>
    refine Or.inr ?_
    unfold isValidUtf8 at hv
    rw [utf8ChunksList_cons, List.all_cons, Bool.and_eq_true] at hv
    have hinv : (chunkNext (b :: rest)).2.1 = [] := by
      have := hv.1
      simpa using this
    have hrem : (chunkNext (b :: rest)).2.2 = [] := chunkNext_inv_nil _ hinv
    have hval : (chunkNext (b :: rest)).1 = b :: rest := by
      have hcat := chunkNext_concat (b :: rest)
      rw [hinv, hrem] at hcat
      simpa using hcat
    rw [utf8ChunksList_cons, hinv, hrem, hval, utf8ChunksList_nil]

theorem valid_enc {a : List Nat} (hb : isBytes a = true) (hv : isValidUtf8 a = true) :
    ∃ s, s.all isScalar = true ∧ encodeScalars s = a ∧ decodeUtf8 a = s := by
  obtain ⟨s, hall, henc⟩ := chunkNext_valid_enc a (isBytes_iff.mp hb)
  rcases valid_structure hv with rfl | hch
  · exact ⟨[], rfl, rfl, rfl⟩
  · cases a with
    | nil => exact ⟨[], rfl, rfl, rfl⟩
    | cons b rest =>
      rw [utf8ChunksList_cons] at hch
      injection hch with hhead htail
      have hval : (chunkNext (b :: rest)).1 = b :: rest := congrArg Prod.fst hhead
      rw [hval] at henc
      exact ⟨s, hall, henc, by rw [← henc, decode_encodeScalars hall]⟩

theorem encode_single_chunk (f : Nat → List Nat) {a : List Nat}
    (hch : utf8ChunksList a = [(a, [])]) :
    encode f a [] = encodeScalars (caseFlat f (decodeUtf8 a)) := by
  rw [encode_flatten, hch]
  simp [chunkValid]

theorem upperKeys_single {a : List Nat} (hch : utf8ChunksList a = [(a, [])]) :
    upperKeys a = [(caseFlat ucChar (decodeUtf8 a), [])] := by
  rw [upperKeys, hch]
  rfl

theorem case_invariance {a : List Nat} (hb : isBytes a = true)
    (hv : isValidUtf8 a = true) :
    eqIns a (toUpper a) = true ∧
      ((∀ c ∈ decodeUtf8 a, caseFlat ucChar (lcChar c) = ucChar c) →
        eqIns a (toLower a) = true) := by
  obtain ⟨s, hall, henc, hdec⟩ := valid_enc hb hv
  rcases valid_structure hv with rfl | hch
  · exact ⟨rfl, fun _ => rfl⟩
  have hane : a ≠ [] := by
    intro h
    rw [h] at hch
    exact List.noConfusion (utf8ChunksList_nil ▸ hch)
  have hsne : s ≠ [] := by
    intro h
    rw [h] at henc
    exact hane henc.symm
  constructor
  · -- eq(a, to_upper(a))
    have hs' : (caseFlat ucChar s).all isScalar = true := caseFlat_scalar (fun c hc d hd => uc_scalar hc hd) hall
    have hs'ne : caseFlat ucChar s ≠ [] := caseFlat_ne_nil uc_ne_nil hsne
    have hup : toUpper a = encodeScalars (caseFlat ucChar s) := by
      rw [toUpper, encode_single_chunk ucChar hch, hdec]
    rw [eqIns_iff_keys, upperKeys_single hch, hdec, hup]
    rw [upperKeys_single (chunks_encodeScalars hs' hs'ne),
      decode_encodeScalars hs', caseFlat_uc_idem]
  · -- eq(a, to_lower(a)) under the pointwise condition
    intro hcond
    rw [hdec] at hcond
    have hs' : (caseFlat lcChar s).all isScalar = true :=
      caseFlat_scalar (fun c hc d hd => lc_scalar hc hd) hall
    have hs'ne : caseFlat lcChar s ≠ [] := caseFlat_ne_nil lc_ne_nil hsne
    have hlo : toLower a = encodeScalars (caseFlat lcChar s) := by
      rw [toLower, encode_single_chunk lcChar hch, hdec]
    rw [eqIns_iff_keys, upperKeys_single hch, hdec, hlo]
    rw [upperKeys_single (chunks_encodeScalars hs' hs'ne),
      decode_encodeScalars hs', caseFlat_uc_lc hcond]

/-! The claims. -/

/-- C1: Insensitive equality is an equivalence relation on byte sequences:
`eq(a,a)` holds, `eq(a,b) = eq(b,a)`, and `eq(a,b)` with `eq(b,c)` implies
`eq(a,c)`. -/
theorem insensitive_eq_equivalence (a b c : List Nat) :
    eqIns a a = true ∧ eqIns a b = eqIns b a ∧
      (eqIns a b = true → eqIns b c = true → eqIns a c = true) := by
  refine ⟨(eqIns_iff_keys a a).mpr rfl, ?_, ?_⟩
  · cases hab : eqIns a b with
    | true =>
      exact (((eqIns_iff_keys b a).mpr ((eqIns_iff_keys a b).mp hab).symm)).symm
    | false =>
      cases hba : eqIns b a with
      | false => rfl
      | true =>
        have : eqIns a b = true :=
          (eqIns_iff_keys a b).mpr ((eqIns_iff_keys b a).mp hba).symm
        rw [hab] at this
        exact this
  · intro h1 h2
    exact (eqIns_iff_keys a c).mpr
      (((eqIns_iff_keys a b).mp h1).trans ((eqIns_iff_keys b c).mp h2))

/-- Witness for C1: "abc" is equal to "ABC", "ABC" to "aBc", and transitivity
gives "abc" equal to "aBc". -/
theorem insensitive_eq_equivalence_witness :
    eqIns [0x61, 0x62, 0x63] [0x41, 0x42, 0x43] = true ∧
      eqIns [0x41, 0x42, 0x43] [0x61, 0x42, 0x63] = true ∧
      eqIns [0x61, 0x62, 0x63] [0x61, 0x42, 0x63] = true :=
  ⟨by decide, by decide,
    (insensitive_eq_equivalence [0x61, 0x62, 0x63] [0x41, 0x42, 0x43]
      [0x61, 0x42, 0x63]).2.2 (by decide) (by decide)⟩

/-- C2: if two byte sequences are Insensitive-equal, hashing them performs the
same sequence of hasher writes, so their hashes agree for every hasher. -/
theorem hash_consistency (a b : List Nat) (h : eqIns a b = true) :
    hashTrace a = hashTrace b := by
  rw [hashTrace_keys, hashTrace_keys, (eqIns_iff_keys a b).mp h]

/-- Witness for C2 at "abc" and "Abc". -/
theorem hash_consistency_witness :
    eqIns [0x61, 0x62, 0x63] [0x41, 0x62, 0x63] = true ∧
      hashTrace [0x61, 0x62, 0x63] = hashTrace [0x41, 0x62, 0x63] :=
  ⟨by decide, hash_consistency _ _ (by decide)⟩

/-- C3 fails as stated: "İ" (U+0130, bytes C4 B0) is entirely valid UTF-8, but
it is not Insensitive-equal to its lowercase encoding to_lower("İ") = "i"+U+0307
(bytes 69 CC 87), because upper(lower(U+0130)) = [I, U+0307] differs from
upper(U+0130) = [U+0130]. -/
theorem case_invariance_counterexample :
    isValidUtf8 [0xC4, 0xB0] = true ∧
      eqIns [0xC4, 0xB0] (toLower [0xC4, 0xB0]) = false := by
  decide

/-- C3 (amended): for every byte sequence of valid UTF-8, eq(a, to_upper(a))
holds; and eq(a, to_lower(a)) holds provided every scalar value c of a
satisfies upper(lower(c)) = upper(c) — a condition all of Unicode satisfies
except six scalars such as U+0130. -/
theorem case_invariance_amended (a : List Nat) (hb : isBytes a = true)
    (hv : isValidUtf8 a = true) :
    eqIns a (toUpper a) = true ∧
      ((∀ c ∈ decodeUtf8 a, caseFlat ucChar (lcChar c) = ucChar c) →
        eqIns a (toLower a) = true) :=
  case_invariance hb hv

/-- Witness for C3 (amended) at "a". -/
theorem case_invariance_amended_witness :
    (isBytes [0x61] = true ∧ isValidUtf8 [0x61] = true) ∧
      eqIns [0x61] (toUpper [0x61]) = true ∧
      eqIns [0x61] (toLower [0x61]) = true :=
  ⟨⟨by decide, by decide⟩,
    (case_invariance_amended [0x61] (by decide) (by decide)).1,
    (case_invariance_amended [0x61] (by decide) (by decide)).2 (by decide)⟩

/-- C4 fails as stated: the input FE FE produces two adjacent Invalid segments;
Rust's Utf8Chunks does not merge adjacent invalid runs into one segment. -/
theorem chunk_classes_counterexample : noSameClass (segs [0xFE, 0xFE]) = false := by
  decide

/-- C4 (amended): no two adjacent Valid segments are produced (adjacent valid
runs are merged), every segment is non-empty, and every Invalid segment holds
1 to 3 bytes — a maximal run of invalid bytes may be split into several
consecutive Invalid segments, each a maximal prefix of a valid encoding. -/
theorem chunk_classes_amended (a : List Nat) :
    noAdjacentValid (segs a) = true ∧
      ((segs a).all fun s =>
        match s with
        | .valid v => !v.isEmpty
        | .invalid bs => decide (1 ≤ bs.length) && decide (bs.length ≤ 3)) = true :=
  ⟨segs_noAdjacentValid a, List.all_eq_true.mpr (segs_wellformed a)⟩

/-- C5 fails as stated: the literal bytes C5 E4 D6 are the Latin-1 encoding of
"ÅäÖ", not valid UTF-8; compared with UTF-8 "åäö" + FE + "a" the result is
false (three lone invalid bytes never equal a three-character valid run). -/
theorem scenario6_counterexample :
    eqIns [0xC5, 0xE4, 0xD6, 0xFE, 0x41]
      [0xC3, 0xA5, 0xC3, 0xA4, 0xC3, 0xB6, 0xFE, 0x61] = false := by
  decide

/-- C5 (amended): with the UTF-8 bytes of "ÅäÖ" (C3 85 C3 A4 C3 96) followed
by FE and "A", compared against UTF-8 "åäö" + FE + "a", equality holds. -/
theorem scenario6_amended :
    eqIns [0xC3, 0x85, 0xC3, 0xA4, 0xC3, 0x96, 0xFE, 0x41]
      [0xC3, 0xA5, 0xC3, 0xA4, 0xC3, 0xB6, 0xFE, 0x61] = true := by
  decide

/-- C6: concatenating the valid and invalid parts of all chunks, in order,
reproduces the input byte sequence exactly; no produced chunk is entirely
empty; and the empty input yields zero chunks. -/
theorem segmentation_totality (a : List Nat) :
    ((utf8ChunksList a).map fun ch => ch.1 ++ ch.2).flatten = a ∧
      ((utf8ChunksList a).all fun ch => !(ch.1.isEmpty && ch.2.isEmpty)) = true ∧
      utf8ChunksList [] = [] := by
  refine ⟨chunks_concat a, ?_, rfl⟩
  refine List.all_eq_true.mpr fun ch hch => ?_
  have hne := chunks_ne_nil a ch hch
  cases h1 : ch.1 <;> cases h2 : ch.2 <;> simp_all

/-- C7: to_upper and to_lower produce, chunk by chunk, the UTF-8 encoding of
the case-mapped scalars of the valid run followed by the invalid run copied
verbatim — every invalid byte is passed through unchanged, at the same
relative position among segments. -/
theorem invalid_passthrough (a : List Nat) :
    toUpper a = ((utf8ChunksList a).map fun ch =>
        encodeScalars (chunkValid ucChar ch) ++ ch.2).flatten ∧
      toLower a = ((utf8ChunksList a).map fun ch =>
        encodeScalars (chunkValid lcChar ch) ++ ch.2).flatten := by
  constructor
  · rw [toUpper, encode_flatten]
    rfl
  · rw [toLower, encode_flatten]
    rfl

/-- C8: cmp returns Equal exactly when eq holds; cmp is the lexicographic
comparison of the uppercase-folded chunk streams; when a's chunk stream is a
strict prefix of b's, cmp(a,b) is Less; and cmp is antisymmetric under
argument swap and transitive — a total order consistent with eq. -/
theorem cmp_total_order (a b c : List Nat) :
    (cmpIns a b = .eq ↔ eqIns a b = true) ∧
      cmpIns a b = iterCmp keyCmp (upperKeys a) (upperKeys b) ∧
      (∀ t, t ≠ [] → upperKeys b = upperKeys a ++ t → cmpIns a b = .lt) ∧
      cmpIns b a = (cmpIns a b).swap ∧
      (cmpIns a b = .lt → cmpIns b c = .lt → cmpIns a c = .lt) := by
  refine ⟨?_, cmpIns_keys a b, ?_, ?_, ?_⟩
  · rw [cmpIns_keys, eqIns_iff_keys,
      iterCmp_eq_iff keyCmp (fun _ _ => keyCmp_eq_iff)]
  · intro t ht hkeys
    rw [cmpIns_keys, hkeys]
    exact iterCmp_strict_pre keyCmp keyCmp_refl _ t ht
  · rw [cmpIns_keys, cmpIns_keys]
    exact iterCmp_swap keyCmp keyCmp_swap _ _
  · rw [cmpIns_keys, cmpIns_keys, cmpIns_keys]
    exact iterCmp_lt_trans keyCmp (fun _ _ => keyCmp_eq_iff)
      (fun h1 h2 => keyCmp_lt_trans h1 h2) _ _ _

/-- Witness for C8: FE is a strict chunk-stream prefix of FE FE, so it compares
Less; transitivity extends this to FE FE FE. -/
theorem cmp_total_order_witness :
    cmpIns [0xFE] [0xFE, 0xFE] = .lt ∧ cmpIns [0xFE] [0xFE, 0xFE, 0xFE] = .lt :=
  ⟨(cmp_total_order [0xFE] [0xFE, 0xFE] []).2.2.1 [([], [0xFE])] (by decide) (by decide),
    (cmp_total_order [0xFE] [0xFE, 0xFE] [0xFE, 0xFE, 0xFE]).2.2.2.2
      (by decide) (by decide)⟩

/-- C9: len returns the raw byte count of the underlying slice, and there are
Insensitive-equal byte sequences of different lengths (dotless "ı", two bytes,
is equal to "I", one byte). -/
theorem len_raw_bytes :
    (∀ a : List Nat, lenIns a = a.length) ∧
      ∃ a b : List Nat, eqIns a b = true ∧ lenIns a ≠ lenIns b :=
  ⟨fun _ => rfl, [0xC4, 0xB1], [0x49], by decide, by decide⟩

/-- C10: extend_from_slice_reversed leaves the existing contents in place as
the prefix of the buffer and appends exactly the reversed slice after them. -/
theorem extend_reversed_frame (p s : List Nat) :
    (extendFromSliceReversed p s).take p.length = p ∧
      extendFromSliceReversed p s = p ++ s.reverse := by
  have h := extendRev_eq p s
  refine ⟨?_, h⟩
  rw [h]
  exact List.take_left p s.reverse

end Insensitive
